import Mathlib

/-! # Tracker update engine

A shallow embedding of `src/libtracker-data/tracker-data-update.c`: the update
buffer, the decomposition of statements into staged table operations, the
flush of the buffer into SQL statements, the resource-tree writer and the
transaction life cycle.

Conventions of the embedding.

* Pointers to ontology objects (`TrackerClass *`, `TrackerProperty *`) are
  natural numbers; pointer comparison is equality of these numbers.  The
  ontology registry is part of `TrackerDataManager` and is read-only.
* The C functions mutate a `TrackerData`; here every function takes the state
  and returns the new state.  A `GError **` out-parameter becomes the `error`
  field of the returned `Ret`; the state is returned also when an error is set,
  because the C code keeps whatever it changed before failing.
* Aborts (`g_assert`, `g_error`, dereferencing `NULL`, reading an
  uninitialised pointer) and running out of recursion fuel are results of type
  `Fatal`.
* `gint`/`gint64` are unbounded integers; no claim settled here depends on
  wrap-around.
* Hash tables are association lists; iteration follows insertion order (the C
  iteration order is unspecified).
* The backing store is a list of rows per table; the statements the C code
  prepares are kept as structured values together with their bound parameters.
-/

namespace Tracker

/-! ## Scalars and values -/

/-- A `gdouble`, kept as an uninterpreted bit pattern.  All arithmetic on
doubles is delegated to the functions of `TrackerDataManager`. -/
structure gdouble where
  bits : Nat
deriving DecidableEq, Repr

/-- A `GBytes` holding an object of a statement: NUL-terminated text, followed
by a language tag when the length exceeds `strlen + 1`. -/
structure GBytes where
  text : String
  langtag : Option String
deriving DecidableEq, Repr

/-- Pointer to a `TrackerClass`. -/
abbrev TrackerClass := Nat

/-- Pointer to a `TrackerProperty`. -/
abbrev TrackerProperty := Nat

/-- Pointer to a `TrackerResource` of a resource tree. -/
abbrev TrackerResource := Nat

/-- The `GValue` variants that reach this file: the first five are held in
value sets, the others only occur in resource trees. -/
inductive GValue
  | string (s : String)
  | int64 (i : Int)
  | double (d : gdouble)
  | date_time (time : gdouble) (offset : Int)
  | bytes (b : GBytes)
  | gboolean (b : Bool)
  | int (i : Int)
  | uri (s : String)
  | resource (r : TrackerResource)
  | g_date_time (iso8601 : String)
deriving DecidableEq, Repr

/-- Error codes of `TRACKER_SPARQL_ERROR`, and errors of other domains that are
propagated verbatim. -/
inductive GError
  | CONSTRAINT
  | INTERNAL
  | NO_SPACE
  | ONTOLOGY_NOT_FOUND
  | OPEN_ERROR
  | PARSE
  | QUERY_FAILED
  | TYPE
  | UNKNOWN_CLASS
  | UNKNOWN_GRAPH
  | UNKNOWN_PROPERTY
  | UNSUPPORTED
  | DATE (code : Nat)
  | DB (code : Nat)
deriving DecidableEq, Repr

/-- Ways in which a call does not return. -/
inductive Fatal
  | out_of_fuel
  | assertion_failed
  | g_error_abort
  | null_dereference
  | uninitialised_read
deriving DecidableEq, Repr

/-- Result of a call that may abort. -/
abbrev Run (α : Type) := Except Fatal α

deriving instance DecidableEq for Except

/-! ## Ontology -/

inductive TrackerPropertyType
  | UNKNOWN
  | STRING
  | BOOLEAN
  | INTEGER
  | DOUBLE
  | DATE
  | DATETIME
  | RESOURCE
  | LANGSTRING
deriving DecidableEq, Repr

/-- What the getters of `tracker-class.h` return for one class. -/
structure ClassRecord where
  id : Int
  uri : String
  name : String
  super_classes : List TrackerClass
  domain_indexes : Option (List TrackerProperty)

/-- What the getters of `tracker-property.h` return for one property. -/
structure PropertyRecord where
  id : Int
  uri : String
  name : String
  table_name : String
  domain : TrackerClass
  data_type : TrackerPropertyType
  multiple_values : Bool
  fulltext_indexed : Bool
  super_properties : List TrackerProperty
  domain_indexes : List TrackerClass

/-- The ontology registry (`tracker-ontologies.h`). -/
structure TrackerOntologies where
  classes : List TrackerClass
  properties : List TrackerProperty
  class_record : TrackerClass → ClassRecord
  property_record : TrackerProperty → PropertyRecord
  rdf_type : TrackerProperty

/-! ## Backing store -/

/-- A value bound to a statement parameter or stored in a column. -/
inductive SqlValue
  | null
  | integer (i : Int)
  | real (d : gdouble)
  | text (s : String)
  | blob (b : GBytes)
deriving DecidableEq, Repr

/-- The statements this file prepares, with their bound parameters.
`placeholders` of a statement is the number of `?` in its text. -/
inductive SqlStmt
  /-- DELETE FROM "db"."table" WHERE ID = ? -/
  | delete_id (database table : String) (params : List SqlValue)
  /-- DELETE FROM "db"."table" WHERE ID = ? AND "column" = ? -/
  | delete_value (database table column : String) (params : List SqlValue)
  /-- INSERT OR IGNORE INTO "db"."table" (ID, "column") VALUES (?, ?) -/
  | insert_or_ignore (database table column : String) (params : List SqlValue)
  /-- INSERT INTO "db"."table" (ID, columns) VALUES (?, ...) -/
  | insert_row (database table : String) (columns : List String) (params : List SqlValue)
  /-- UPDATE "db"."table" SET "column" = ?, ... WHERE ID = ? -/
  | update_row (database table : String) (columns : List String) (params : List SqlValue)
  /-- INSERT INTO Resource (ID, Uri, BlankNode) VALUES (?, ?, ?) -/
  | insert_resource (params : List SqlValue)
  /-- INSERT OR IGNORE INTO Graph (ID) VALUES (?) -/
  | insert_graph (params : List SqlValue)
  /-- DELETE FROM Graph WHERE ID = ? -/
  | delete_graph (params : List SqlValue)
deriving DecidableEq, Repr

/-- One row of a table of the store: the ID column and the other columns. -/
structure Row where
  id : Int
  cols : List (String × SqlValue)
deriving DecidableEq, Repr

/-- One table of an attached database. -/
structure DbTable where
  database : String
  name : String
  rows : List Row
deriving DecidableEq, Repr

/-- A call into the full-text-search extension. -/
inductive FtsCall
  | update_text (database : String) (id : Int) (properties text : List String)
  | delete_text (database : String) (id : Int) (properties text : List String)
  | delete_id (database : String) (id : Int)
deriving DecidableEq, Repr

/-- A call of the transaction life cycle into the database interface or the
graph manager. -/
inductive StoreCall
  /-- PRAGMA cache_size = TRACKER_DB_CACHE_SIZE_UPDATE -/
  | pragma_cache_size_update
  /-- PRAGMA cache_size = TRACKER_DB_CACHE_SIZE_DEFAULT -/
  | pragma_cache_size_default
  | start_transaction
  | end_db_transaction
  /-- The query ROLLBACK. -/
  | rollback
  | commit_graphs
  | rollback_graphs
deriving DecidableEq, Repr

/-- The backing store: the `Resource` and `Graph` tables, the ontology-shaped
tables of every attached database, and the trace of what was executed.  The
calls of the transaction life cycle are recorded in `calls`; what the store
and the graph manager do on them (in particular undoing the statements of a
transaction that is rolled back) is not part of the embedding. -/
structure Database where
  resource : List (Int × String × Int)
  graph : List Int
  tables : List DbTable
  journal : List SqlStmt
  fts_journal : List FtsCall
  calls : List StoreCall := []
deriving DecidableEq, Repr

/-! ## Collaborators reached through `data->manager` -/

/-- Everything read-only that the C code reaches through `data->manager` or
through library calls whose source is not part of this file. -/
structure TrackerDataManager where
  ontologies : TrackerOntologies
  /-- Value of the constant `TRACKER_ONTOLOGIES_MAX_ID`. -/
  TRACKER_ONTOLOGIES_MAX_ID : Int
  /-- `tracker_string_to_date`, seconds since the epoch or an error. -/
  tracker_string_to_date : String → Except GError Int
  /-- `tracker_date_time_set_from_string`, time and UTC offset or an error. -/
  tracker_date_time_set_from_string : String → Except GError (gdouble × Int)
  /-- `tracker_date_to_string`. -/
  tracker_date_to_string : gdouble → Int → String
  /-- `g_ascii_strtod`. -/
  g_ascii_strtod : String → gdouble
  /-- `g_ascii_dtostr`. -/
  g_ascii_dtostr : gdouble → String
  /-- The C comparison `a == b` on doubles. -/
  double_eq : gdouble → gdouble → Bool
  /-- The C test `fabs (a - b) < 0.001` on doubles. -/
  double_near : gdouble → gdouble → Bool
  /-- The C test `floor (a) != a`. -/
  double_has_fraction : gdouble → Bool
  /-- The C conversion `round (a)` to an integer. -/
  double_round : gdouble → Int
  /-- The C conversion of a `gint64` to a double. -/
  double_of_int : Int → gdouble
  /-- `tracker_data_manager_expand_prefix`, the expanded URI (the term itself
  when no prefix matches). -/
  expand : String → String
  /-- `tracker_data_query_unused_uuid`, the n-th identifier it mints. -/
  unused_uuid : Nat → String
  /-- `tracker_db_manager_has_enough_space`. -/
  has_enough_space : Bool
  /-- Error with which the store rejects a statement, if it does. -/
  db_error : SqlStmt → Option GError
  /-- Error with which `tracker_data_manager_create_graph` fails, if it does. -/
  create_graph_error : String → Option GError
  /-- Error with which `tracker_db_interface_end_db_transaction` fails, if it
  does. -/
  end_db_transaction_error : Option GError := none

/-! ## The update buffer -/

structure TrackerDataUpdateBufferProperty where
  name : String
  /-- The staged value; `none` is the zeroed `GValue` of `cache_delete_all_values`. -/
  value : Option GValue
  date_time : Bool
  fts : Bool
  delete_all_values : Bool
deriving DecidableEq, Repr

structure TrackerDataUpdateBufferTable where
  insert : Bool
  delete_row : Bool
  delete_value : Bool
  multiple_values : Bool
  class_ : Option TrackerClass
  properties : List TrackerDataUpdateBufferProperty
deriving DecidableEq, Repr

structure TrackerDataUpdateBufferResource where
  /-- Name of the graph buffer this resource belongs to (`graph->graph`). -/
  graph : Option String
  /-- Id of that graph buffer (`graph->id`). -/
  graph_id : Int
  subject : String
  id : Int
  create : Bool
  modified : Bool
  predicates : List (TrackerProperty × List GValue)
  tables : List (String × TrackerDataUpdateBufferTable)
  types : List TrackerClass
  fts_updated : Bool
deriving DecidableEq, Repr

structure TrackerDataUpdateBufferGraph where
  graph : Option String
  id : Int
  resources : List (String × TrackerDataUpdateBufferResource)
deriving DecidableEq, Repr

structure TrackerDataUpdateBuffer where
  resource_cache : List (String × Int)
  graphs : List TrackerDataUpdateBufferGraph
  fts_ever_updated : Bool
deriving DecidableEq, Repr

/-- A registered callback with its user data. -/
structure TrackerStatementDelegate where
  callback : Nat
  user_data : Nat
deriving DecidableEq, Repr

/-- One invocation of a statement callback with the arguments it received. -/
structure StatementEvent where
  delegate : TrackerStatementDelegate
  graph_id : Int
  graph : Option String
  subject_id : Int
  subject : String
  predicate_id : Int
  object_id : Int
  object : String
  rdf_types : List TrackerClass
deriving DecidableEq, Repr

/-- The `TrackerData` object, together with the mutable state it reaches
through its manager (the store, the graph registry, the uuid source) and the
trace of the callbacks it invoked.

`resource_buffer` holds the current resource itself; the entry of the same
subject inside `update_buffer.graphs` is refreshed from it by `sync` before the
buffer is read. -/
structure TrackerData where
  in_transaction : Bool
  in_ontology_transaction : Bool
  update_buffer : TrackerDataUpdateBuffer
  resource_buffer : Option TrackerDataUpdateBufferResource
  resource_time : Int
  transaction_modseq : Int
  has_persistent : Bool
  insert_callbacks : Option (List TrackerStatementDelegate)
  delete_callbacks : Option (List TrackerStatementDelegate)
  commit_callbacks : Option (List TrackerStatementDelegate)
  rollback_callbacks : Option (List TrackerStatementDelegate)
  max_service_id : Int
  max_ontology_id : Int
  db : Database
  /-- Graphs known to the graph manager, name and id. -/
  manager_graphs : List (String × Int)
  /-- Number of identifiers minted by `tracker_data_query_unused_uuid`. -/
  uuid_count : Nat
  /-- Value `time (NULL)` returns. -/
  clock : Int
  insert_log : List StatementEvent
  delete_log : List StatementEvent
  commit_log : List TrackerStatementDelegate
  rollback_log : List TrackerStatementDelegate
deriving DecidableEq, Repr

/-- State, error and return value of a call with a `GError **` parameter. -/
structure Ret (α : Type) where
  data : TrackerData
  error : Option GError
  val : α

/-! ## Small library functions -/

/-- `g_str_has_prefix`. -/
def g_str_starts_with (s p : String) : Bool :=
  List.isPrefixOf p.data s.data

/-- The test `g_ascii_strncasecmp (value, "true", 4) == 0`. -/
def g_ascii_strncasecmp_true_4 (value : String) : Bool :=
  (value.data.take 4).map Char.toLower == ['t', 'r', 'u', 'e']

/-- Value of a run of decimal digits, most significant first, up to the first
character that is not a digit. -/
def digits_value : List Char → Nat → Nat
  | [], acc => acc
  | c :: cs, acc => if c.isDigit then digits_value cs (acc * 10 + (c.toNat - 48)) else acc

/-- `atoll`: optional leading blanks, an optional sign, then decimal digits. -/
def atoll (s : String) : Int :=
  match s.data.dropWhile (fun c => c == ' ' || c == '\t' || c == '\n') with
  | '-' :: cs => - (digits_value cs 0 : Int)
  | '+' :: cs => (digits_value cs 0 : Int)
  | cs => (digits_value cs 0 : Int)

/-- `g_strdup_printf ("%d", i)` and `g_strdup_printf ("%" G_GINT64_FORMAT, i)`. -/
def g_strdup_printf_d (i : Int) : String :=
  toString i

/-- `g_value_get_string`, the empty text standing for the `NULL` it returns on
a value that holds no string. -/
def g_value_get_string : GValue → String
  | GValue.string s => s
  | GValue.uri s => s
  | _ => ""

/-- Lookup in an association list (`g_hash_table_lookup`). -/
def assoc_lookup {κ β : Type} [DecidableEq κ] (k : κ) : List (κ × β) → Option β
  | [] => none
  | (k1, v) :: rest => if k1 = k then some v else assoc_lookup k rest

/-- Insert into an association list, replacing the value of a key that is
already present (`g_hash_table_insert`). -/
def assoc_insert {κ β : Type} [DecidableEq κ] (k : κ) (v : β) : List (κ × β) → List (κ × β)
  | [] => [(k, v)]
  | (k1, v1) :: rest => if k1 = k then (k, v) :: rest else (k1, v1) :: assoc_insert k v rest

/-! ## Ontology getters -/

def tracker_class_get_id (m : TrackerDataManager) (cl : TrackerClass) : Int :=
  (m.ontologies.class_record cl).id

def tracker_class_get_uri (m : TrackerDataManager) (cl : TrackerClass) : String :=
  (m.ontologies.class_record cl).uri

def tracker_class_get_name (m : TrackerDataManager) (cl : TrackerClass) : String :=
  (m.ontologies.class_record cl).name

def tracker_class_get_super_classes (m : TrackerDataManager) (cl : TrackerClass) :
    List TrackerClass :=
  (m.ontologies.class_record cl).super_classes

def tracker_class_get_domain_indexes (m : TrackerDataManager) (cl : TrackerClass) :
    Option (List TrackerProperty) :=
  (m.ontologies.class_record cl).domain_indexes

def tracker_property_get_id (m : TrackerDataManager) (p : TrackerProperty) : Int :=
  (m.ontologies.property_record p).id

def tracker_property_get_uri (m : TrackerDataManager) (p : TrackerProperty) : String :=
  (m.ontologies.property_record p).uri

def tracker_property_get_name (m : TrackerDataManager) (p : TrackerProperty) : String :=
  (m.ontologies.property_record p).name

def tracker_property_get_table_name (m : TrackerDataManager) (p : TrackerProperty) : String :=
  (m.ontologies.property_record p).table_name

def tracker_property_get_domain (m : TrackerDataManager) (p : TrackerProperty) : TrackerClass :=
  (m.ontologies.property_record p).domain

def tracker_property_get_data_type (m : TrackerDataManager) (p : TrackerProperty) :
    TrackerPropertyType :=
  (m.ontologies.property_record p).data_type

def tracker_property_get_multiple_values (m : TrackerDataManager) (p : TrackerProperty) : Bool :=
  (m.ontologies.property_record p).multiple_values

def tracker_property_get_fulltext_indexed (m : TrackerDataManager) (p : TrackerProperty) : Bool :=
  (m.ontologies.property_record p).fulltext_indexed

def tracker_property_get_super_properties (m : TrackerDataManager) (p : TrackerProperty) :
    List TrackerProperty :=
  (m.ontologies.property_record p).super_properties

def tracker_property_get_domain_indexes (m : TrackerDataManager) (p : TrackerProperty) :
    List TrackerClass :=
  (m.ontologies.property_record p).domain_indexes

/-- `tracker_ontologies_get_class_by_uri`. -/
def tracker_ontologies_get_class_by_uri (m : TrackerDataManager) (uri : String) :
    Option TrackerClass :=
  m.ontologies.classes.find? (fun cl => decide (tracker_class_get_uri m cl = uri))

/-- `tracker_ontologies_get_property_by_uri`. -/
def tracker_ontologies_get_property_by_uri (m : TrackerDataManager) (uri : String) :
    Option TrackerProperty :=
  m.ontologies.properties.find? (fun p => decide (tracker_property_get_uri m p = uri))

/-- Value of `TRACKER_PREFIX_RDF "type"`. -/
def RDF_TYPE_URI : String := "http://www.w3.org/1999/02/22-rdf-syntax-ns#type"

/-- Value of `TRACKER_PREFIX_RDFS "Resource"`. -/
def RDFS_RESOURCE_URI : String := "http://www.w3.org/2000/01/rdf-schema#Resource"

/-! ## The store: queries and execution of statements -/

/-- Rows of one table of one attached database; no rows when the table is
unknown. -/
def Database.rows_of (db : Database) (database table : String) : List Row :=
  match db.tables.find? (fun t => decide (t.database = database ∧ t.name = table)) with
  | some t => t.rows
  | none => []

/-- Replace the rows of a table, creating the table when it is unknown. -/
def Database.set_rows (db : Database) (database table : String) (rows : List Row) : Database :=
  if db.tables.any (fun t => decide (t.database = database ∧ t.name = table)) then
    { db with tables := db.tables.map (fun t =>
        if t.database = database ∧ t.name = table then { t with rows := rows } else t) }
  else
    { db with tables := db.tables ++ [{ database := database, name := table, rows := rows }] }

/-- Value of a column of a row, `NULL` when the row does not set it. -/
def Row.column (r : Row) (column : String) : SqlValue :=
  (assoc_lookup column r.cols).getD SqlValue.null

/-- Assign columns of a row in the given order. -/
def Row.assign (r : Row) : List String → List SqlValue → Row
  | c :: cs, v :: vs => Row.assign { r with cols := assoc_insert c v r.cols } cs vs
  | _, _ => r

/-- The id bound to a statement parameter (0 when the parameter is no integer). -/
def SqlValue.to_int : SqlValue → Int
  | SqlValue.integer i => i
  | _ => 0

/-- Effect of a statement on the tables of the store. -/
def Database.apply (db : Database) : SqlStmt → Database
  | SqlStmt.delete_id database table [id] =>
      db.set_rows database table
        ((db.rows_of database table).filter (fun r => decide (r.id ≠ id.to_int)))
  | SqlStmt.delete_value database table column [id, v] =>
      if v = SqlValue.null then db
      else db.set_rows database table
        ((db.rows_of database table).filter
          (fun r => decide (¬ (r.id = id.to_int ∧ r.column column = v))))
  | SqlStmt.insert_or_ignore database table column [id, v] =>
      if (db.rows_of database table).any
          (fun r => decide (r.id = id.to_int ∧ r.column column = v)) then db
      else db.set_rows database table
        (db.rows_of database table ++ [{ id := id.to_int, cols := [(column, v)] }])
  | SqlStmt.insert_row database table columns (id :: vals) =>
      db.set_rows database table
        (db.rows_of database table ++ [Row.assign { id := id.to_int, cols := [] } columns vals])
  | SqlStmt.update_row database table columns params =>
      db.set_rows database table
        ((db.rows_of database table).map (fun r =>
          if r.id = ((params.drop columns.length).headD SqlValue.null).to_int
          then Row.assign r columns params else r))
  | SqlStmt.insert_resource [id, SqlValue.text uri, blank] =>
      { db with resource := db.resource ++ [(id.to_int, uri, blank.to_int)] }
  | SqlStmt.insert_graph [id] =>
      if id.to_int ∈ db.graph then db else { db with graph := db.graph ++ [id.to_int] }
  | SqlStmt.delete_graph [id] =>
      { db with graph := db.graph.filter (fun g => decide (g ≠ id.to_int)) }
  | _ => db

/-- Execute a prepared statement: the store either rejects it with an error or
applies it and records it. -/
def Database.exec (m : TrackerDataManager) (db : Database) (stmt : SqlStmt) :
    Except GError Database :=
  match m.db_error stmt with
  | some e => Except.error e
  | none => Except.ok { db.apply stmt with journal := db.journal ++ [stmt] }

/-- The query `SELECT ID FROM Resource WHERE Uri = ?` of
`tracker_data_query_resource_id`, 0 when there is no such row. -/
def tracker_data_query_resource_id (db : Database) (uri : String) : Int :=
  match db.resource.find? (fun r => decide (r.2.1 = uri)) with
  | some r => r.1
  | none => 0

/-- The sub-select `SELECT Uri FROM Resource WHERE ID = ?`. -/
def Database.uri_of_id (db : Database) (id : Int) : Option String :=
  match db.resource.find? (fun r => decide (r.1 = id)) with
  | some r => some r.2.1
  | none => none

/-- Name of the attached database of a graph. -/
def database_of (graph : Option String) : String :=
  graph.getD "main"

/-! ## Callback dispatch -/

/-- The calls one dispatch makes: every delegate receives the current resource's
graph, id, subject and types together with the statement. -/
def statement_events (rb : TrackerDataUpdateBufferResource)
    (delegates : List TrackerStatementDelegate) (predicate_id object_id : Int)
    (object : String) : List StatementEvent :=
  delegates.map (fun d =>
    { delegate := d, graph_id := rb.graph_id, graph := rb.graph, subject_id := rb.id,
      subject := rb.subject, predicate_id := predicate_id, object_id := object_id,
      object := object, rdf_types := rb.types })

def tracker_data_dispatch_insert_statement_callbacks (data : TrackerData)
    (predicate_id object_id : Int) (object : String) : Run TrackerData :=
  match data.insert_callbacks, data.resource_buffer with
  | none, _ => Except.ok data
  | some [], none => Except.ok data
  | some (_ :: _), none => Except.error Fatal.null_dereference
  | some ds, some rb =>
      Except.ok { data with
        insert_log := data.insert_log ++ statement_events rb ds predicate_id object_id object }

def tracker_data_dispatch_delete_statement_callbacks (data : TrackerData)
    (predicate_id object_id : Int) (object : String) : Run TrackerData :=
  match data.delete_callbacks, data.resource_buffer with
  | none, _ => Except.ok data
  | some [], none => Except.ok data
  | some (_ :: _), none => Except.error Fatal.null_dereference
  | some ds, some rb =>
      Except.ok { data with
        delete_log := data.delete_log ++ statement_events rb ds predicate_id object_id object }

def tracker_data_dispatch_commit_statement_callbacks (data : TrackerData) : TrackerData :=
  match data.commit_callbacks with
  | none => data
  | some ds => { data with commit_log := data.commit_log ++ ds }

def tracker_data_dispatch_rollback_statement_callbacks (data : TrackerData) : TrackerData :=
  match data.rollback_callbacks with
  | none => data
  | some ds => { data with rollback_log := data.rollback_log ++ ds }

/-! ## Resource ids and the modification sequence -/

/-- `SELECT MAX(ID) FROM Resource [WHERE ID <= bound]` read through
`tracker_db_cursor_get_int`: 0 when the result is `NULL`. -/
def select_max_resource_id (db : Database) (bound : Option Int) : Int :=
  match (db.resource.map (fun r => r.1)).filter
      (fun i => match bound with | some b => decide (i ≤ b) | none => true) with
  | [] => 0
  | i :: rest => rest.foldl max i

def tracker_data_update_get_new_service_id (m : TrackerDataManager) (data : TrackerData) :
    TrackerData × Int :=
  if data.in_ontology_transaction then
    if data.max_ontology_id ≠ 0 then
      ({ data with max_ontology_id := data.max_ontology_id + 1 }, data.max_ontology_id + 1)
    else
      let found := max (select_max_resource_id data.db (some m.TRACKER_ONTOLOGIES_MAX_ID))
        data.max_ontology_id
      ({ data with max_ontology_id := found + 1 }, found + 1)
  else
    if data.max_service_id ≠ 0 then
      ({ data with max_service_id := data.max_service_id + 1 }, data.max_service_id + 1)
    else
      let found := max (select_max_resource_id data.db none) m.TRACKER_ONTOLOGIES_MAX_ID
      ({ data with max_service_id := found + 1 }, found + 1)

/-- The integer a row holds in a column, read through `tracker_db_cursor_get_int`. -/
def Row.int_column (r : Row) (column : String) : Int :=
  (r.column column).to_int

def tracker_data_update_get_next_modseq (data : TrackerData) : Int :=
  let stored := match (data.db.rows_of "main" "rdfs:Resource").map
      (fun r => r.int_column "nrl:modified") with
    | [] => 0
    | i :: rest => rest.foldl max i
  max stored 0 + 1

def get_transaction_modseq (data : TrackerData) : TrackerData × Int :=
  let data1 :=
    if data.transaction_modseq = 0 then
      { data with transaction_modseq := tracker_data_update_get_next_modseq data }
    else data
  if data1.in_ontology_transaction then (data1, 1) else (data1, data1.transaction_modseq)

/-! ## Staging of table operations -/

def cache_table_new (multiple_values : Bool) : TrackerDataUpdateBufferTable :=
  { insert := false, delete_row := false, delete_value := false,
    multiple_values := multiple_values, class_ := none, properties := [] }

/-- Lines 655 to 660 of `cache_ensure_table`: look the table up and create it
when it is missing. -/
def tables_ensure (tables : List (String × TrackerDataUpdateBufferTable))
    (table_name : String) (multiple_values : Bool) :
    List (String × TrackerDataUpdateBufferTable) :=
  match assoc_lookup table_name tables with
  | some _ => tables
  | none => tables ++
      [(table_name, { cache_table_new multiple_values with insert := multiple_values })]

/-- A write through the `table` pointer that `cache_ensure_table` returned. -/
def tables_modify (tables : List (String × TrackerDataUpdateBufferTable))
    (table_name : String) (f : TrackerDataUpdateBufferTable → TrackerDataUpdateBufferTable) :
    List (String × TrackerDataUpdateBufferTable) :=
  tables.map (fun e => if e.1 = table_name then (e.1, f e.2) else e)

/-- Append a property to the `properties` array of a table. -/
def table_append (p : TrackerDataUpdateBufferProperty) (t : TrackerDataUpdateBufferTable) :
    TrackerDataUpdateBufferTable :=
  { t with properties := t.properties ++ [p] }

/-- The property `cache_insert_value` and `cache_delete_value` build. -/
def buffer_property (field_name : String) (value : GValue) (fts date_time : Bool) :
    TrackerDataUpdateBufferProperty :=
  { name := field_name, value := some value, date_time := date_time, fts := fts,
    delete_all_values := false }

/-- `cache_ensure_table`.  On the first modification of the resource it stages
`nrl:modified` through `cache_insert_value`, whose own call of
`cache_ensure_table` finds `modified` set and only ensures `rdfs:Resource`. -/
def cache_ensure_table (data : TrackerData) (table_name : String) (multiple_values : Bool) :
    Run TrackerData :=
  match data.resource_buffer with
  | none => Except.error Fatal.null_dereference
  | some rb =>
      if rb.modified then
        Except.ok { data with
          resource_buffer :=
            some { rb with tables := tables_ensure rb.tables table_name multiple_values } }
      else
        let r := get_transaction_modseq data
        let tables1 := tables_modify (tables_ensure rb.tables "rdfs:Resource" false)
          "rdfs:Resource"
          (table_append (buffer_property "nrl:modified" (GValue.int64 r.2) false false))
        Except.ok { r.1 with
          resource_buffer :=
            some { rb with
              modified := true,
              tables := tables_ensure tables1 table_name multiple_values } }

/-- Apply a write to a table of the current resource. -/
def modify_table (data : TrackerData) (table_name : String)
    (f : TrackerDataUpdateBufferTable → TrackerDataUpdateBufferTable) : TrackerData :=
  match data.resource_buffer with
  | none => data
  | some rb =>
      { data with resource_buffer := some { rb with tables := tables_modify rb.tables table_name f } }

def cache_insert_row (m : TrackerDataManager) (data : TrackerData) (cl : TrackerClass) :
    Run TrackerData :=
  match cache_ensure_table data (tracker_class_get_name m cl) false with
  | Except.error e => Except.error e
  | Except.ok data1 =>
      Except.ok (modify_table data1 (tracker_class_get_name m cl)
        (fun t => { t with class_ := some cl, insert := true }))

def cache_insert_value (data : TrackerData) (table_name field_name : String) (value : GValue)
    (multiple_values fts date_time : Bool) : Run TrackerData :=
  match cache_ensure_table data table_name multiple_values with
  | Except.error e => Except.error e
  | Except.ok data1 =>
      Except.ok (modify_table data1 table_name
        (table_append (buffer_property field_name value fts date_time)))

def cache_delete_row (m : TrackerDataManager) (data : TrackerData) (cl : TrackerClass) :
    Run TrackerData :=
  match cache_ensure_table data (tracker_class_get_name m cl) false with
  | Except.error e => Except.error e
  | Except.ok data1 =>
      Except.ok (modify_table data1 (tracker_class_get_name m cl)
        (fun t => { t with class_ := some cl, delete_row := true }))

def cache_delete_all_values (data : TrackerData) (table_name field_name : String)
    (fts date_time : Bool) : Run TrackerData :=
  match cache_ensure_table data table_name true with
  | Except.error e => Except.error e
  | Except.ok data1 =>
      Except.ok (modify_table data1 table_name
        (fun t => table_append
          { name := field_name, value := none, date_time := date_time, fts := fts,
            delete_all_values := true }
          { t with delete_value := true }))

def cache_delete_value (data : TrackerData) (table_name field_name : String) (value : GValue)
    (multiple_values fts date_time : Bool) : Run TrackerData :=
  match cache_ensure_table data table_name multiple_values with
  | Except.error e => Except.error e
  | Except.ok data1 =>
      Except.ok (modify_table data1 table_name
        (fun t => table_append (buffer_property field_name value fts date_time)
          { t with delete_value := true }))

/-! ## Resource id cache -/

def query_resource_id (data : TrackerData) (uri : String) : TrackerData × Int :=
  let id := (assoc_lookup uri data.update_buffer.resource_cache).getD 0
  if id = 0 then
    let id1 := tracker_data_query_resource_id data.db uri
    if id1 ≠ 0 then
      ({ data with
          update_buffer := { data.update_buffer with
            resource_cache := assoc_insert uri id1 data.update_buffer.resource_cache } }, id1)
    else (data, id1)
  else (data, id)

/-- `ensure_resource_id`; the third component is what is stored through the
`create` pointer. -/
def ensure_resource_id (m : TrackerDataManager) (data : TrackerData) (uri : String) :
    Run (TrackerData × Int × Bool) :=
  let q := query_resource_id data uri
  if q.2 = 0 then
    let n := tracker_data_update_get_new_service_id m q.1
    let stmt := SqlStmt.insert_resource
      [SqlValue.integer n.2, SqlValue.text uri,
       SqlValue.integer (if g_str_starts_with uri "urn:bnode:" then 1 else 0)]
    if n.2 > 0 then
      match n.1.db.exec m stmt with
      | Except.error _ => Except.error Fatal.g_error_abort
      | Except.ok db1 =>
          Except.ok ({ n.1 with
            db := db1,
            update_buffer := { n.1.update_buffer with
              resource_cache := assoc_insert uri n.2 n.1.update_buffer.resource_cache } }, n.2, true)
    else
      Except.ok ({ n.1 with
        update_buffer := { n.1.update_buffer with
          resource_cache := assoc_insert uri n.2 n.1.update_buffer.resource_cache } }, n.2, true)
  else Except.ok (q.1, q.2, false)

/-! ## Flushing the buffer -/

/-- `statement_bind_gvalue`: the parameter bound for a staged value; nothing is
bound (and the index is not advanced) for a value of a type it does not know,
in particular for the zeroed value of `cache_delete_all_values`. -/
def statement_bind_gvalue (m : TrackerDataManager) : Option GValue → List SqlValue
  | some (GValue.string s) => [SqlValue.text s]
  | some (GValue.int64 i) => [SqlValue.integer i]
  | some (GValue.double d) => [SqlValue.real d]
  | some (GValue.date_time time offset) =>
      if offset ≠ 0 ∨ m.double_has_fraction time = true then
        [SqlValue.text (m.tracker_date_to_string time offset)]
      else [SqlValue.integer (m.double_round time)]
  | some (GValue.bytes b) =>
      if b.langtag = none then [SqlValue.text b.text] else [SqlValue.blob b]
  | _ => []

/-- Execute one statement against the store of `data`. -/
def execute (m : TrackerDataManager) (data : TrackerData) (stmt : SqlStmt) :
    TrackerData × Option GError :=
  match data.db.exec m stmt with
  | Except.error e => (data, some e)
  | Except.ok db1 => ({ data with db := db1 }, none)

/-- The statement `tracker_data_resource_buffer_flush` issues for one property
of a table of a multi-valued property (lines 900 to 935). -/
def multi_value_statement (m : TrackerDataManager) (database table_name : String) (id : Int)
    (delete_value : Bool) (property : TrackerDataUpdateBufferProperty) : SqlStmt :=
  let params := [SqlValue.integer id] ++
    (if property.delete_all_values then [] else statement_bind_gvalue m property.value)
  if delete_value && property.delete_all_values then
    SqlStmt.delete_id database table_name params
  else if delete_value then
    SqlStmt.delete_value database table_name property.name params
  else
    SqlStmt.insert_or_ignore database table_name property.name params

/-- The loop over the properties of a multi-valued table. -/
def flush_multi_value_table (m : TrackerDataManager) (database table_name : String) (id : Int)
    (delete_value : Bool) :
    List TrackerDataUpdateBufferProperty → TrackerData → TrackerData × Option GError
  | [], data => (data, none)
  | property :: rest, data =>
      match execute m data (multi_value_statement m database table_name id delete_value property) with
      | (data1, some e) => (data1, some e)
      | (data1, none) => flush_multi_value_table m database table_name id delete_value rest data1

/-- The parameters bound for the properties of a single-valued table (lines
1054 to 1062): `NULL` for every property once the table has `delete_value`. -/
def single_value_params (m : TrackerDataManager) (table : TrackerDataUpdateBufferTable) :
    List SqlValue :=
  table.properties.flatMap (fun property =>
    if table.delete_value then [SqlValue.null] else statement_bind_gvalue m property.value)

/-- The branch of a single-valued table (lines 943 to 1075). -/
def flush_single_value_table (m : TrackerDataManager) (data : TrackerData)
    (resource : TrackerDataUpdateBufferResource) (table_name : String)
    (table : TrackerDataUpdateBufferTable) : Run (TrackerData × Option GError) :=
  let database := database_of resource.graph
  if table.delete_row then
    match table.class_ with
    | none => Except.error Fatal.null_dereference
    | some cl =>
        match ensure_resource_id m data (tracker_class_get_uri m cl) with
        | Except.error e => Except.error e
        | Except.ok (data1, class_id, _) =>
            match execute m data1 (SqlStmt.delete_value database "rdfs:Resource_rdf:type"
                "rdf:type" [SqlValue.integer resource.id, SqlValue.integer class_id]) with
            | (data2, some e) => Except.ok (data2, some e)
            | (data2, none) =>
                Except.ok (execute m data2
                  (SqlStmt.delete_id database table_name [SqlValue.integer resource.id]))
  else if table.insert then
    if table_name = "rdfs:Resource" then
      let r := get_transaction_modseq data
      Except.ok (execute m r.1 (SqlStmt.insert_row database table_name
        (["nrl:added", "nrl:modified"] ++ table.properties.map (fun p => p.name))
        ([SqlValue.integer resource.id, SqlValue.integer data.resource_time,
          SqlValue.integer r.2] ++ single_value_params m table)))
    else
      Except.ok (execute m data (SqlStmt.insert_row database table_name
        (table.properties.map (fun p => p.name))
        ([SqlValue.integer resource.id] ++ single_value_params m table)))
  else
    Except.ok (execute m data (SqlStmt.update_row database table_name
      (table.properties.map (fun p => p.name))
      (single_value_params m table ++ [SqlValue.integer resource.id])))

/-- The loop over the tables of a resource (lines 897 to 1076). -/
def flush_tables (m : TrackerDataManager) (resource : TrackerDataUpdateBufferResource) :
    List (String × TrackerDataUpdateBufferTable) → TrackerData → Run (TrackerData × Option GError)
  | [], data => Except.ok (data, none)
  | (table_name, table) :: rest, data =>
      if table.multiple_values then
        match flush_multi_value_table m (database_of resource.graph) table_name resource.id
            table.delete_value table.properties data with
        | (data1, some e) => Except.ok (data1, some e)
        | (data1, none) => flush_tables m resource rest data1
      else
        match flush_single_value_table m data resource table_name table with
        | Except.error e => Except.error e
        | Except.ok (data1, some e) => Except.ok (data1, some e)
        | Except.ok (data1, none) => flush_tables m resource rest data1

/-- The text rebuilt for one full-text-indexed property (lines 1089 to 1094). -/
def fts_text (values : List GValue) : String :=
  values.foldl (fun acc v => acc ++ g_value_get_string v ++ " ") ""

/-- The full-text update at the end of the flush of a resource (lines 1078 to
1119). -/
def flush_fts (m : TrackerDataManager) (data : TrackerData)
    (resource : TrackerDataUpdateBufferResource) : TrackerData :=
  if resource.fts_updated then
    let indexed := resource.predicates.filter
      (fun e => tracker_property_get_fulltext_indexed m e.1)
    if indexed = [] then data
    else
      { data with
        db := { data.db with
          fts_journal := data.db.fts_journal ++
            [FtsCall.update_text (database_of resource.graph) resource.id
              (indexed.map (fun e => tracker_property_get_name m e.1))
              (indexed.map (fun e => fts_text e.2))] },
        update_buffer := { data.update_buffer with fts_ever_updated := true } }
  else data

def tracker_data_resource_buffer_flush (m : TrackerDataManager) (data : TrackerData)
    (resource : TrackerDataUpdateBufferResource) : Run (TrackerData × Option GError) :=
  match flush_tables m resource resource.tables data with
  | Except.error e => Except.error e
  | Except.ok (data1, some e) => Except.ok (data1, some e)
  | Except.ok (data1, none) => Except.ok (flush_fts m data1 resource, none)

/-- Store the current resource back into its slot of the buffer, which is
where the C pointer `data->resource_buffer` points. -/
def sync (data : TrackerData) : TrackerData :=
  match data.resource_buffer with
  | none => data
  | some rb =>
      { data with
        update_buffer := { data.update_buffer with
          graphs := data.update_buffer.graphs.map (fun g =>
            if g.graph = rb.graph then
              { g with resources := g.resources.map (fun e =>
                  if e.1 = rb.subject then (e.1, rb) else e) }
            else g) } }

/-- The loop of `tracker_data_update_buffer_flush` over the resources of all
graphs, stopping at the first error. -/
def flush_resources (m : TrackerDataManager) :
    List TrackerDataUpdateBufferResource → TrackerData → Run (TrackerData × Option GError)
  | [], data => Except.ok (data, none)
  | resource :: rest, data =>
      match tracker_data_resource_buffer_flush m data resource with
      | Except.error e => Except.error e
      | Except.ok (data1, some e) => Except.ok (data1, some e)
      | Except.ok (data1, none) => flush_resources m rest data1

def tracker_data_update_buffer_flush (m : TrackerDataManager) (data : TrackerData) :
    Run (Ret Unit) :=
  let data0 := sync data
  match flush_resources m
      (data0.update_buffer.graphs.flatMap (fun g => g.resources.map (fun e => e.2))) data0 with
  | Except.error e => Except.error e
  | Except.ok (data1, err) =>
      Except.ok
        { data := { data1 with
            update_buffer := { data1.update_buffer with graphs := [] },
            resource_buffer := none },
          error := err, val := () }

/-- The running count of `tracker_data_update_buffer_might_flush` reaches 1000
at some graph. -/
def buffer_is_full : List TrackerDataUpdateBufferGraph → Nat → Bool
  | [], _ => false
  | g :: rest, count =>
      if count + g.resources.length ≥ 1000 then true
      else buffer_is_full rest (count + g.resources.length)

def tracker_data_update_buffer_might_flush (m : TrackerDataManager) (data : TrackerData) :
    Run (Ret Unit) :=
  if buffer_is_full data.update_buffer.graphs 0 then tracker_data_update_buffer_flush m data
  else Except.ok { data := data, error := none, val := () }

def tracker_data_update_buffer_clear (data : TrackerData) : TrackerData :=
  { data with
    update_buffer := { resource_cache := [], graphs := [], fts_ever_updated := false },
    resource_buffer := none }

/-! ## Value sets -/

/-- The `GType` of a value, as far as `value_equal` tells types apart. -/
inductive GType
  | G_TYPE_STRING
  | G_TYPE_INT64
  | G_TYPE_DOUBLE
  | TRACKER_TYPE_DATE_TIME
  | G_TYPE_BYTES
  | G_TYPE_BOOLEAN
  | G_TYPE_INT
  | TRACKER_TYPE_URI
  | TRACKER_TYPE_RESOURCE
  | G_TYPE_DATE_TIME
deriving DecidableEq, Repr

def G_VALUE_TYPE : GValue → GType
  | GValue.string _ => GType.G_TYPE_STRING
  | GValue.int64 _ => GType.G_TYPE_INT64
  | GValue.double _ => GType.G_TYPE_DOUBLE
  | GValue.date_time _ _ => GType.TRACKER_TYPE_DATE_TIME
  | GValue.bytes _ => GType.G_TYPE_BYTES
  | GValue.gboolean _ => GType.G_TYPE_BOOLEAN
  | GValue.int _ => GType.G_TYPE_INT
  | GValue.uri _ => GType.TRACKER_TYPE_URI
  | GValue.resource _ => GType.TRACKER_TYPE_RESOURCE
  | GValue.g_date_time _ => GType.G_TYPE_DATE_TIME

/-- `value_equal`; `g_assert_not_reached` is the fatal result. -/
def value_equal (m : TrackerDataManager) (value1 value2 : GValue) : Run Bool :=
  if G_VALUE_TYPE value1 ≠ G_VALUE_TYPE value2 then Except.ok false
  else
    match value1, value2 with
    | GValue.string s1, GValue.string s2 => Except.ok (decide (s1 = s2))
    | GValue.int64 i1, GValue.int64 i2 => Except.ok (decide (i1 = i2))
    | GValue.double d1, GValue.double d2 => Except.ok (m.double_eq d1 d2)
    | GValue.date_time t1 _, GValue.date_time t2 _ => Except.ok (m.double_near t1 t2)
    | _, _ => Except.error Fatal.assertion_failed

/-- The search loop shared by `value_set_add_value` and
`value_set_remove_value`: is some element of the set equal to the value. -/
def value_set_contains (m : TrackerDataManager) : List GValue → GValue → Run Bool
  | [], _ => Except.ok false
  | v :: rest, value =>
      match value_equal m v value with
      | Except.error e => Except.error e
      | Except.ok true => Except.ok true
      | Except.ok false => value_set_contains m rest value

/-- `value_set_add_value`: the new set and the returned flag.  A value without
a type (`none`) fails the `g_return_val_if_fail`. -/
def value_set_add_value (m : TrackerDataManager) (value_set : List GValue) :
    Option GValue → Run (List GValue × Bool)
  | none => Except.ok (value_set, false)
  | some value =>
      match value_set_contains m value_set value with
      | Except.error e => Except.error e
      | Except.ok true => Except.ok (value_set, false)
      | Except.ok false => Except.ok (value_set ++ [value], true)

/-- The loop of `value_set_remove_value`: remove the first element equal to the
value. -/
def value_set_remove_first (m : TrackerDataManager) : List GValue → GValue →
    Run (List GValue × Bool)
  | [], _ => Except.ok ([], false)
  | v :: rest, value =>
      match value_equal m v value with
      | Except.error e => Except.error e
      | Except.ok true => Except.ok (rest, true)
      | Except.ok false =>
          match value_set_remove_first m rest value with
          | Except.error e => Except.error e
          | Except.ok (rest1, found) => Except.ok (v :: rest1, found)

def value_set_remove_value (m : TrackerDataManager) (value_set : List GValue) :
    Option GValue → Run (List GValue × Bool)
  | none => Except.ok (value_set, false)
  | some value => value_set_remove_first m value_set value

/-! ## Reading the values of a property -/

def check_property_domain (m : TrackerDataManager) (rb : TrackerDataUpdateBufferResource)
    (property : TrackerProperty) : Bool :=
  rb.types.any (fun cl => decide (tracker_property_get_domain m property = cl))

/-- Modelled from the spec: `tracker_db_cursor_get_value` (in
`tracker-db-interface-sqlite.c`) returns an integer column as `G_TYPE_INT64`,
a float column as `G_TYPE_DOUBLE`, no value for `NULL`, and the text of any
other column as `G_TYPE_STRING`; booleans, dates and resource ids are stored
as integers. -/
def tracker_db_cursor_get_value : SqlValue → Option GValue
  | SqlValue.null => none
  | SqlValue.integer i => some (GValue.int64 i)
  | SqlValue.real d => some (GValue.double d)
  | SqlValue.text s => some (GValue.string s)
  | SqlValue.blob b => some (GValue.string b.text)

/-- The conversion `get_property_values` applies to a value of a property of
type `xsd:dateTime` (lines 1438 to 1461). -/
def stored_date_time (m : TrackerDataManager) : GValue → GValue
  | GValue.int64 i => GValue.date_time (m.double_of_int i) 0
  | v =>
      match m.tracker_date_time_set_from_string (g_value_get_string v) with
      | Except.ok (time, offset) => GValue.date_time time offset
      | Except.error _ => GValue.date_time ⟨0⟩ 0

/-- The rows `SELECT "field" FROM "db"."table" WHERE ID = ?` yields, as the
values `get_property_values` appends. -/
def stored_property_values (m : TrackerDataManager) (db : Database)
    (rb : TrackerDataUpdateBufferResource) (property : TrackerProperty) : List GValue :=
  ((db.rows_of (database_of rb.graph) (tracker_property_get_table_name m property)).filter
      (fun r => decide (r.id = rb.id))).filterMap
    (fun r =>
      match tracker_db_cursor_get_value (r.column (tracker_property_get_name m property)) with
      | none => none
      | some v =>
          if tracker_property_get_data_type m property = TrackerPropertyType.DATETIME then
            some (stored_date_time m v)
          else some v)

/-- `get_property_values` on the current resource: the value set it stores
under the property (replacing one that is there) and returns. -/
def get_property_values (m : TrackerDataManager) (db : Database)
    (rb : TrackerDataUpdateBufferResource) (property : TrackerProperty) :
    TrackerDataUpdateBufferResource :=
  { rb with
    predicates := assoc_insert property
      (if rb.create then [] else stored_property_values m db rb property) rb.predicates }

/-- The text handed to `fts_delete_text` for one property (lines 1530 to 1535). -/
def fts_old_text (values : List GValue) : String :=
  String.intercalate "," (values.map g_value_get_string)

/-- The properties read by the first full-text touch of a resource (lines 1516
to 1520). -/
def fts_properties (m : TrackerDataManager) (rb : TrackerDataUpdateBufferResource) :
    List TrackerProperty :=
  m.ontologies.properties.filter
    (fun prop => tracker_property_get_fulltext_indexed m prop && check_property_domain m rb prop)

/-- The loop of lines 1516 to 1540: load every property and collect its text. -/
def fts_load (m : TrackerDataManager) (db : Database) :
    List TrackerProperty → TrackerDataUpdateBufferResource →
    TrackerDataUpdateBufferResource × List String
  | [], rb => (rb, [])
  | prop :: rest, rb =>
      let rb1 := get_property_values m db rb prop
      let r := fts_load m db rest rb1
      (r.1, fts_old_text ((assoc_lookup prop rb1.predicates).getD []) :: r.2)

/-- `get_old_property_values`.  The returned value set is the one stored under
the property in `predicates`; callers that write through the returned pointer
write to that entry. -/
def get_old_property_values (m : TrackerDataManager) (data : TrackerData)
    (property : TrackerProperty) : Run (Ret (Option (List GValue))) :=
  match data.resource_buffer with
  | none => Except.error Fatal.null_dereference
  | some rb =>
      match assoc_lookup property rb.predicates with
      | some old_values => Except.ok { data := data, error := none, val := some old_values }
      | none =>
          if !check_property_domain m rb property then
            Except.ok { data := data, error := some GError.CONSTRAINT, val := none }
          else if tracker_property_get_fulltext_indexed m property then
            if !rb.fts_updated && !rb.create then
              let props := fts_properties m rb
              let r := fts_load m data.db props rb
              let rb1 := { r.1 with fts_updated := true }
              Except.ok
                { data := { data with
                    resource_buffer := some rb1,
                    db := { data.db with
                      fts_journal := data.db.fts_journal ++
                        [FtsCall.delete_text (database_of rb.graph) rb.id
                          (props.map (tracker_property_get_name m)) r.2] },
                    update_buffer := { data.update_buffer with fts_ever_updated := true } },
                  error := none,
                  val := assoc_lookup property rb1.predicates }
            else
              let rb1 := { (get_property_values m data.db rb property) with fts_updated := true }
              Except.ok
                { data := { data with resource_buffer := some rb1 },
                  error := none, val := assoc_lookup property rb1.predicates }
          else
            let rb1 := get_property_values m data.db rb property
            Except.ok
              { data := { data with resource_buffer := some rb1 },
                error := none, val := assoc_lookup property rb1.predicates }

/-- Write through the pointer `get_old_property_values` returned. -/
def set_property_values (data : TrackerData) (property : TrackerProperty)
    (values : List GValue) : TrackerData :=
  match data.resource_buffer with
  | none => data
  | some rb =>
      { data with
        resource_buffer := some { rb with predicates := assoc_insert property values rb.predicates } }

/-- The array behind the pointer `get_old_property_values` returned, as it is
now. -/
def current_property_values (data : TrackerData) (property : TrackerProperty) :
    Option (List GValue) :=
  match data.resource_buffer with
  | none => none
  | some rb => assoc_lookup property rb.predicates

/-! ## Conversion between objects and values -/

/-- `bytes_to_gvalue`; the value is `none` when the `GValue` stays
uninitialised (unknown property type). -/
def bytes_to_gvalue (m : TrackerDataManager) (data : TrackerData) (bytes : GBytes)
    (type : TrackerPropertyType) : Run (Ret (Option GValue)) :=
  match type with
  | TrackerPropertyType.STRING =>
      Except.ok { data := data, error := none, val := some (GValue.string bytes.text) }
  | TrackerPropertyType.LANGSTRING =>
      Except.ok { data := data, error := none, val := some (GValue.bytes bytes) }
  | TrackerPropertyType.INTEGER =>
      Except.ok { data := data, error := none, val := some (GValue.int64 (atoll bytes.text)) }
  | TrackerPropertyType.BOOLEAN =>
      Except.ok { data := data, error := none,
                  val := some (GValue.int64 (if g_ascii_strncasecmp_true_4 bytes.text then 1 else 0)) }
  | TrackerPropertyType.DOUBLE =>
      Except.ok { data := data, error := none,
                  val := some (GValue.double (m.g_ascii_strtod bytes.text)) }
  | TrackerPropertyType.DATE =>
      match m.tracker_string_to_date (bytes.text ++ "T00:00:00Z") with
      | Except.ok t => Except.ok { data := data, error := none, val := some (GValue.int64 t) }
      | Except.error e => Except.ok { data := data, error := some e, val := some (GValue.int64 0) }
  | TrackerPropertyType.DATETIME =>
      match m.tracker_date_time_set_from_string bytes.text with
      | Except.ok (time, offset) =>
          Except.ok { data := data, error := none, val := some (GValue.date_time time offset) }
      | Except.error e =>
          Except.ok { data := data, error := some e, val := some (GValue.date_time ⟨0⟩ 0) }
  | TrackerPropertyType.RESOURCE =>
      match ensure_resource_id m data bytes.text with
      | Except.error e => Except.error e
      | Except.ok (data1, object_id, _) =>
          Except.ok { data := data1, error := none, val := some (GValue.int64 object_id) }
  | TrackerPropertyType.UNKNOWN =>
      Except.ok { data := data, error := none, val := none }

/-! ## Decomposition of statements -/

/-- Run a call for every element of a `NULL`-terminated array or of a cursor. -/
def for_each {α : Type} (f : TrackerData → α → Run TrackerData) :
    List α → TrackerData → Run TrackerData
  | [], data => Except.ok data
  | x :: rest, data =>
      match f data x with
      | Except.error e => Except.error e
      | Except.ok data1 => for_each f rest data1

/-- One round of the loop over the domain indexes of a new class (lines 1251 to
1290). -/
def propagate_domain_index (m : TrackerDataManager) (cl : TrackerClass) (data : TrackerData)
    (domain_index : TrackerProperty) : Run TrackerData :=
  match get_old_property_values m data domain_index with
  | Except.error e => Except.error e
  | Except.ok r =>
      match r.error, r.val with
      | some _, _ => Except.ok r.data
      | none, none => Except.ok r.data
      | none, some [] => Except.ok r.data
      | none, some [v] =>
          cache_insert_value r.data (tracker_class_get_name m cl)
            (tracker_property_get_name m domain_index) v
            (tracker_property_get_multiple_values m domain_index)
            (tracker_property_get_fulltext_indexed m domain_index)
            (decide (tracker_property_get_data_type m domain_index = TrackerPropertyType.DATETIME))
      | none, some (_ :: _ :: _) => Except.error Fatal.assertion_failed

def cache_create_service_decomposed (m : TrackerDataManager) :
    Nat → TrackerData → TrackerClass → Run TrackerData
  | 0, _, _ => Except.error Fatal.out_of_fuel
  | fuel + 1, data, cl =>
      match for_each (cache_create_service_decomposed m fuel)
          (tracker_class_get_super_classes m cl) data with
      | Except.error e => Except.error e
      | Except.ok data1 =>
          match data1.resource_buffer with
          | none => Except.error Fatal.null_dereference
          | some rb =>
              if cl ∈ rb.types then Except.ok data1
              else
                match cache_insert_row m
                    { data1 with resource_buffer := some { rb with types := rb.types ++ [cl] } }
                    cl with
                | Except.error e => Except.error e
                | Except.ok data2 =>
                    match cache_insert_value data2 "rdfs:Resource_rdf:type" "rdf:type"
                        (GValue.int64 (tracker_class_get_id m cl)) true false false with
                    | Except.error e => Except.error e
                    | Except.ok data3 =>
                        match tracker_data_dispatch_insert_statement_callbacks data3
                            (tracker_property_get_id m m.ontologies.rdf_type)
                            (tracker_class_get_id m cl) (tracker_class_get_uri m cl) with
                        | Except.error e => Except.error e
                        | Except.ok data4 =>
                            match tracker_class_get_domain_indexes m cl with
                            | none => Except.ok data4
                            | some domain_indexes =>
                                for_each (propagate_domain_index m cl) domain_indexes data4

def resource_in_domain_index_class (data : TrackerData) (domain_index_class : TrackerClass) :
    Bool :=
  match data.resource_buffer with
  | none => false
  | some rb => rb.types.any (fun cl => decide (cl = domain_index_class))

def process_domain_indexes (m : TrackerDataManager) (data : TrackerData)
    (property : TrackerProperty) (gvalue : GValue) (field_name : String) : Run TrackerData :=
  for_each
    (fun d domain_index_class =>
      if resource_in_domain_index_class d domain_index_class then
        cache_insert_value d (tracker_class_get_name m domain_index_class) field_name gvalue false
          (tracker_property_get_fulltext_indexed m property)
          (decide (tracker_property_get_data_type m property = TrackerPropertyType.DATETIME))
      else Except.ok d)
    (tracker_property_get_domain_indexes m property) data

/-- The loop over the super properties in `cache_insert_metadata_decomposed`
(lines 1784 to 1804); `recurse` is the recursive call. -/
def insert_super_properties (m : TrackerDataManager)
    (recurse : TrackerData → TrackerProperty → Run (Ret Bool)) :
    List TrackerProperty → TrackerData → Bool → Run (Ret Bool)
  | [], data, change => Except.ok { data := data, error := none, val := change }
  | super :: rest, data, change =>
      match get_old_property_values m data super with
      | Except.error e => Except.error e
      | Except.ok r =>
          match r.error with
          | some e => Except.ok { data := r.data, error := some e, val := false }
          | none =>
              if tracker_property_get_multiple_values m super
                  || decide (r.val.map List.length = some 0) then
                match recurse r.data super with
                | Except.error e => Except.error e
                | Except.ok r1 =>
                    match r1.error with
                    | some e => Except.ok { data := r1.data, error := some e, val := false }
                    | none => insert_super_properties m recurse rest r1.data (change || r1.val)
              else if r.val = none then Except.error Fatal.null_dereference
              else insert_super_properties m recurse rest r.data change

/-- The part of `cache_insert_metadata_decomposed` after the super properties
(lines 1806 to 1869); `old_values` is the array behind the pointer read at the
start of the call and `change` the flag accumulated so far. -/
def insert_value_step (m : TrackerDataManager) (data : TrackerData) (property : TrackerProperty)
    (object : GBytes) (have_old_values : Bool) (change : Bool) : Run (Ret Bool) :=
  match bytes_to_gvalue m data object (tracker_property_get_data_type m property) with
  | Except.error e => Except.error e
  | Except.ok r =>
      match r.error, r.val with
      | some e, _ => Except.ok { data := r.data, error := some e, val := false }
      | none, none => Except.ok { data := r.data, error := none, val := change }
      | none, some value =>
          match (if have_old_values then current_property_values r.data property else none) with
          | none => Except.error Fatal.null_dereference
          | some old_values =>
              match value_set_add_value m old_values (some value) with
              | Except.error e => Except.error e
              | Except.ok (_, false) => Except.ok { data := r.data, error := none, val := change }
              | Except.ok (new_values, true) =>
                  let data1 := set_property_values r.data property new_values
                  if !tracker_property_get_multiple_values m property
                      && decide (new_values.length > 1) then
                    Except.ok { data := data1, error := some GError.CONSTRAINT, val := change }
                  else
                    match cache_insert_value data1 (tracker_property_get_table_name m property)
                        (tracker_property_get_name m property) value
                        (tracker_property_get_multiple_values m property)
                        (tracker_property_get_fulltext_indexed m property)
                        (decide (tracker_property_get_data_type m property
                          = TrackerPropertyType.DATETIME)) with
                    | Except.error e => Except.error e
                    | Except.ok data2 =>
                        if !tracker_property_get_multiple_values m property then
                          match process_domain_indexes m data2 property value
                              (tracker_property_get_name m property) with
                          | Except.error e => Except.error e
                          | Except.ok data3 =>
                              Except.ok { data := data3, error := none, val := true }
                        else Except.ok { data := data2, error := none, val := true }

def cache_insert_metadata_decomposed (m : TrackerDataManager) :
    Nat → TrackerData → TrackerProperty → GBytes → Run (Ret Bool)
  | 0, _, _, _ => Except.error Fatal.out_of_fuel
  | fuel + 1, data, property, object =>
      match get_old_property_values m data property with
      | Except.error e => Except.error e
      | Except.ok r0 =>
          match r0.error with
          | some e => Except.ok { data := r0.data, error := some e, val := false }
          | none =>
              match insert_super_properties m
                  (fun d p => cache_insert_metadata_decomposed m fuel d p object)
                  (tracker_property_get_super_properties m property) r0.data false with
              | Except.error e => Except.error e
              | Except.ok r1 =>
                  match r1.error with
                  | some e => Except.ok { data := r1.data, error := some e, val := false }
                  | none =>
                      insert_value_step m r1.data property object r0.val.isSome r1.val

/-- The deletes staged for the domain index classes of a single-valued
property (lines 1915 to 1931 and 2070 to 2085). -/
def delete_domain_indexes (m : TrackerDataManager) (data : TrackerData)
    (property : TrackerProperty) (gvalue : GValue) : Run TrackerData :=
  for_each
    (fun d domain_index_class =>
      if resource_in_domain_index_class d domain_index_class then
        cache_delete_value d (tracker_class_get_name m domain_index_class)
          (tracker_property_get_name m property) gvalue
          (tracker_property_get_multiple_values m property)
          (tracker_property_get_fulltext_indexed m property)
          (decide (tracker_property_get_data_type m property = TrackerPropertyType.DATETIME))
      else Except.ok d)
    (tracker_property_get_domain_indexes m property) data

/-- Stage the delete of one value of a property (lines 1910 to 1931 and 2065
to 2085). -/
def stage_delete_value (m : TrackerDataManager) (data : TrackerData)
    (property : TrackerProperty) (gvalue : GValue) : Run TrackerData :=
  match cache_delete_value data (tracker_property_get_table_name m property)
      (tracker_property_get_name m property) gvalue
      (tracker_property_get_multiple_values m property)
      (tracker_property_get_fulltext_indexed m property)
      (decide (tracker_property_get_data_type m property = TrackerPropertyType.DATETIME)) with
  | Except.error e => Except.error e
  | Except.ok data1 =>
      if !tracker_property_get_multiple_values m property then
        delete_domain_indexes m data1 property gvalue
      else Except.ok data1

/-- The loop over the super properties in `delete_metadata_decomposed` (lines
1939 to 1943): every super property is visited, the first error is kept. -/
def delete_super_properties (recurse : TrackerData → TrackerProperty → Run (Ret Bool)) :
    List TrackerProperty → TrackerData → Bool → Option GError → Run (Ret Bool)
  | [], data, change, err => Except.ok { data := data, error := err, val := change }
  | super :: rest, data, change, err =>
      match recurse data super with
      | Except.error e => Except.error e
      | Except.ok r =>
          delete_super_properties recurse rest r.data (change || r.val)
            (match err with | some e => some e | none => r.error)

def delete_metadata_decomposed (m : TrackerDataManager) :
    Nat → TrackerData → TrackerProperty → GBytes → Run (Ret Bool)
  | 0, _, _, _ => Except.error Fatal.out_of_fuel
  | fuel + 1, data, property, object =>
      match bytes_to_gvalue m data object (tracker_property_get_data_type m property) with
      | Except.error e => Except.error e
      | Except.ok r0 =>
          match r0.error with
          | some e => Except.ok { data := r0.data, error := some e, val := false }
          | none =>
              match get_old_property_values m r0.data property with
              | Except.error e => Except.error e
              | Except.ok r1 =>
                  match r1.error with
                  | some _ => Except.ok { data := r1.data, error := none, val := false }
                  | none =>
                      match (match r0.val, r1.val with
                          | none, _ => Except.ok (r1.data, false)
                          | some _, none => Except.error Fatal.null_dereference
                          | some value, some old_values =>
                              match value_set_remove_value m old_values (some value) with
                              | Except.error e => Except.error e
                              | Except.ok (_, false) => Except.ok (r1.data, false)
                              | Except.ok (new_values, true) =>
                                  match stage_delete_value m
                                      (set_property_values r1.data property new_values)
                                      property value with
                                  | Except.error e => Except.error e
                                  | Except.ok data2 => Except.ok (data2, true)) with
                      | Except.error e => Except.error e
                      | Except.ok (data3, change) =>
                          delete_super_properties
                            (fun d p => delete_metadata_decomposed m fuel d p object)
                            (tracker_property_get_super_properties m property) data3 change none

/-- The cursor of lines 2002 to 2025: for every `rdf:type` row of the subject
whose class has a `rdfs:subClassOf` row naming the class of the statement, the
URI of that class (`none` when the sub-select finds no row). -/
def query_subclasses (db : Database) (database : String) (id : Int) (class_uri : String) :
    List (Option String) :=
  match db.resource.find? (fun r => decide (r.2.1 = class_uri)) with
  | none => []
  | some target =>
      ((db.rows_of database "rdfs:Resource_rdf:type").filter
          (fun t => decide (t.id = id))).flatMap
        (fun t =>
          ((db.rows_of database "rdfs:Class_rdfs:subClassOf").filter
              (fun sc => decide (t.column "rdf:type" = SqlValue.integer sc.id
                ∧ sc.column "rdfs:subClassOf" = SqlValue.integer target.1))).map
            (fun sc => db.uri_of_id sc.id))

/-- The loop `for (y = old_values->len - 1; y >= 0; y--)` of lines 2057 to
2088, entered with `n = y + 1`. -/
def delete_values_from (m : TrackerDataManager) (prop : TrackerProperty) :
    Nat → TrackerData → Run TrackerData
  | 0, data => Except.ok data
  | y + 1, data =>
      match current_property_values data prop with
      | none => Except.error Fatal.null_dereference
      | some old_values =>
          match old_values[y]? with
          | none => Except.error Fatal.uninitialised_read
          | some old_gvalue =>
              match value_set_remove_value m old_values (some old_gvalue) with
              | Except.error e => Except.error e
              | Except.ok (new_values, _) =>
                  match stage_delete_value m (set_property_values data prop new_values)
                      prop old_gvalue with
                  | Except.error e => Except.error e
                  | Except.ok data1 => delete_values_from m prop y data1

/-- The loop over all properties of the ontology in
`cache_delete_resource_type_full` (lines 2038 to 2089). -/
def delete_type_properties (m : TrackerDataManager) (cl : TrackerClass) :
    List TrackerProperty → TrackerData → Run TrackerData
  | [], data => Except.ok data
  | prop :: rest, data =>
      if tracker_property_get_domain m prop ≠ cl then delete_type_properties m cl rest data
      else
        match get_old_property_values m data prop with
        | Except.error e => Except.error e
        | Except.ok r =>
            match r.val with
            | none => Except.error Fatal.null_dereference
            | some old_values =>
                match delete_values_from m prop old_values.length r.data with
                | Except.error e => Except.error e
                | Except.ok data1 => delete_type_properties m cl rest data1

/-- Lines 2034 to 2098 of `cache_delete_resource_type_full`: delete the values
of the properties of the class, stage the row delete, dispatch the callback
and remove the class from the types of the resource. -/
def delete_type_body (m : TrackerDataManager) (data : TrackerData) (cl : TrackerClass) :
    Run TrackerData :=
  match delete_type_properties m cl m.ontologies.properties data with
  | Except.error e => Except.error e
  | Except.ok data1 =>
      match cache_delete_row m data1 cl with
      | Except.error e => Except.error e
      | Except.ok data2 =>
          match tracker_data_dispatch_delete_statement_callbacks data2
              (tracker_property_get_id m m.ontologies.rdf_type)
              (tracker_class_get_id m cl) (tracker_class_get_uri m cl) with
          | Except.error e => Except.error e
          | Except.ok data3 =>
              match data3.resource_buffer with
              | none => Except.error Fatal.null_dereference
              | some rb =>
                  Except.ok { data3 with
                    resource_buffer := some { rb with types := rb.types.erase cl } }

/-- The loop `while (types->len > 0)` of lines 1976 to 1982; `n` bounds the
number of rounds. -/
def delete_all_types (recurse : TrackerData → TrackerClass → Run TrackerData) :
    Nat → TrackerData → Run TrackerData
  | n, data =>
      match data.resource_buffer with
      | none => Except.error Fatal.null_dereference
      | some rb =>
          match rb.types.getLast? with
          | none => Except.ok data
          | some type =>
              match n with
              | 0 => Except.error Fatal.out_of_fuel
              | n1 + 1 =>
                  match recurse data type with
                  | Except.error e => Except.error e
                  | Except.ok data1 => delete_all_types recurse n1 data1

def cache_delete_resource_type_full (m : TrackerDataManager) :
    Nat → TrackerData → TrackerClass → Bool → Run TrackerData
  | 0, _, _, _ => Except.error Fatal.out_of_fuel
  | fuel + 1, data, cl, single_type =>
      if single_type then delete_type_body m data cl
      else
        match data.resource_buffer with
        | none => Except.error Fatal.null_dereference
        | some rb =>
            if tracker_class_get_uri m cl = RDFS_RESOURCE_URI ∧ rb.tables.length = 0 then
              delete_all_types (fun d type => cache_delete_resource_type_full m fuel d type true)
                rb.types.length
                { data with
                  db := { data.db with
                    fts_journal := data.db.fts_journal ++
                      [FtsCall.delete_id (database_of rb.graph) rb.id] } }
            else if cl ∉ rb.types then Except.ok data
            else
              match for_each
                  (fun d class_uri =>
                    match class_uri.bind (tracker_ontologies_get_class_by_uri m) with
                    | none => Except.error Fatal.null_dereference
                    | some sub => cache_delete_resource_type_full m fuel d sub false)
                  (query_subclasses data.db (database_of rb.graph) rb.id
                    (tracker_class_get_uri m cl)) data with
              | Except.error e => Except.error e
              | Except.ok data1 => delete_type_body m data1 cl

def cache_delete_resource_type (m : TrackerDataManager) (fuel : Nat) (data : TrackerData)
    (cl : TrackerClass) : Run TrackerData :=
  cache_delete_resource_type_full m fuel data cl false

/-! ## Selecting the current resource -/

/-- `tracker_data_manager_find_graph`, 0 when the graph is unknown. -/
def tracker_data_manager_find_graph (data : TrackerData) (name : String) : Int :=
  (assoc_lookup name data.manager_graphs).getD 0

/-- Modelled from the spec: `tracker_data_manager_create_graph` (in
`tracker-data-manager.c`) either fails with an error or registers the graph
under the resource id of its name. -/
def tracker_data_manager_create_graph (m : TrackerDataManager) (data : TrackerData)
    (name : String) : Run (Ret Bool) :=
  match m.create_graph_error name with
  | some e => Except.ok { data := data, error := some e, val := false }
  | none =>
      match ensure_resource_id m data name with
      | Except.error e => Except.error e
      | Except.ok (data1, id, _) =>
          Except.ok
            { data := { data1 with manager_graphs := data1.manager_graphs ++ [(name, id)] },
              error := none, val := true }

/-- Modelled from the spec: `tracker_data_query_rdf_type` (in
`tracker-data-query.c`) returns the classes of the ontology named by the
`rdf:type` rows the store holds for the subject in the graph. -/
def tracker_data_query_rdf_type (m : TrackerDataManager) (db : Database)
    (graph : Option String) (id : Int) : List TrackerClass :=
  ((db.rows_of (database_of graph) "rdfs:Resource_rdf:type").filter
      (fun r => decide (r.id = id))).filterMap
    (fun r =>
      match r.column "rdf:type" with
      | SqlValue.integer k => (db.uri_of_id k).bind (tracker_ontologies_get_class_by_uri m)
      | _ => none)

/-- Lines 2123 to 2126 of `ensure_graph_buffer`: a named graph the graph
manager does not know is created there. -/
def ensure_graph_known (m : TrackerDataManager) (data : TrackerData) :
    Option String → Run (Ret Bool)
  | none => Except.ok { data := data, error := none, val := true }
  | some n =>
      if tracker_data_manager_find_graph data n = 0 then
        tracker_data_manager_create_graph m data n
      else Except.ok { data := data, error := none, val := true }

/-- `ensure_graph_buffer`; the returned flag tells whether a graph buffer of
that name is now in the buffer. -/
def ensure_graph_buffer (m : TrackerDataManager) (data : TrackerData) (name : Option String) :
    Run (Ret Bool) :=
  if data.update_buffer.graphs.any (fun g => decide (g.graph = name)) then
    Except.ok { data := data, error := none, val := true }
  else
    match ensure_graph_known m data name with
    | Except.error e => Except.error e
    | Except.ok r =>
        if !r.val then Except.ok r
        else
          Except.ok
            { data := { r.data with
                update_buffer := { r.data.update_buffer with
                  graphs := r.data.update_buffer.graphs ++
                    [{ graph := name,
                       id := match name with
                         | none => 0
                         | some n => tracker_data_manager_find_graph r.data n,
                       resources := [] }] } },
              error := none, val := true }

/-- Lines 2171 to 2202 of `resource_buffer_switch`: look the subject up in its
graph buffer, creating its resource buffer when it is missing. -/
def select_resource (m : TrackerDataManager) (data : TrackerData) (graph : Option String)
    (subject : String) (subject_id : Int) : Run TrackerData :=
  match data.update_buffer.graphs.find? (fun g => decide (g.graph = graph)) with
  | none => Except.error Fatal.null_dereference
  | some graph_buffer =>
      match assoc_lookup subject graph_buffer.resources with
      | some rb => Except.ok { data with resource_buffer := some rb }
      | none =>
          match (if subject_id > 0 then Except.ok (data, subject_id, false)
                 else ensure_resource_id m data subject) with
          | Except.error e => Except.error e
          | Except.ok (data1, id, create) =>
              let rb : TrackerDataUpdateBufferResource :=
                { graph := graph, graph_id := graph_buffer.id, subject := subject, id := id,
                  create := create, modified := false, predicates := [], tables := [],
                  types := if create then [] else tracker_data_query_rdf_type m data1.db graph id,
                  fts_updated := false }
              Except.ok { data1 with
                resource_buffer := some rb,
                update_buffer := { data1.update_buffer with
                  graphs := data1.update_buffer.graphs.map (fun g =>
                    if g.graph = graph then { g with resources := g.resources ++ [(subject, rb)] }
                    else g) } }

def resource_buffer_switch (m : TrackerDataManager) (data : TrackerData)
    (graph : Option String) (subject : String) (subject_id : Int) : Run (Ret Bool) :=
  if (match data.resource_buffer with
      | some rb => decide (rb.graph = graph ∧ rb.subject = subject)
      | none => false) then
    Except.ok { data := data, error := none, val := true }
  else
    match tracker_data_update_buffer_might_flush m data with
    | Except.error e => Except.error e
    | Except.ok flushed =>
        match ensure_graph_buffer m { sync flushed.data with resource_buffer := none } graph with
        | Except.error e => Except.error e
        | Except.ok r =>
            if !r.val then Except.ok { data := r.data, error := r.error, val := false }
            else
              match select_resource m r.data graph subject subject_id with
              | Except.error e => Except.error e
              | Except.ok data1 => Except.ok { data := data1, error := none, val := true }

/-! ## Statements -/

/-- The assignment `data->has_persistent = TRUE`. -/
def set_has_persistent (data : TrackerData) : TrackerData :=
  { data with has_persistent := true }

def tracker_data_delete_statement (m : TrackerDataManager) (fuel : Nat) (data : TrackerData)
    (graph : Option String) (subject predicate : String) (object : GBytes) : Run (Ret Unit) :=
  if !data.in_transaction then Except.ok { data := data, error := none, val := () }
  else
    let q := query_resource_id data subject
    if q.2 = 0 then Except.ok { data := q.1, error := none, val := () }
    else
      match resource_buffer_switch m q.1 graph subject q.2 with
      | Except.error e => Except.error e
      | Except.ok sw =>
          if !sw.val then Except.ok { data := sw.data, error := sw.error, val := () }
          else if predicate = RDF_TYPE_URI then
            match tracker_ontologies_get_class_by_uri m object.text with
            | some cl =>
                match cache_delete_resource_type m fuel
                    (set_has_persistent sw.data) cl with
                | Except.error e => Except.error e
                | Except.ok data1 => Except.ok { data := data1, error := none, val := () }
            | none => Except.ok { data := sw.data, error := some GError.UNKNOWN_CLASS, val := () }
          else
            match tracker_ontologies_get_property_by_uri m predicate with
            | none =>
                Except.ok { data := sw.data, error := some GError.UNKNOWN_PROPERTY, val := () }
            | some field =>
                match delete_metadata_decomposed m fuel
                    (set_has_persistent sw.data) field object with
                | Except.error e => Except.error e
                | Except.ok r =>
                    if r.val then
                      match tracker_data_dispatch_delete_statement_callbacks r.data
                          (tracker_property_get_id m field) 0 object.text with
                      | Except.error e => Except.error e
                      | Except.ok data1 => Except.ok { data := data1, error := r.error, val := () }
                    else Except.ok { data := r.data, error := r.error, val := () }

def tracker_data_insert_statement_with_uri (m : TrackerDataManager) (fuel : Nat)
    (data : TrackerData) (graph : Option String) (subject predicate : String)
    (object : GBytes) : Run (Ret Unit) :=
  if !data.in_transaction then Except.ok { data := data, error := none, val := () }
  else
    match tracker_ontologies_get_property_by_uri m predicate with
    | none => Except.ok { data := data, error := some GError.UNKNOWN_PROPERTY, val := () }
    | some property =>
        if tracker_property_get_data_type m property ≠ TrackerPropertyType.RESOURCE then
          Except.ok { data := data, error := some GError.TYPE, val := () }
        else
          match resource_buffer_switch m (set_has_persistent data) graph subject 0 with
          | Except.error e => Except.error e
          | Except.ok sw =>
              if !sw.val then Except.ok { data := sw.data, error := sw.error, val := () }
              else if property = m.ontologies.rdf_type then
                match tracker_ontologies_get_class_by_uri m object.text with
                | none =>
                    Except.ok { data := sw.data, error := some GError.UNKNOWN_CLASS, val := () }
                | some cl =>
                    match cache_create_service_decomposed m fuel sw.data cl with
                    | Except.error e => Except.error e
                    | Except.ok data1 =>
                        Except.ok { data := (query_resource_id data1 object.text).1,
                                    error := none, val := () }
              else
                match cache_insert_metadata_decomposed m fuel sw.data property object with
                | Except.error e => Except.error e
                | Except.ok r =>
                    match r.error with
                    | some e => Except.ok { data := r.data, error := some e, val := () }
                    | none =>
                        if r.val then
                          let q := query_resource_id r.data object.text
                          match tracker_data_dispatch_insert_statement_callbacks q.1
                              (if tracker_property_get_id m property ≠ 0
                               then tracker_property_get_id m property
                               else tracker_data_query_resource_id q.1.db predicate)
                              q.2 object.text with
                          | Except.error e => Except.error e
                          | Except.ok data1 => Except.ok { data := data1, error := none, val := () }
                        else Except.ok { data := r.data, error := none, val := () }

def tracker_data_insert_statement_with_string (m : TrackerDataManager) (fuel : Nat)
    (data : TrackerData) (graph : Option String) (subject predicate : String)
    (object : GBytes) : Run (Ret Unit) :=
  if !data.in_transaction then Except.ok { data := data, error := none, val := () }
  else
    match tracker_ontologies_get_property_by_uri m predicate with
    | none => Except.ok { data := data, error := some GError.UNKNOWN_PROPERTY, val := () }
    | some property =>
        if tracker_property_get_data_type m property = TrackerPropertyType.RESOURCE then
          Except.ok { data := data, error := some GError.TYPE, val := () }
        else
          match resource_buffer_switch m (set_has_persistent data) graph subject 0 with
          | Except.error e => Except.error e
          | Except.ok sw =>
              if !sw.val then Except.ok { data := sw.data, error := sw.error, val := () }
              else
                match cache_insert_metadata_decomposed m fuel sw.data property object with
                | Except.error e => Except.error e
                | Except.ok r =>
                    match r.error with
                    | some e => Except.ok { data := r.data, error := some e, val := () }
                    | none =>
                        if r.val then
                          match tracker_data_dispatch_insert_statement_callbacks r.data
                              (if tracker_property_get_id m property ≠ 0
                               then tracker_property_get_id m property
                               else tracker_data_query_resource_id r.data.db predicate)
                              0 object.text with
                          | Except.error e => Except.error e
                          | Except.ok data1 => Except.ok { data := data1, error := none, val := () }
                        else Except.ok { data := r.data, error := none, val := () }

/-- `tracker_data_insert_statement`; `object = none` is the `NULL` object that
fails the `g_return_if_fail`. -/
def tracker_data_insert_statement (m : TrackerDataManager) (fuel : Nat) (data : TrackerData)
    (graph : Option String) (subject predicate : String) (object : Option GBytes) :
    Run (Ret Unit) :=
  match object with
  | none => Except.ok { data := data, error := none, val := () }
  | some bytes =>
      if !data.in_transaction then Except.ok { data := data, error := none, val := () }
      else
        match tracker_ontologies_get_property_by_uri m predicate with
        | some property =>
            if tracker_property_get_data_type m property = TrackerPropertyType.RESOURCE then
              tracker_data_insert_statement_with_uri m fuel data graph subject predicate bytes
            else
              tracker_data_insert_statement_with_string m fuel data graph subject predicate bytes
        | none => Except.ok { data := data, error := some GError.UNKNOWN_PROPERTY, val := () }

/-! ## Resource trees and blank nodes -/

/-- What the getters of `tracker-resource.h` return for one resource of a tree. -/
structure ResourceRecord where
  /-- `tracker_resource_get_identifier`. -/
  identifier : Option String
  /-- `tracker_resource_get_properties`. -/
  properties : List String
  /-- `tracker_resource_get_values`. -/
  values : String → List GValue
  /-- `tracker_resource_get_property_overwrite`. -/
  property_overwrite : String → Bool
  /-- The memory of the object read as a NUL-terminated string, which is what
  a string-keyed hash table hashes and compares when it is handed the object
  pointer as a key. -/
  as_c_string : String

/-- The resources reachable from the tree handed to the writer. -/
abbrev ResourceHeap := TrackerResource → ResourceRecord

/-- The blank node map of one write (`GHashTable *bnodes`, keyed by strings);
`none` is a `NULL` table. -/
abbrev BnodeMap := Option (List (String × String))

/-- `g_hash_table_lookup` on a table that may be `NULL`. -/
def BnodeMap.lookup (bnodes : BnodeMap) (key : String) : Option String :=
  match bnodes with
  | none => none
  | some table => assoc_lookup key table

/-- `tracker_data_query_unused_uuid`: mint the next identifier. -/
def tracker_data_query_unused_uuid (m : TrackerDataManager) (data : TrackerData) :
    TrackerData × String :=
  ({ data with uuid_count := data.uuid_count + 1 }, m.unused_uuid data.uuid_count)

/-- `get_bnode_for_resource`.  The lookup is keyed by the resource pointer, the
insert by a copy of the identifier. -/
def get_bnode_for_resource (m : TrackerDataManager) (heap : ResourceHeap) (bnodes : BnodeMap)
    (data : TrackerData) (resource : TrackerResource) : Run (TrackerData × BnodeMap × String) :=
  match bnodes.lookup (heap resource).as_c_string with
  | some bnode => Except.ok (data, bnodes, bnode)
  | none =>
      let minted := tracker_data_query_unused_uuid m data
      match bnodes, (heap resource).identifier with
      | none, _ => Except.ok (minted.1, none, minted.2)
      | some _, none => Except.error Fatal.null_dereference
      | some table, some identifier =>
          Except.ok (minted.1, some (assoc_insert identifier minted.2 table), minted.2)

/-- `bytes_from_gvalue`; the bytes are `none` when no branch assigns `*bytes`. -/
def bytes_from_gvalue (m : TrackerDataManager) (heap : ResourceHeap) (data : TrackerData)
    (gvalue : GValue) (bnodes : BnodeMap) : Run (TrackerData × BnodeMap × Option GBytes) :=
  match gvalue with
  | GValue.gboolean b =>
      Except.ok (data, bnodes, some { text := if b then "true" else "false", langtag := none })
  | GValue.int i => Except.ok (data, bnodes, some { text := g_strdup_printf_d i, langtag := none })
  | GValue.int64 i => Except.ok (data, bnodes, some { text := g_strdup_printf_d i, langtag := none })
  | GValue.double d => Except.ok (data, bnodes, some { text := m.g_ascii_dtostr d, langtag := none })
  | GValue.uri uri =>
      if g_str_starts_with uri "_:" then
        match bnodes.lookup uri with
        | some bnode => Except.ok (data, bnodes, some { text := bnode, langtag := none })
        | none =>
            let minted := tracker_data_query_unused_uuid m data
            Except.ok (minted.1, bnodes.map (assoc_insert uri minted.2),
              some { text := minted.2, langtag := none })
      else Except.ok (data, bnodes, some { text := m.expand uri, langtag := none })
  | GValue.string s => Except.ok (data, bnodes, some { text := s, langtag := none })
  | GValue.resource res =>
      match (heap res).identifier with
      | some object =>
          if g_str_starts_with object "_:" then
            match get_bnode_for_resource m heap bnodes data res with
            | Except.error e => Except.error e
            | Except.ok (data1, bnodes1, bnode) =>
                Except.ok (data1, bnodes1, some { text := bnode, langtag := none })
          else Except.ok (data, bnodes, some { text := object, langtag := none })
      | none =>
          match get_bnode_for_resource m heap bnodes data res with
          | Except.error e => Except.error e
          | Except.ok (data1, bnodes1, bnode) =>
              Except.ok (data1, bnodes1, some { text := bnode, langtag := none })
  | _ => Except.ok (data, bnodes, none)

/-! ## Delete all, update -/

/-- A heap without resources, for the calls of `bytes_from_gvalue` on values of
a value set, which hold no resource. -/
def no_resources : ResourceHeap :=
  fun _ =>
    { identifier := none, properties := [], values := fun _ => [],
      property_overwrite := fun _ => false, as_c_string := "" }

/-- The loop `for (i = 0; i < old_values->len; i++)` of
`tracker_data_delete_all` (lines 2310 to 2327); `n` bounds the number of
rounds. -/
def delete_all_loop (m : TrackerDataManager) (fuel : Nat) (graph : Option String)
    (subject predicate : String) (property : TrackerProperty) :
    Nat → Nat → TrackerData → Run (Ret Unit)
  | 0, _, _ => Except.error Fatal.out_of_fuel
  | n + 1, i, data =>
      match current_property_values data property with
      | none => Except.error Fatal.null_dereference
      | some old_values =>
          match old_values[i]? with
          | none => Except.ok { data := data, error := none, val := () }
          | some value =>
              match bytes_from_gvalue m no_resources data value none with
              | Except.error e => Except.error e
              | Except.ok (_, _, none) => Except.error Fatal.uninitialised_read
              | Except.ok (data1, _, some bytes) =>
                  match tracker_data_delete_statement m fuel data1 graph subject predicate
                      bytes with
                  | Except.error e => Except.error e
                  | Except.ok r =>
                      match r.error with
                      | some e => Except.ok { data := r.data, error := some e, val := () }
                      | none =>
                          delete_all_loop m fuel graph subject predicate property n (i + 1) r.data

/-- `tracker_data_delete_all`.  A predicate that is no property of the ontology
reaches `get_old_property_values` as `NULL`, is in no domain and fails there. -/
def tracker_data_delete_all (m : TrackerDataManager) (fuel : Nat) (data : TrackerData)
    (graph : Option String) (subject predicate : String) : Run (Ret Unit) :=
  if !data.in_transaction then Except.ok { data := data, error := none, val := () }
  else
    let q := query_resource_id data subject
    if q.2 = 0 then Except.ok { data := q.1, error := none, val := () }
    else
      match resource_buffer_switch m q.1 graph subject q.2 with
      | Except.error e => Except.error e
      | Except.ok sw =>
          if !sw.val then Except.ok { data := sw.data, error := sw.error, val := () }
          else
            match tracker_ontologies_get_property_by_uri m predicate with
            | none => Except.ok { data := sw.data, error := some GError.CONSTRAINT, val := () }
            | some property =>
                match get_old_property_values m sw.data property with
                | Except.error e => Except.error e
                | Except.ok r =>
                    match r.error, r.val with
                    | some e, _ => Except.ok { data := r.data, error := some e, val := () }
                    | none, none => Except.error Fatal.null_dereference
                    | none, some old_values =>
                        delete_all_loop m fuel graph subject predicate property
                          (old_values.length + 1) 0 r.data

/-- `delete_single_valued`; it returns `TRUE` on every path, so only the state
is returned. -/
def delete_single_valued (m : TrackerDataManager) :
    Nat → TrackerData → String → Bool → Run TrackerData
  | 0, _, _, _ => Except.error Fatal.out_of_fuel
  | fuel + 1, data, predicate, super_is_single_valued =>
      match tracker_ontologies_get_property_by_uri m predicate with
      | none => Except.error Fatal.null_dereference
      | some field =>
          match (if super_is_single_valued && tracker_property_get_multiple_values m field then
                cache_delete_all_values data (tracker_property_get_table_name m field)
                  (tracker_property_get_name m field)
                  (tracker_property_get_fulltext_indexed m field)
                  (decide (tracker_property_get_data_type m field
                    = TrackerPropertyType.DATETIME))
              else if !tracker_property_get_multiple_values m field then
                match get_old_property_values m data field with
                | Except.error e => Except.error e
                | Except.ok r =>
                    match r.val with
                    | some [v] =>
                        cache_delete_value r.data (tracker_property_get_table_name m field)
                          (tracker_property_get_name m field) v false
                          (tracker_property_get_fulltext_indexed m field)
                          (decide (tracker_property_get_data_type m field
                            = TrackerPropertyType.DATETIME))
                    | _ => Except.ok r.data
              else Except.ok data) with
          | Except.error e => Except.error e
          | Except.ok data1 =>
              for_each
                (fun d super => delete_single_valued m fuel d (tracker_property_get_uri m super)
                  super_is_single_valued)
                (tracker_property_get_super_properties m field) data1

/-- `tracker_data_update_statement`; `object = none` is the `NULL` object. -/
def tracker_data_update_statement (m : TrackerDataManager) (fuel : Nat) (data : TrackerData)
    (graph : Option String) (subject predicate : String) (object : Option GBytes) :
    Run (Ret Unit) :=
  if !data.in_transaction then Except.ok { data := data, error := none, val := () }
  else
    match tracker_ontologies_get_property_by_uri m predicate with
    | none => Except.ok { data := data, error := some GError.UNKNOWN_PROPERTY, val := () }
    | some property =>
        match (match object with
            | none =>
                if property = m.ontologies.rdf_type then
                  Except.ok ({ data := data, error := some GError.UNSUPPORTED, val := () }, false)
                else
                  match tracker_data_update_buffer_flush m data with
                  | Except.error e => Except.error e
                  | Except.ok fl =>
                      match fl.error with
                      | some e => Except.ok ({ data := fl.data, error := some e, val := () }, false)
                      | none =>
                          match ensure_resource_id m fl.data subject with
                          | Except.error e => Except.error e
                          | Except.ok (data1, id, _) =>
                              match resource_buffer_switch m data1 graph subject id with
                              | Except.error e => Except.error e
                              | Except.ok sw =>
                                  if !sw.val then
                                    Except.ok ({ data := sw.data, error := sw.error, val := () },
                                      false)
                                  else
                                    match cache_delete_all_values sw.data
                                        (tracker_property_get_table_name m property)
                                        (tracker_property_get_name m property)
                                        (tracker_property_get_fulltext_indexed m property)
                                        (decide (tracker_property_get_data_type m property
                                          = TrackerPropertyType.DATETIME)) with
                                    | Except.error e => Except.error e
                                    | Except.ok data2 =>
                                        Except.ok ({ data := data2, error := none, val := () },
                                          true)
            | some bytes =>
                match ensure_resource_id m data subject with
                | Except.error e => Except.error e
                | Except.ok (data1, id, _) =>
                    match resource_buffer_switch m data1 graph subject id with
                    | Except.error e => Except.error e
                    | Except.ok sw =>
                        if !sw.val then
                          Except.ok ({ data := sw.data, error := sw.error, val := () }, false)
                        else
                          match delete_single_valued m fuel sw.data predicate
                              (!tracker_property_get_multiple_values m property) with
                          | Except.error e => Except.error e
                          | Except.ok data2 =>
                              match tracker_data_update_buffer_flush m data2 with
                              | Except.error e => Except.error e
                              | Except.ok fl =>
                                  match fl.error with
                                  | some e =>
                                      Except.ok ({ data := fl.data, error := some e, val := () },
                                        false)
                                  | none =>
                                      match (if tracker_property_get_data_type m property
                                            = TrackerPropertyType.RESOURCE then
                                          tracker_data_insert_statement_with_uri m fuel fl.data
                                            graph subject predicate bytes
                                        else
                                          tracker_data_insert_statement_with_string m fuel fl.data
                                            graph subject predicate bytes) with
                                      | Except.error e => Except.error e
                                      | Except.ok r => Except.ok (r, true)) with
        | Except.error e => Except.error e
        | Except.ok (r, false) => Except.ok r
        | Except.ok (r, true) =>
            match tracker_data_update_buffer_flush m r.data with
            | Except.error e => Except.error e
            | Except.ok fl =>
                Except.ok
                  { data := fl.data,
                    error := match r.error with | some e => some e | none => fl.error,
                    val := () }

/-! ## The resource-tree writer -/

/-- State threaded through one `tracker_data_update_resource` call.  The field
`written` is a ghost log, not part of the C state: it records, in the order of
the calls, for which resource and property `update_resource_property` was
entered. -/
structure WriterState where
  data : TrackerData
  visited : List TrackerResource
  bnodes : BnodeMap
  written : List (TrackerResource × String) := []

def resource_maybe_reset_property (m : TrackerDataManager) (heap : ResourceHeap) (fuel : Nat)
    (data : TrackerData) (graph : Option String) (resource : TrackerResource)
    (subject_uri property_uri : String) : Run (Ret Bool) :=
  if (match (heap resource).identifier with
      | some subject => g_str_starts_with subject "_:"
      | none => false) then
    Except.ok { data := data, error := none, val := true }
  else
    match tracker_data_delete_all m fuel data graph subject_uri property_uri with
    | Except.error e => Except.error e
    | Except.ok r => Except.ok { data := r.data, error := r.error, val := r.error.isNone }

/-- The loop over the values of a property in `update_resource_property` (lines
2999 to 3025); `recurse` is the call of `update_resource_single`. -/
def update_resource_values (m : TrackerDataManager) (heap : ResourceHeap) (fuel : Nat)
    (recurse : WriterState → TrackerResource → Run (WriterState × Option GError))
    (graph_uri : Option String) (subject property_uri : String) :
    List GValue → WriterState → Run (WriterState × Option GError)
  | [], st => Except.ok (st, none)
  | v :: rest, st =>
      match (match v with
          | GValue.resource r => recurse st r
          | _ => Except.ok (st, none)) with
      | Except.error e => Except.error e
      | Except.ok (st1, some e) => Except.ok (st1, some e)
      | Except.ok (st1, none) =>
          match bytes_from_gvalue m heap st1.data v st1.bnodes with
          | Except.error e => Except.error e
          | Except.ok (data2, bnodes2, bytes) =>
              match tracker_data_insert_statement m fuel data2 graph_uri subject property_uri
                  bytes with
              | Except.error e => Except.error e
              | Except.ok r =>
                  match r.error with
                  | some e => Except.ok ({ st1 with data := r.data, bnodes := bnodes2 }, some e)
                  | none =>
                      update_resource_values m heap fuel recurse graph_uri subject property_uri
                        rest { st1 with data := r.data, bnodes := bnodes2 }

/-- `update_resource_property`; its first step is the entry in the ghost log
`written`. -/
def update_resource_property (m : TrackerDataManager) (heap : ResourceHeap) (fuel : Nat)
    (recurse : WriterState → TrackerResource → Run (WriterState × Option GError))
    (st : WriterState) (graph_uri : Option String) (resource : TrackerResource)
    (subject property : String) : Run (WriterState × Option GError) :=
  let st0 : WriterState := { st with written := st.written ++ [(resource, property)] }
  match (if (heap resource).property_overwrite property then
        resource_maybe_reset_property m heap fuel st0.data graph_uri resource subject
          (m.expand property)
      else Except.ok { data := st0.data, error := none, val := true }) with
  | Except.error e => Except.error e
  | Except.ok reset =>
      if !reset.val then Except.ok ({ st0 with data := reset.data }, reset.error)
      else
        update_resource_values m heap fuel recurse graph_uri subject (m.expand property)
          ((heap resource).values property) { st0 with data := reset.data }

/-- The loop over the properties other than `rdf:type` in
`update_resource_single` (lines 3081 to 3090). -/
def update_resource_properties (m : TrackerDataManager) (heap : ResourceHeap) (fuel : Nat)
    (recurse : WriterState → TrackerResource → Run (WriterState × Option GError))
    (graph_uri : Option String) (resource : TrackerResource) (subject : String) :
    List String → WriterState → Run (WriterState × Option GError)
  | [], st => Except.ok (st, none)
  | property :: rest, st =>
      if property = "rdf:type" then
        update_resource_properties m heap fuel recurse graph_uri resource subject rest st
      else
        match update_resource_property m heap fuel recurse st graph_uri resource subject
            property with
        | Except.error e => Except.error e
        | Except.ok (st1, some e) => Except.ok (st1, some e)
        | Except.ok (st1, none) =>
            update_resource_properties m heap fuel recurse graph_uri resource subject rest st1

/-- `update_resource_single`.  The resource is added to `visited` right after
the lookup; the calls for the resources among the values receive `graph_uri`,
the expanded graph. -/
def update_resource_single (m : TrackerDataManager) (heap : ResourceHeap) :
    Nat → WriterState → Option String → TrackerResource → Run (WriterState × Option GError)
  | 0, _, _, _ => Except.error Fatal.out_of_fuel
  | fuel + 1, st, graph, resource =>
      if resource ∈ st.visited then Except.ok (st, none)
      else
        match (match (heap resource).identifier with
            | some subject =>
                if g_str_starts_with subject "_:" then
                  get_bnode_for_resource m heap st.bnodes st.data resource
                else Except.ok (st.data, st.bnodes, subject)
            | none => get_bnode_for_resource m heap st.bnodes st.data resource) with
        | Except.error e => Except.error e
        | Except.ok (data1, bnodes1, subject) =>
            let st1 : WriterState :=
              { data := data1, visited := st.visited ++ [resource], bnodes := bnodes1,
                written := st.written }
            let recurse := fun (s : WriterState) (r : TrackerResource) =>
              update_resource_single m heap fuel s (graph.map m.expand) r
            match (if "rdf:type" ∈ (heap resource).properties then
                  update_resource_property m heap (fuel + 1) recurse st1 (graph.map m.expand)
                    resource subject "rdf:type"
                else Except.ok (st1, none)) with
            | Except.error e => Except.error e
            | Except.ok (st2, some e) => Except.ok (st2, some e)
            | Except.ok (st2, none) =>
                update_resource_properties m heap (fuel + 1) recurse (graph.map m.expand)
                  resource subject (heap resource).properties st2

/-- `tracker_data_update_resource`; the returned map is the caller's table
after the call (a table created by the call is dropped). -/
def tracker_data_update_resource (m : TrackerDataManager) (heap : ResourceHeap) (fuel : Nat)
    (data : TrackerData) (graph : Option String) (resource : TrackerResource)
    (bnodes : BnodeMap) : Run (TrackerData × BnodeMap × Option GError) :=
  match update_resource_single m heap fuel
      { data := data, visited := [], bnodes := some (bnodes.getD []), written := [] } graph
      resource with
  | Except.error e => Except.error e
  | Except.ok (st, err) =>
      Except.ok (st.data, (match bnodes with | some _ => st.bnodes | none => none), err)

/-! ## Transactions -/

/-- `tracker_data_begin_transaction`; a call inside a transaction fails the
`g_return_if_fail` and returns.  The buffer tables allocated on first use are
the empty lists every state starts with. -/
def tracker_data_begin_transaction (m : TrackerDataManager) (data : TrackerData) : Ret Unit :=
  if data.in_transaction then { data := data, error := none, val := () }
  else if !m.has_enough_space then { data := data, error := some GError.NO_SPACE, val := () }
  else
    { data := { data with
        resource_time := data.clock,
        has_persistent := false,
        resource_buffer := none,
        db := { data.db with
          calls := data.db.calls
            ++ [StoreCall.pragma_cache_size_update, StoreCall.start_transaction] },
        in_transaction := true },
      error := none, val := () }

def tracker_data_begin_ontology_transaction (m : TrackerDataManager) (data : TrackerData) :
    Ret Unit :=
  tracker_data_begin_transaction m { data with in_ontology_transaction := true }

/-- `tracker_data_rollback_transaction`; an error of the query ROLLBACK is
logged and dropped. -/
def tracker_data_rollback_transaction (data : TrackerData) : TrackerData :=
  if !data.in_transaction then data
  else
    let data1 := tracker_data_update_buffer_clear
      { data with in_transaction := false, in_ontology_transaction := false }
    tracker_data_dispatch_rollback_statement_callbacks
      { data1 with
        db := { data1.db with
          calls := data1.db.calls
            ++ [StoreCall.rollback, StoreCall.rollback_graphs,
                StoreCall.pragma_cache_size_default] } }

def tracker_data_commit_transaction (m : TrackerDataManager) (data : TrackerData) :
    Run (Ret Unit) :=
  if !data.in_transaction then Except.ok { data := data, error := none, val := () }
  else
    match tracker_data_update_buffer_flush m data with
    | Except.error e => Except.error e
    | Except.ok fl =>
        match fl.error with
        | some e =>
            Except.ok { data := tracker_data_rollback_transaction fl.data, error := some e,
                        val := () }
        | none =>
            let data1 : TrackerData :=
              { fl.data with
                db := { fl.data.db with
                  calls := fl.data.db.calls ++ [StoreCall.end_db_transaction] } }
            match m.end_db_transaction_error with
            | some e =>
                Except.ok { data := tracker_data_rollback_transaction data1, error := some e,
                            val := () }
            | none =>
                let r := get_transaction_modseq data1
                let data2 : TrackerData :=
                  if r.1.has_persistent && !r.1.in_ontology_transaction then
                    { r.1 with transaction_modseq := r.1.transaction_modseq + 1 }
                  else r.1
                let data3 : TrackerData :=
                  { data2 with
                    resource_time := 0,
                    in_transaction := false,
                    in_ontology_transaction := false,
                    update_buffer :=
                      { resource_cache := [], graphs := [], fts_ever_updated := false },
                    db := { data2.db with
                      calls := data2.db.calls
                        ++ [StoreCall.commit_graphs, StoreCall.pragma_cache_size_default] } }
                Except.ok { data := tracker_data_dispatch_commit_statement_callbacks data3,
                            error := none, val := () }

/-- `update_sparql`.  The parser and executor of the update
(`tracker_sparql_new_update`, `tracker_sparql_execute_update`) are not part of
this file; `tracker_sparql_execute_update` stands for what they do with the
update text on the state inside the transaction.  The result is the blank-node
variant, `none` for `NULL`. -/
def update_sparql {GVariant : Type} (m : TrackerDataManager)
    (tracker_sparql_execute_update : String → Bool → TrackerData → Run (Ret (Option GVariant)))
    (data : TrackerData) (update : String) (blank : Bool) : Run (Ret (Option GVariant)) :=
  let b := tracker_data_begin_transaction m data
  match b.error with
  | some e => Except.ok { data := b.data, error := some e, val := none }
  | none =>
      match tracker_sparql_execute_update update blank b.data with
      | Except.error e => Except.error e
      | Except.ok r =>
          match r.error with
          | some e =>
              Except.ok { data := tracker_data_rollback_transaction r.data, error := some e,
                          val := none }
          | none =>
              match tracker_data_commit_transaction m r.data with
              | Except.error e => Except.error e
              | Except.ok c =>
                  match c.error with
                  | some e => Except.ok { data := c.data, error := some e, val := none }
                  | none => Except.ok { data := c.data, error := none, val := r.val }

/-! ## Scripts of calls -/

/-- One call of the writer API. -/
inductive Call
  | insert (subject predicate : String) (object : GBytes)
  | delete (subject predicate : String) (object : GBytes)
  | update (subject predicate : String) (object : Option GBytes)
  | delete_all (subject predicate : String)
  | flush

/-- Run one call in a graph. -/
def Call.run (m : TrackerDataManager) (fuel : Nat) (graph : Option String) (data : TrackerData) :
    Call → Run (Ret Unit)
  | Call.insert subject predicate object =>
      tracker_data_insert_statement m fuel data graph subject predicate (some object)
  | Call.delete subject predicate object =>
      tracker_data_delete_statement m fuel data graph subject predicate object
  | Call.update subject predicate object =>
      tracker_data_update_statement m fuel data graph subject predicate object
  | Call.delete_all subject predicate =>
      tracker_data_delete_all m fuel data graph subject predicate
  | Call.flush => tracker_data_update_buffer_flush m data

/-- Run calls one after the other, each on the state the previous one left,
whether or not it set an error; the result is that of the last call. -/
def run_calls (m : TrackerDataManager) (fuel : Nat) (graph : Option String) :
    List Call → Ret Unit → Run (Ret Unit)
  | [], r => Except.ok r
  | c :: rest, r =>
      match c.run m fuel graph r.data with
      | Except.error e => Except.error e
      | Except.ok r1 => run_calls m fuel graph rest r1

/-- Whether a call is an insert or a delete statement about the subject. -/
def Call.is_statement_about (subject : String) : Call → Bool
  | Call.insert s _ _ => decide (s = subject)
  | Call.delete s _ _ => decide (s = subject)
  | _ => false

/-- Run calls one after the other as long as each returns without an error;
the result is the state after the last call, and `none` as soon as a call
sets an error or does not return. -/
def run_error_free (m : TrackerDataManager) (fuel : Nat) (graph : Option String) :
    List Call → TrackerData → Option TrackerData
  | [], data => some data
  | c :: rest, data =>
      match c.run m fuel graph data with
      | Except.error _ => none
      | Except.ok r =>
          match r.error with
          | some _ => none
          | none => run_error_free m fuel graph rest r.data

/-- The fatal condition that stopped a call, if it did not return. -/
def aborted_with {α : Type} : Run α → Option Fatal
  | Except.ok _ => none
  | Except.error e => some e

/-- The state a call returned, if it returned. -/
def returned_data {α : Type} : Run (Ret α) → Option TrackerData
  | Except.ok r => some r.data
  | Except.error _ => none

/-- The error a call returned (`some none` for no error), if it returned. -/
def returned_error {α : Type} : Run (Ret α) → Option (Option GError)
  | Except.ok r => some r.error
  | Except.error _ => none

/-- Names and values of the properties staged in a table of the current
resource. -/
def staged_in (data : TrackerData) (table_name : String) : List (String × Option GValue) :=
  match data.resource_buffer with
  | none => []
  | some rb =>
      match assoc_lookup table_name rb.tables with
      | none => []
      | some table => table.properties.map (fun p => (p.name, p.value))

/-- The types of the current resource. -/
def current_types (data : TrackerData) : List TrackerClass :=
  match data.resource_buffer with
  | none => []
  | some rb => rb.types

/-- The part of a callback invocation that identifies the statement. -/
def StatementEvent.key (e : StatementEvent) : TrackerStatementDelegate × Int × Int × String :=
  (e.delegate, e.predicate_id, e.object_id, e.object)

/-! ## An example ontology and store -/

/-- Classes `rdfs:Resource`, `nie:InformationElement`, `nfo:Media` and
`nmm:Photo`, each a sub-class of the one before. -/
def example_class : TrackerClass → ClassRecord
  | 0 => { id := 1, uri := RDFS_RESOURCE_URI, name := "rdfs:Resource",
           super_classes := [], domain_indexes := none }
  | 1 => { id := 2, uri := "nie:InformationElement", name := "nie:InformationElement",
           super_classes := [0], domain_indexes := none }
  | 2 => { id := 3, uri := "nfo:Media", name := "nfo:Media",
           super_classes := [1], domain_indexes := none }
  | _ => { id := 4, uri := "nmm:Photo", name := "nmm:Photo",
           super_classes := [2], domain_indexes := none }

/-- Properties of the example ontology: `nie:description` is a sub-property of
`nie:comment` (both single-valued, same table), `nie:subject` of the
multi-valued `nie:keyword`, and `nie:note` of `nmm:caption`, whose domain is
`nmm:Photo`. -/
def example_property : TrackerProperty → PropertyRecord
  | 0 => { id := 10, uri := RDF_TYPE_URI, name := "rdf:type",
           table_name := "rdfs:Resource_rdf:type", domain := 0,
           data_type := TrackerPropertyType.RESOURCE, multiple_values := true,
           fulltext_indexed := false, super_properties := [], domain_indexes := [] }
  | 1 => { id := 11, uri := "nie:comment", name := "nie:comment",
           table_name := "nie:InformationElement", domain := 1,
           data_type := TrackerPropertyType.STRING, multiple_values := false,
           fulltext_indexed := false, super_properties := [], domain_indexes := [] }
  | 2 => { id := 12, uri := "nie:description", name := "nie:description",
           table_name := "nie:InformationElement", domain := 1,
           data_type := TrackerPropertyType.STRING, multiple_values := false,
           fulltext_indexed := false, super_properties := [1], domain_indexes := [] }
  | 3 => { id := 13, uri := "nie:keyword", name := "nie:keyword",
           table_name := "nie:InformationElement_nie:keyword", domain := 1,
           data_type := TrackerPropertyType.STRING, multiple_values := true,
           fulltext_indexed := false, super_properties := [], domain_indexes := [] }
  | 4 => { id := 14, uri := "nfo:interlaceMode", name := "nfo:interlaceMode",
           table_name := "nfo:Media", domain := 2,
           data_type := TrackerPropertyType.BOOLEAN, multiple_values := false,
           fulltext_indexed := false, super_properties := [], domain_indexes := [] }
  | 5 => { id := 15, uri := "nfo:codec", name := "nfo:codec",
           table_name := "nfo:Media", domain := 2,
           data_type := TrackerPropertyType.STRING, multiple_values := false,
           fulltext_indexed := false, super_properties := [], domain_indexes := [] }
  | 6 => { id := 16, uri := "nie:subject", name := "nie:subject",
           table_name := "nie:InformationElement_nie:subject", domain := 1,
           data_type := TrackerPropertyType.STRING, multiple_values := true,
           fulltext_indexed := false, super_properties := [3], domain_indexes := [] }
  | 7 => { id := 17, uri := "nmm:caption", name := "nmm:caption",
           table_name := "nmm:Photo", domain := 3,
           data_type := TrackerPropertyType.STRING, multiple_values := false,
           fulltext_indexed := false, super_properties := [], domain_indexes := [] }
  | _ => { id := 18, uri := "nie:note", name := "nie:note",
           table_name := "nie:InformationElement", domain := 1,
           data_type := TrackerPropertyType.STRING, multiple_values := false,
           fulltext_indexed := false, super_properties := [7], domain_indexes := [] }

/-- A manager over the example ontology.  Its store accepts every statement;
the date and double functions are placeholders, no example uses them. -/
def example_manager : TrackerDataManager :=
  { ontologies :=
      { classes := [0, 1, 2, 3], properties := [0, 1, 2, 3, 4, 5, 6, 7, 8],
        class_record := example_class, property_record := example_property, rdf_type := 0 },
    TRACKER_ONTOLOGIES_MAX_ID := 100000,
    tracker_string_to_date := fun _ => Except.error (GError.DATE 0),
    tracker_date_time_set_from_string := fun _ => Except.error (GError.DATE 0),
    tracker_date_to_string := fun _ _ => "",
    g_ascii_strtod := fun _ => ⟨0⟩,
    g_ascii_dtostr := fun _ => "0",
    double_eq := fun a b => decide (a = b),
    double_near := fun a b => decide (a = b),
    double_has_fraction := fun _ => false,
    double_round := fun d => d.bits,
    double_of_int := fun i => ⟨i.toNat⟩,
    expand := fun s => if s = "rdf:type" then RDF_TYPE_URI else s,
    unused_uuid := fun n => "urn:bnode:" ++ toString n,
    has_enough_space := true,
    db_error := fun _ => none,
    create_graph_error := fun _ => none }

/-- A row of `rdfs:Class_rdfs:subClassOf`. -/
def sub_class_row (cl super : Int) : Row :=
  { id := cl, cols := [("rdfs:subClassOf", SqlValue.integer super)] }

/-- A store holding the example ontology and no subject. -/
def example_db : Database :=
  { resource := [(1, RDFS_RESOURCE_URI, 0), (2, "nie:InformationElement", 0),
                 (3, "nfo:Media", 0), (4, "nmm:Photo", 0)],
    graph := [],
    tables := [{ database := "main", name := "rdfs:Class_rdfs:subClassOf",
                 rows := [sub_class_row 2 1, sub_class_row 3 2, sub_class_row 4 3] }],
    journal := [], fts_journal := [] }

/-- The state right after `tracker_data_begin_transaction` on the example
store, with one insert and one delete callback registered. -/
def example_data : TrackerData :=
  { in_transaction := true, in_ontology_transaction := false,
    update_buffer := { resource_cache := [], graphs := [], fts_ever_updated := false },
    resource_buffer := none, resource_time := 1000, transaction_modseq := 0,
    has_persistent := false,
    insert_callbacks := some [{ callback := 1, user_data := 0 }],
    delete_callbacks := some [{ callback := 2, user_data := 0 }],
    commit_callbacks := none, rollback_callbacks := none,
    max_service_id := 0, max_ontology_id := 0, db := example_db, manager_graphs := [],
    uuid_count := 0, clock := 1000,
    insert_log := [], delete_log := [], commit_log := [], rollback_log := [] }

/-- An object without language tag. -/
def plain (s : String) : GBytes :=
  { text := s, langtag := none }

/-- Run a script on the example state in the default graph. -/
def example_run (calls : List Call) : Run (Ret Unit) :=
  run_calls example_manager 10 none calls { data := example_data, error := none, val := () }

/-- The script that makes `ex:a` a photo. -/
def make_photo : List Call :=
  [Call.insert "ex:a" RDF_TYPE_URI (plain "nmm:Photo")]

/-- The values a column holds in the rows of a subject. -/
def stored_column (db : Database) (database table : String) (id : Int) (column : String) :
    List SqlValue :=
  ((db.rows_of database table).filter (fun r => decide (r.id = id))).map (fun r => r.column column)

/-- The subjects that have a resource buffer, in buffer order. -/
def buffered_subjects (data : TrackerData) : List String :=
  data.update_buffer.graphs.flatMap (fun g => g.resources.map (fun e => e.1))

/-- Write resource trees one after the other with one blank node map, the way
a batch hands them to `tracker_data_update_resource`; the first error stops the
batch. -/
def update_resources (m : TrackerDataManager) (heap : ResourceHeap) (fuel : Nat)
    (graph : Option String) :
    List TrackerResource → TrackerData → BnodeMap →
    Run (TrackerData × BnodeMap × Option GError)
  | [], data, bnodes => Except.ok (data, bnodes, none)
  | resource :: rest, data, bnodes =>
      match tracker_data_update_resource m heap fuel data graph resource bnodes with
      | Except.error e => Except.error e
      | Except.ok (data1, bnodes1, some e) => Except.ok (data1, bnodes1, some e)
      | Except.ok (data1, bnodes1, none) => update_resources m heap fuel graph rest data1 bnodes1

/-- The error of a resource write, if it returned. -/
def written_error : Run (TrackerData × BnodeMap × Option GError) → Option (Option GError)
  | Except.ok r => some r.2.2
  | Except.error _ => none

/-- The state after a resource write, if it returned. -/
def written_data : Run (TrackerData × BnodeMap × Option GError) → Option TrackerData
  | Except.ok r => some r.1
  | Except.error _ => none

/-- Resource trees of the examples: 0 and 1 describe `ex:a` as a photo with
`nfo:interlaceMode` true and false (every property set with the overwrite
flag); 2 and 3 are two resources labelled `_:bnode`. -/
def example_heap : ResourceHeap
  | 0 => { identifier := some "ex:a", properties := ["rdf:type", "nfo:interlaceMode"],
           values := fun p =>
             if p = "rdf:type" then [GValue.uri "nmm:Photo"]
             else if p = "nfo:interlaceMode" then [GValue.gboolean true] else [],
           property_overwrite := fun _ => true, as_c_string := "(object 0)" }
  | 1 => { identifier := some "ex:a", properties := ["rdf:type", "nfo:interlaceMode"],
           values := fun p =>
             if p = "rdf:type" then [GValue.uri "nmm:Photo"]
             else if p = "nfo:interlaceMode" then [GValue.gboolean false] else [],
           property_overwrite := fun _ => true, as_c_string := "(object 1)" }
  | 2 => { identifier := some "_:bnode", properties := ["rdf:type"],
           values := fun p => if p = "rdf:type" then [GValue.uri "nmm:Photo"] else [],
           property_overwrite := fun _ => true, as_c_string := "(object 2)" }
  | _ => { identifier := some "_:bnode", properties := ["rdf:type"],
           values := fun p => if p = "rdf:type" then [GValue.uri "nmm:Photo"] else [],
           property_overwrite := fun _ => true, as_c_string := "(object 3)" }

/-- The draft of a new resource `ex:a` without types, values or staged
writes. -/
def new_draft_rb : TrackerDataUpdateBufferResource :=
  { graph := none, graph_id := 0, subject := "ex:a", id := 100001, create := true,
    modified := false, predicates := [], tables := [], types := [], fts_updated := false }

/-- The example state with `new_draft_rb` as the current resource. -/
def new_draft : TrackerData :=
  { example_data with resource_buffer := some new_draft_rb }

/-- The example ontology with `nie:comment` as a domain index of `nmm:Photo`. -/
def indexed_manager : TrackerDataManager :=
  { example_manager with
    ontologies := { example_manager.ontologies with
      class_record := fun c =>
        if c = 3 then { (example_class 3) with domain_indexes := some [1] }
        else example_class c } }

/-- A script on `indexed_manager`: the second value of the single-valued
`nie:comment` is refused, then `ex:a` is made a photo. -/
def index_two_comments : List Call :=
  [Call.insert "ex:a" RDF_TYPE_URI (plain "nie:InformationElement"),
   Call.insert "ex:a" "nie:comment" (plain "v1"),
   Call.insert "ex:a" "nie:comment" (plain "v2"),
   Call.insert "ex:a" RDF_TYPE_URI (plain "nmm:Photo")]

/-- The state after `ex:a` was made a photo and given the description `v1`. -/
def described_photo : TrackerData :=
  (returned_data (example_run (make_photo
    ++ [Call.insert "ex:a" "nie:description" (plain "v1")]))).getD example_data

/-- The draft of `ex:a` in `described_photo`. -/
def described_photo_rb : TrackerDataUpdateBufferResource :=
  described_photo.resource_buffer.getD new_draft_rb

/-- A script that replaces the description of `ex:a`: delete `v1`, insert `v2`. -/
def replace_description : List Call :=
  [Call.delete "ex:a" "nie:description" (plain "v1"),
   Call.insert "ex:a" "nie:description" (plain "v2")]

/-- The script that gives the photo `ex:a` the description `v1` and then tries
the description `v2` twice. -/
def describe_twice : List Call :=
  make_photo ++ [Call.insert "ex:a" "nie:description" (plain "v1"),
    Call.insert "ex:a" "nie:description" (plain "v2"),
    Call.insert "ex:a" "nie:description" (plain "v2")]

/-- The script that makes `ex:a` a photo, gives it the caption `v1` and deletes
its type `nmm:Photo`, the domain of `nmm:caption`. -/
def caption_then_untype : List Call :=
  make_photo ++ [Call.insert "ex:a" "nmm:caption" (plain "v1"),
    Call.delete "ex:a" RDF_TYPE_URI (plain "nmm:Photo")]

/-- The script that makes `ex:a` a photo with the keywords `a` and `b`. -/
def two_keywords : List Call :=
  make_photo ++ [Call.insert "ex:a" "nie:keyword" (plain "a"),
    Call.insert "ex:a" "nie:keyword" (plain "b")]

/-- The staged values of a table of the current resource that belong to a
delete, `none` when the table is not staged for the delete of values. -/
def staged_deletes (data : TrackerData) (table_name : String) : Option (List (Option GValue)) :=
  match data.resource_buffer with
  | none => none
  | some rb =>
      match assoc_lookup table_name rb.tables with
      | none => none
      | some table =>
          if table.delete_value then some (table.properties.map (fun p => p.value)) else none

/-- Ask `get_bnode_for_resource` for the resources of a list, one after the
other with the same blank node map, and collect the answers. -/
def bnodes_for_resources (m : TrackerDataManager) (heap : ResourceHeap) :
    List TrackerResource → BnodeMap → TrackerData → List String
  | [], _, _ => []
  | resource :: rest, bnodes, data =>
      match get_bnode_for_resource m heap bnodes data resource with
      | Except.error _ => []
      | Except.ok (data1, bnodes1, bnode) =>
          bnode :: bnodes_for_resources m heap rest bnodes1 data1

/-- Whether the class tables of the example ontology are staged for a row
delete in the current resource, in the order `rdfs:Resource`,
`nie:InformationElement`, `nfo:Media`, `nmm:Photo` (`none`: table not staged). -/
def staged_row_deletes (data : TrackerData) : List (Option Bool) :=
  ["rdfs:Resource", "nie:InformationElement", "nfo:Media", "nmm:Photo"].map (fun name =>
    (data.resource_buffer.bind (fun rb => assoc_lookup name rb.tables)).map
      (fun table => table.delete_row))

/-- The class ids of the delete callbacks dispatched so far. -/
def deleted_class_ids (data : TrackerData) : List Int :=
  data.delete_log.map (fun e => e.object_id)

/-- The script that makes `ex:a` a photo with the description `v1` (which also
gives it the comment `v1`) and then deletes the comment. -/
def description_without_comment : List Call :=
  make_photo ++ [Call.insert "ex:a" "nie:description" (plain "v1"),
    Call.delete "ex:a" "nie:comment" (plain "v1")]

/-- The state after `ex:a` was made a photo with the codec `v1` and the buffer
was flushed. -/
def stored_codec : TrackerData :=
  (returned_data (example_run (make_photo
    ++ [Call.insert "ex:a" "nfo:codec" (plain "v1"), Call.flush]))).getD example_data

/-- The example manager on a file system without enough space. -/
def full_disk_manager : TrackerDataManager :=
  { example_manager with has_enough_space := false }

/-- The example state outside a transaction, with the modification sequence
initialised to 5. -/
def example_idle : TrackerData :=
  { example_data with in_transaction := false, resource_time := 0, transaction_modseq := 5 }

/-- Encode a value of a value set with `bytes_from_gvalue` and decode the bytes
with `bytes_to_gvalue` for a property type; `none` when no bytes come out or a
call does not return. -/
def decode_of_encode (m : TrackerDataManager) (data : TrackerData) (v : GValue)
    (type : TrackerPropertyType) : Option GValue :=
  match bytes_from_gvalue m no_resources data v none with
  | Except.ok (data1, _, some bytes) =>
      match bytes_to_gvalue m data1 bytes type with
      | Except.ok r => r.val
      | Except.error _ => none
  | _ => none

/-- The value `bytes_to_gvalue` returns, if it returns one. -/
def decoded (m : TrackerDataManager) (data : TrackerData) (bytes : GBytes)
    (type : TrackerPropertyType) : Option GValue :=
  match bytes_to_gvalue m data bytes type with
  | Except.ok r => r.val
  | Except.error _ => none

/-- The example ontology with `nie:keyword` of type `rdf:langString`. -/
def langstring_manager : TrackerDataManager :=
  { example_manager with
    ontologies := { example_manager.ontologies with
      property_record := fun p =>
        if p = 3 then { (example_property 3) with data_type := TrackerPropertyType.LANGSTRING }
        else example_property p } }

/-- An object with a language tag. -/
def tagged (s lang : String) : GBytes :=
  { text := s, langtag := some lang }

/-- The state after the transaction of `described_photo` was committed. -/
def committed_photo : TrackerData :=
  (returned_data (tracker_data_commit_transaction example_manager described_photo)).getD
    example_data

/-- The example state outside a transaction with one commit and one rollback
callback registered. -/
def watched_idle : TrackerData :=
  { example_idle with
    commit_callbacks := some [{ callback := 3, user_data := 0 }],
    rollback_callbacks := some [{ callback := 4, user_data := 0 }] }

/-- An executor of updates that makes `ex:a` a photo and then reports a parse
error. -/
def failing_update (_update : String) (_blank : Bool) (data : TrackerData) :
    Run (Ret (Option Unit)) :=
  match run_calls example_manager 10 none make_photo
      { data := data, error := none, val := () } with
  | Except.error e => Except.error e
  | Except.ok r => Except.ok { data := r.data, error := some GError.PARSE, val := none }

/-- An update whose second operation does not parse. -/
def malformed_update : String :=
  "INSERT DATA \x7b <ex:a> a nmm:Photo \x7d ; INSERT DATA \x7b"

/-- The state `failing_update` leaves inside the transaction begun on
`watched_idle`. -/
def failed_update : TrackerData :=
  (returned_data (failing_update malformed_update false
    (tracker_data_begin_transaction example_manager watched_idle).data)).getD example_data

/-- The example manager with times kept in microseconds: the test
`fabs (a - b) < 0.001` of `value_equal` is a difference of less than 1000. -/
def microsecond_manager : TrackerDataManager :=
  { example_manager with
    double_near := fun a b => decide (Int.natAbs ((a.bits : Int) - (b.bits : Int)) < 1000) }

/-- The date-time value of a number of microseconds, with UTC offset 0. -/
def microseconds (n : Nat) : GValue :=
  GValue.date_time ⟨n⟩ 0

/-- The state in which the stored photo `ex:a` of `stored_codec` is selected
again: its draft has received no staging operation yet. -/
def reselected_photo : TrackerData :=
  ((resource_buffer_switch example_manager stored_codec none "ex:a" 100001).toOption.map
    (fun r => r.data)).getD example_data

/-- The draft of `ex:a` in `reselected_photo`. -/
def reselected_rb : TrackerDataUpdateBufferResource :=
  reselected_photo.resource_buffer.getD new_draft_rb

/-- The rows of `Resource` a call of `ensure_resource_id` added to a store that
held `n` rows; `none` when the call does not return. -/
def added_resources (n : Nat) (r : Run (TrackerData × Int × Bool)) :
    Option (List (Int × String × Int)) :=
  r.toOption.map (fun x => x.1.db.resource.drop n)

/-- The value set a draft holds for a property, if it holds one. -/
def draft_values (data : TrackerData) (property : TrackerProperty) : Option (List GValue) :=
  data.resource_buffer.bind (fun rb => assoc_lookup property rb.predicates)

/-- The script that replaces the stored codec `v1` of `ex:a` by `v2` with a
delete and an insert in one draft. -/
def replace_codec : List Call :=
  [Call.delete "ex:a" "nfo:codec" (plain "v1"), Call.insert "ex:a" "nfo:codec" (plain "v2")]

/-- The state after the photo `ex:a` was given the keyword `b` and the buffer
was flushed. -/
def stored_keyword : TrackerData :=
  (returned_data (example_run (make_photo
    ++ [Call.insert "ex:a" "nie:keyword" (plain "b"), Call.flush]))).getD example_data

/-- The script that adds the keyword `a` and deletes the stored keyword `b` in
one draft. -/
def swap_keyword : List Call :=
  [Call.insert "ex:a" "nie:keyword" (plain "a"), Call.delete "ex:a" "nie:keyword" (plain "b")]

/-- The state after the transaction of `stored_codec` was committed. -/
def committed_codec : TrackerData :=
  (returned_data (tracker_data_commit_transaction example_manager stored_codec)).getD
    example_data

/-- Begin a transaction on a state, run a script in the default graph and
commit; `none` when a call does not return or when the begin, a call of the
script or the commit sets an error. -/
def run_transaction (m : TrackerDataManager) (fuel : Nat) (calls : List Call)
    (data : TrackerData) : Option TrackerData :=
  let b := tracker_data_begin_transaction m data
  match b.error with
  | some _ => none
  | none =>
      match run_error_free m fuel none calls b.data with
      | none => none
      | some data1 =>
          match tracker_data_commit_transaction m data1 with
          | Except.ok r => if r.error = none then some r.data else none
          | Except.error _ => none

/-- The state after the stored photo `ex:a` with the codec `v1` was also given
the interlace mode `true` and the buffer was flushed. -/
def stored_media : TrackerData :=
  (returned_data (run_calls example_manager 10 none
    [Call.insert "ex:a" "nfo:interlaceMode" (plain "true"), Call.flush]
    { data := stored_codec, error := none, val := () })).getD example_data

/-- The identity of a resource buffer: the fields no decomposition step
changes. -/
def rb_ident (rb : TrackerDataUpdateBufferResource) : Option String × Int × String × Int × Bool :=
  (rb.graph, rb.graph_id, rb.subject, rb.id, rb.create)

/-- The staged tables only grow: a table stays, keeps its kind and the flags
that are set, and keeps its properties as a prefix. -/
def TablesGrow (tables tables' : List (String × TrackerDataUpdateBufferTable)) : Prop :=
  ∀ name t, assoc_lookup name tables = some t →
    ∃ t', assoc_lookup name tables' = some t'
      ∧ t'.multiple_values = t.multiple_values
      ∧ (t.insert = true → t'.insert = true)
      ∧ (t.delete_row = true → t'.delete_row = true)
      ∧ (t.delete_value = true → t'.delete_value = true)
      ∧ t.properties <+: t'.properties

/-- A staging step: it changes nothing but the tables and the `modified` flag
of the current resource and the modification sequence. -/
structure Staged (data data' : TrackerData) : Prop where
  data_eq : { data' with transaction_modseq := 0, resource_buffer := none }
    = { data with transaction_modseq := 0, resource_buffer := none }
  rb_eq : data'.resource_buffer.map (fun rb => { rb with tables := [], modified := false })
    = data.resource_buffer.map (fun rb => { rb with tables := [], modified := false })
  is_some : data.resource_buffer.isSome = true
  tables : ∀ rb rb', data.resource_buffer = some rb → data'.resource_buffer = some rb' →
    TablesGrow rb.tables rb'.tables

/-- A table write that only sets flags and appends properties. -/
def GrowingWrite (f : TrackerDataUpdateBufferTable → TrackerDataUpdateBufferTable) : Prop :=
  ∀ t, (f t).multiple_values = t.multiple_values
    ∧ (t.insert = true → (f t).insert = true)
    ∧ (t.delete_row = true → (f t).delete_row = true)
    ∧ (t.delete_value = true → (f t).delete_value = true)
    ∧ t.properties <+: (f t).properties


/-- A load of property values: it changes nothing but the value sets and the
full-text flag of the current resource, the full-text journal of the store and
the full-text flag of the buffer. -/
structure Loaded (data data' : TrackerData) : Prop where
  data_eq : { data' with
      resource_buffer := none,
      db := { data'.db with fts_journal := [] },
      update_buffer := { data'.update_buffer with fts_ever_updated := false } }
    = { data with
      resource_buffer := none,
      db := { data.db with fts_journal := [] },
      update_buffer := { data.update_buffer with fts_ever_updated := false } }
  rb_eq : data'.resource_buffer.map (fun rb => { rb with predicates := [], fts_updated := false })
    = data.resource_buffer.map (fun rb => { rb with predicates := [], fts_updated := false })
  is_some : data.resource_buffer.isSome = true

/-- The value sets that are loaded stay as they are, except that the first
full-text touch of a stored resource reloads the full-text-indexed ones. -/
def ValuesKept (m : TrackerDataManager) (rb rb' : TrackerDataUpdateBufferResource) : Prop :=
  (rb.fts_updated = true → rb'.fts_updated = true)
  ∧ ∀ property, (assoc_lookup property rb.predicates).isSome = true →
      (rb.fts_updated = true ∨ rb.create = true
        ∨ tracker_property_get_fulltext_indexed m property = false) →
      assoc_lookup property rb'.predicates = assoc_lookup property rb.predicates

/-! ## Notions used by the statements on `rdf:type` -/

/-- `SuperClass m cl c`: `c` is `cl` or a transitive super-class of `cl`. -/
inductive SuperClass (m : TrackerDataManager) : TrackerClass → TrackerClass → Prop
  | refl (cl : TrackerClass) : SuperClass m cl cl
  | step {cl super c : TrackerClass} :
      super ∈ tracker_class_get_super_classes m cl → SuperClass m super c → SuperClass m cl c

/-- What the insertion of the classes `roots` into a resource of types `types`
adds: classes that were absent, each once, each one of the `roots` or a
super-class of one, and enough of them to close `types` under the
super-classes of the `roots`. -/
structure ClassesInserted (m : TrackerDataManager) (types roots added : List TrackerClass) :
    Prop where
  fresh : ∀ c ∈ added, c ∉ types
  nodup : added.Nodup
  reach : ∀ c ∈ added, ∃ s ∈ roots, SuperClass m s c
  closed : ∀ s ∈ roots, ∀ c, SuperClass m s c → c ∈ types ++ added

/-! ## Notions used by the statements on value sets -/

/-- What every step of the decomposition of a property statement keeps: the
transaction flag, the callbacks and their logs, and of the current resource
its identity and types; its staged tables only grow. -/
structure Frame (data data' : TrackerData) : Prop where
  in_transaction : data'.in_transaction = data.in_transaction
  insert_log : data'.insert_log = data.insert_log
  delete_log : data'.delete_log = data.delete_log
  insert_callbacks : data'.insert_callbacks = data.insert_callbacks
  delete_callbacks : data'.delete_callbacks = data.delete_callbacks
  rb : ∀ rb, data.resource_buffer = some rb → ∃ rb', data'.resource_buffer = some rb'
    ∧ rb_ident rb' = rb_ident rb ∧ rb'.types = rb.types ∧ TablesGrow rb.tables rb'.tables

/-- A step that leaves the current resource, the transaction flag, the
callbacks and their logs as they are. -/
structure SameDraft (data data' : TrackerData) : Prop where
  resource_buffer : data'.resource_buffer = data.resource_buffer
  in_transaction : data'.in_transaction = data.in_transaction
  insert_log : data'.insert_log = data.insert_log
  delete_log : data'.delete_log = data.delete_log
  insert_callbacks : data'.insert_callbacks = data.insert_callbacks
  delete_callbacks : data'.delete_callbacks = data.delete_callbacks

/-- The value set of `property` is loaded in the current resource, satisfies
`J`, and will not be reloaded by the first full-text touch of the resource. -/
def Guarded (m : TrackerDataManager) (property : TrackerProperty) (J : List GValue → Prop)
    (data : TrackerData) : Prop :=
  ∃ rb vs, data.resource_buffer = some rb ∧ assoc_lookup property rb.predicates = some vs ∧ J vs
    ∧ (rb.fts_updated = true ∨ rb.create = true
      ∨ tracker_property_get_fulltext_indexed m property = false)

/-- A step from `data` to `data'` reporting `error` keeps the frame and, when
it reports no error, the guarded value set. -/
def Preserves (m : TrackerDataManager) (property : TrackerProperty) (J : List GValue → Prop)
    (data data' : TrackerData) (error : Option GError) : Prop :=
  Frame data data' ∧ (Guarded m property J data → error = none → Guarded m property J data')

/-- The current resource stays the same draft and the transaction stays open
or closed as it was. -/
structure DraftKept (data data' : TrackerData) : Prop where
  in_transaction : data'.in_transaction = data.in_transaction
  rb : ∀ rb, data.resource_buffer = some rb → ∃ rb', data'.resource_buffer = some rb'
    ∧ rb_ident rb' = rb_ident rb

/-- A step keeps the draft and the guarded value set. -/
def Keeps (m : TrackerDataManager) (property : TrackerProperty) (J : List GValue → Prop)
    (data data' : TrackerData) : Prop :=
  DraftKept data data' ∧ (Guarded m property J data → Guarded m property J data')

/-- The current resource is the draft of `subject` in `graph`. -/
def OnDraft (graph : Option String) (subject : String) (data : TrackerData) : Prop :=
  ∃ rb, data.resource_buffer = some rb ∧ rb.graph = graph ∧ rb.subject = subject

/-- The insert of `object` for `property` finds its value and the values of the
fan-out already present: the value set of `property` is loaded and holds a
value equal to the decoded object, decoding leaves the state as it is, every
single-valued super-property holds some value, and the same is true, one level
down, of every multi-valued super-property.  The number bounds the depth of
the property hierarchy that is looked at. -/
def settled (m : TrackerDataManager) (data : TrackerData) (object : GBytes) :
    Nat → TrackerProperty → Bool
  | 0, _ => false
  | fuel + 1, property =>
      match data.resource_buffer with
      | none => false
      | some rb =>
          match assoc_lookup property rb.predicates with
          | none => false
          | some values =>
              (tracker_property_get_super_properties m property).all (fun super =>
                match assoc_lookup super rb.predicates with
                | none => false
                | some super_values =>
                    if tracker_property_get_multiple_values m super then
                      settled m data object fuel super
                    else !super_values.isEmpty)
              && (match bytes_to_gvalue m data object
                    (tracker_property_get_data_type m property) with
                  | Except.error _ => false
                  | Except.ok r =>
                      decide (r.data = data) && r.error.isNone
                      && (match r.val with
                          | none => false
                          | some value =>
                              decide (value_set_contains m values value = Except.ok true)))

/-! ## Notions used by the statements on `tracker_data_update_statement` -/

/-- Apply statements to the store in order and record them in the journal. -/
def Database.run (db : Database) : List SqlStmt → Database
  | [] => db
  | stmt :: rest => Database.run { db.apply stmt with journal := db.journal ++ [stmt] } rest

/-- What a flush of the buffer keeps: the transaction flags, the
`has_persistent` flag, the commit and rollback callbacks and their logs, and
the modification sequence once it is initialised. -/
structure Flushed (data data' : TrackerData) : Prop where
  in_transaction : data'.in_transaction = data.in_transaction
  in_ontology_transaction : data'.in_ontology_transaction = data.in_ontology_transaction
  has_persistent : data'.has_persistent = data.has_persistent
  commit_callbacks : data'.commit_callbacks = data.commit_callbacks
  rollback_callbacks : data'.rollback_callbacks = data.rollback_callbacks
  commit_log : data'.commit_log = data.commit_log
  rollback_log : data'.rollback_log = data.rollback_log
  transaction_modseq : data.transaction_modseq ≠ 0 →
    data'.transaction_modseq = data.transaction_modseq

/-! ## Notions used by the statements on errors -/

/-- The two outcomes of selecting a resource: success without an error, or
failure with the error of the graph manager that could not create the graph. -/
def SwitchOutcome (m : TrackerDataManager) (r : Ret Bool) : Prop :=
  (r.val = true ∧ r.error = none)
  ∨ (r.val = false ∧ ∃ n e, m.create_graph_error n = some e ∧ r.error = some e)

/-- An error raised by a collaborator of the decomposition: the two date
parsers and the graph manager. -/
def CollaboratorError (m : TrackerDataManager) (e : GError) : Prop :=
  (∃ s, m.tracker_string_to_date s = Except.error e)
  ∨ (∃ s, m.tracker_date_time_set_from_string s = Except.error e)
  ∨ (∃ n, m.create_graph_error n = some e)

/-- The errors that arise after the checks at the start of an insert
statement: `CONSTRAINT`, `UNKNOWN_CLASS` and the errors of collaborators. -/
def InnerError (m : TrackerDataManager) (e : GError) : Prop :=
  e = GError.CONSTRAINT ∨ e = GError.UNKNOWN_CLASS ∨ CollaboratorError m e

/-! ## Notions used by the statements on value sets as sets -/

/-- An operation on a value set. -/
inductive ValueSetOp
  | add (value : GValue)
  | remove (value : GValue)

/-- The value an operation adds or removes. -/
def ValueSetOp.value : ValueSetOp → GValue
  | ValueSetOp.add value => value
  | ValueSetOp.remove value => value

/-- Apply an operation with `value_set_add_value` or `value_set_remove_value`
and keep the value set. -/
def ValueSetOp.apply (m : TrackerDataManager) (value_set : List GValue) :
    ValueSetOp → Run (List GValue)
  | ValueSetOp.add value =>
      match value_set_add_value m value_set (some value) with
      | Except.error e => Except.error e
      | Except.ok r => Except.ok r.1
  | ValueSetOp.remove value =>
      match value_set_remove_value m value_set (some value) with
      | Except.error e => Except.error e
      | Except.ok r => Except.ok r.1

/-- The value set that a sequence of operations makes of a value set. -/
def build_value_set (m : TrackerDataManager) : List ValueSetOp → List GValue → Run (List GValue)
  | [], value_set => Except.ok value_set
  | op :: rest, value_set =>
      match op.apply m value_set with
      | Except.error e => Except.error e
      | Except.ok value_set1 => build_value_set m rest value_set1

/-- The values for whose type `value_equal` has a case: strings, integers,
doubles and date-times. -/
def has_equality : GValue → Bool
  | GValue.string _ => true
  | GValue.int64 _ => true
  | GValue.double _ => true
  | GValue.date_time _ _ => true
  | _ => false

/-- Whether a value is a date-time. -/
def is_date_time : GValue → Bool
  | GValue.date_time _ _ => true
  | _ => false

/-- What the operations keep of a value set: its values have an equality and
no value is equal to a later one. -/
def Distinct (m : TrackerDataManager) (S : List GValue) : Prop :=
  (∀ x ∈ S, has_equality x = true)
  ∧ S.Pairwise (fun a b => value_equal m a b = Except.ok false)

/-! ## Notions used by the statement on the stamp `nrl:modified` -/

/-- The values a statement binds to the column `nrl:modified` of the table
`rdfs:Resource`, one for every time the statement names the column. -/
def SqlStmt.modified_bindings : SqlStmt → List SqlValue
  | SqlStmt.insert_row _ table columns params =>
      if table = "rdfs:Resource" then
        ((columns.zip (params.drop 1)).filter (fun e => decide (e.1 = "nrl:modified"))).map
          (fun e => e.2)
      else []
  | SqlStmt.update_row _ table columns params =>
      if table = "rdfs:Resource" then
        ((columns.zip params).filter (fun e => decide (e.1 = "nrl:modified"))).map (fun e => e.2)
      else []
  | _ => []

/-- The values bound to `nrl:modified` of `rdfs:Resource` by the statements
that the flush of the current resource emits; `none` when there is no current
resource or the flush does not return without error. -/
def flush_bindings (m : TrackerDataManager) (data : TrackerData) : Option (List SqlValue) :=
  match data.resource_buffer with
  | none => none
  | some rb =>
      match tracker_data_resource_buffer_flush m data rb with
      | Except.ok (data1, none) =>
          some ((data1.db.journal.drop data.db.journal.length).flatMap
            SqlStmt.modified_bindings)
      | _ => none

/-- A staging operation on the current resource. -/
inductive StagingOp
  | insert_row (cl : TrackerClass)
  | insert_value (table_name field_name : String) (value : GValue)
      (multiple_values fts date_time : Bool)
  | delete_row (cl : TrackerClass)
  | delete_all_values (table_name field_name : String) (fts date_time : Bool)
  | delete_value (table_name field_name : String) (value : GValue)
      (multiple_values fts date_time : Bool)

/-- Run a staging operation with the function of its name. -/
def StagingOp.run (m : TrackerDataManager) (data : TrackerData) : StagingOp → Run TrackerData
  | StagingOp.insert_row cl => cache_insert_row m data cl
  | StagingOp.insert_value table_name field_name value multiple_values fts date_time =>
      cache_insert_value data table_name field_name value multiple_values fts date_time
  | StagingOp.delete_row cl => cache_delete_row m data cl
  | StagingOp.delete_all_values table_name field_name fts date_time =>
      cache_delete_all_values data table_name field_name fts date_time
  | StagingOp.delete_value table_name field_name value multiple_values fts date_time =>
      cache_delete_value data table_name field_name value multiple_values fts date_time

/-- Run staging operations one after the other. -/
def run_staging (m : TrackerDataManager) : List StagingOp → TrackerData → Run TrackerData
  | [], data => Except.ok data
  | op :: rest, data =>
      match op.run m data with
      | Except.error e => Except.error e
      | Except.ok data1 => run_staging m rest data1

/-- The table a staging operation writes to. -/
def StagingOp.table (m : TrackerDataManager) : StagingOp → String
  | StagingOp.insert_row cl => tracker_class_get_name m cl
  | StagingOp.insert_value table_name _ _ _ _ _ => table_name
  | StagingOp.delete_row cl => tracker_class_get_name m cl
  | StagingOp.delete_all_values table_name _ _ _ => table_name
  | StagingOp.delete_value table_name _ _ _ _ _ => table_name

/-- The staging operations that leave the row of the resource in
`rdfs:Resource` and its stamp alone: every operation on another table, and on
`rdfs:Resource` the insert of a value into a column other than
`nrl:modified`. -/
def StagingOp.spares_stamp (m : TrackerDataManager) : StagingOp → Bool
  | StagingOp.insert_value table_name field_name _ _ _ _ =>
      decide (table_name ≠ "rdfs:Resource" ∨ field_name ≠ "nrl:modified")
  | op => decide (op.table m ≠ "rdfs:Resource")

/-- The flag with which a staging operation ensures its table. -/
def StagingOp.multiple_values : StagingOp → Bool
  | StagingOp.insert_row _ => false
  | StagingOp.insert_value _ _ _ multiple_values _ _ => multiple_values
  | StagingOp.delete_row _ => false
  | StagingOp.delete_all_values _ _ _ _ => true
  | StagingOp.delete_value _ _ _ multiple_values _ _ => multiple_values

/-- The write of a staging operation to the table it ensured. -/
def StagingOp.write : StagingOp → TrackerDataUpdateBufferTable → TrackerDataUpdateBufferTable
  | StagingOp.insert_row cl => fun t => { t with class_ := some cl, insert := true }
  | StagingOp.insert_value _ field_name value _ fts date_time =>
      table_append (buffer_property field_name value fts date_time)
  | StagingOp.delete_row cl => fun t => { t with class_ := some cl, delete_row := true }
  | StagingOp.delete_all_values _ field_name fts date_time => fun t =>
      table_append
        { name := field_name, value := none, date_time := date_time, fts := fts,
          delete_all_values := true }
        { t with delete_value := true }
  | StagingOp.delete_value _ field_name value _ fts date_time => fun t =>
      table_append (buffer_property field_name value fts date_time) { t with delete_value := true }

/-- The stamp that `cache_ensure_table` stages on the first modification of a
resource. -/
def stamp (k : Int) : TrackerDataUpdateBufferProperty :=
  buffer_property "nrl:modified" (GValue.int64 k) false false

/-- The staged tables of a resource whose row in `rdfs:Resource` and stamp were
spared: `rdfs:Resource` comes first, is staged for an update only, and holds
the stamp once; the tables staged for a row delete know their class. -/
structure Stamped (k : Int) (rb : TrackerDataUpdateBufferResource) : Prop where
  modified : rb.modified = true
  tables : ∃ t rest, rb.tables = ("rdfs:Resource", t) :: rest
    ∧ (∀ e ∈ rest, e.1 ≠ "rdfs:Resource")
    ∧ t.multiple_values = false ∧ t.insert = false ∧ t.delete_row = false
    ∧ t.delete_value = false
    ∧ (∃ others, t.properties = stamp k :: others ∧ ∀ p ∈ others, p.name ≠ "nrl:modified")
    ∧ (∀ e ∈ rest, e.2.delete_row = true → e.2.class_.isSome = true)

/-! ## Sequences of id allocations -/

/-- Every loaded value set of `rb` is a prefix of the one `rb'` holds, and
`rb'` has no other value set loaded. -/
def ValuesGrow (rb rb' : TrackerDataUpdateBufferResource) : Prop :=
  (∀ Q vs, assoc_lookup Q rb.predicates = some vs →
    ∃ ext, assoc_lookup Q rb'.predicates = some (vs ++ ext))
  ∧ ∀ Q, assoc_lookup Q rb.predicates = none → assoc_lookup Q rb'.predicates = none

/-- The entry `a` of a log comes before the entry `b`. -/
def Before (t : List (TrackerResource × String)) (a b : TrackerResource × String) : Prop :=
  ∃ pre post, t = pre ++ b :: post ∧ a ∈ pre

/-- In a log of property writes, the write of `rdf:type` of a resource that has
that property comes before the writes of its other properties. -/
def TypeFirst (heap : ResourceHeap) (t : List (TrackerResource × String)) : Prop :=
  ∀ r p, (r, p) ∈ t → p ≠ "rdf:type" → "rdf:type" ∈ (heap r).properties →
    Before t (r, "rdf:type") (r, p)

/-- The number of resources of `nodes` that are not visited yet. -/
def unvisited (nodes visited : List TrackerResource) : Nat :=
  (nodes.filter (fun r => decide (r ∉ visited))).length

/-- The property writes of a call of `update_resource_single`: they are writes
for resources that were not visited before the call and are visited after it,
each resource and property once, `rdf:type` first. -/
structure NestedTrace (heap : ResourceHeap) (vis vis' : List TrackerResource)
    (new : List (TrackerResource × String)) : Prop where
  fresh : ∀ e ∈ new, e.1 ∉ vis ∧ e.1 ∈ vis'
  nodup : new.Nodup
  type_first : TypeFirst heap new

/-- The property writes of the loop over the properties `ps` of the resource
`r`: writes for properties of `ps` other than `rdf:type`, and writes for
resources that the loop visits. -/
structure LoopTrace (heap : ResourceHeap) (r : TrackerResource) (ps : List String)
    (vis vis' : List TrackerResource) (new : List (TrackerResource × String)) : Prop where
  own : ∀ p, (r, p) ∈ new → p ∈ ps ∧ p ≠ "rdf:type"
  fresh : ∀ e ∈ new, e.1 ≠ r → e.1 ∉ vis ∧ e.1 ∈ vis'
  nodup : new.Nodup
  type_first : ∀ x p, (x, p) ∈ new → x ≠ r → p ≠ "rdf:type" →
    "rdf:type" ∈ (heap x).properties → Before new (x, "rdf:type") (x, p)

/-- A step of the writer from the state `st` does not run out of fuel, and when
it returns the state satisfies `Inv`, no resource has left the visited set and
the log has grown by writes that satisfy `Q`. -/
def Returns (Inv : TrackerData → Prop) (st : WriterState)
    (x : Run (WriterState × Option GError))
    (Q : WriterState → List (TrackerResource × String) → Prop) : Prop :=
  x ≠ Except.error Fatal.out_of_fuel
  ∧ ∀ st' e, x = Except.ok (st', e) →
      Inv st'.data ∧ (∀ v ∈ st.visited, v ∈ st'.visited)
      ∧ ∃ new, st'.written = st.written ++ new ∧ Q st' new

/-! ## Lemmas on association lists and staging -/

theorem assoc_lookup_insert_self {κ β : Type} [DecidableEq κ] (k : κ) (v : β)
    (l : List (κ × β)) : assoc_lookup k (assoc_insert k v l) = some v := by
  induction l with
  | nil => simp [assoc_insert, assoc_lookup]
  | cons e rest ih =>
    obtain ⟨k1, v1⟩ := e
    by_cases h : k1 = k
    · simp [assoc_insert, assoc_lookup, h]
    · simp [assoc_insert, assoc_lookup, h, ih]

theorem assoc_lookup_insert_ne {κ β : Type} [DecidableEq κ] (k k' : κ) (v : β)
    (l : List (κ × β)) (h : k' ≠ k) :
    assoc_lookup k' (assoc_insert k v l) = assoc_lookup k' l := by
  induction l with
  | nil => simp [assoc_insert, assoc_lookup, h.symm]
  | cons e rest ih =>
    obtain ⟨k1, v1⟩ := e
    simp only [assoc_insert, assoc_lookup]
    split_ifs <;> simp_all [assoc_lookup]

theorem TablesGrow.refl_tables_grow (tables : List (String × TrackerDataUpdateBufferTable)) :
    TablesGrow tables tables := by
  intro name t h
  exact ⟨t, h, rfl, id, id, id, List.prefix_refl _⟩

theorem TablesGrow.trans_tables_grow {a b c : List (String × TrackerDataUpdateBufferTable)}
    (h1 : TablesGrow a b) (h2 : TablesGrow b c) : TablesGrow a c := by
  intro name t h
  obtain ⟨t1, hl1, hm1, hi1, hr1, hv1, hp1⟩ := h1 name t h
  obtain ⟨t2, hl2, hm2, hi2, hr2, hv2, hp2⟩ := h2 name t1 hl1
  exact ⟨t2, hl2, hm2.trans hm1, fun x => hi2 (hi1 x), fun x => hr2 (hr1 x),
    fun x => hv2 (hv1 x), hp1.trans hp2⟩

theorem assoc_lookup_append_of_some {κ β : Type} [DecidableEq κ] (k : κ) (v : β)
    (l l' : List (κ × β)) (h : assoc_lookup k l = some v) :
    assoc_lookup k (l ++ l') = some v := by
  induction l with
  | nil => simp [assoc_lookup] at h
  | cons e rest ih =>
    obtain ⟨k1, v1⟩ := e
    by_cases h1 : k1 = k
    · simpa [assoc_lookup, h1] using h
    · simp only [assoc_lookup, h1, if_false, List.cons_append] at h ⊢
      exact ih h

theorem tables_ensure_grow (tables : List (String × TrackerDataUpdateBufferTable))
    (table_name : String) (multiple_values : Bool) :
    TablesGrow tables (tables_ensure tables table_name multiple_values) := by
  unfold tables_ensure
  split
  · exact TablesGrow.refl_tables_grow _
  · intro name t h
    exact ⟨t, assoc_lookup_append_of_some _ _ _ _ h, rfl, id, id, id, List.prefix_refl _⟩

theorem tables_modify_cons (k1 : String) (v1 : TrackerDataUpdateBufferTable)
    (rest : List (String × TrackerDataUpdateBufferTable)) (table_name : String)
    (f : TrackerDataUpdateBufferTable → TrackerDataUpdateBufferTable) :
    tables_modify ((k1, v1) :: rest) table_name f
      = (if k1 = table_name then (k1, f v1) else (k1, v1)) :: tables_modify rest table_name f :=
  rfl

theorem assoc_lookup_cons {κ β : Type} [DecidableEq κ] (k k1 : κ) (v1 : β) (rest : List (κ × β)) :
    assoc_lookup k ((k1, v1) :: rest) = if k1 = k then some v1 else assoc_lookup k rest := rfl

theorem assoc_lookup_tables_modify (tables : List (String × TrackerDataUpdateBufferTable))
    (table_name name : String) (f : TrackerDataUpdateBufferTable → TrackerDataUpdateBufferTable) :
    assoc_lookup name (tables_modify tables table_name f)
      = (assoc_lookup name tables).map (fun t => if name = table_name then f t else t) := by
  induction tables with
  | nil => simp [tables_modify, assoc_lookup]
  | cons e rest ih =>
    obtain ⟨k1, v1⟩ := e
    rw [tables_modify_cons]
    by_cases h1 : k1 = table_name
    · rw [if_pos h1, assoc_lookup_cons, assoc_lookup_cons]
      by_cases h2 : k1 = name
      · rw [if_pos h2, if_pos h2]
        simp [← h2, h1]
      · rw [if_neg h2, if_neg h2, ih]
    · rw [if_neg h1, assoc_lookup_cons, assoc_lookup_cons]
      by_cases h2 : k1 = name
      · rw [if_pos h2, if_pos h2]
        simp [← h2, h1]
      · rw [if_neg h2, if_neg h2, ih]

/-- A write through a table pointer that only sets flags and appends
properties keeps the tables growing. -/
theorem tables_modify_grow (tables : List (String × TrackerDataUpdateBufferTable))
    (table_name : String) (f : TrackerDataUpdateBufferTable → TrackerDataUpdateBufferTable)
    (hf : ∀ t, (f t).multiple_values = t.multiple_values
      ∧ (t.insert = true → (f t).insert = true)
      ∧ (t.delete_row = true → (f t).delete_row = true)
      ∧ (t.delete_value = true → (f t).delete_value = true)
      ∧ t.properties <+: (f t).properties) :
    TablesGrow tables (tables_modify tables table_name f) := by
  intro name t h
  rw [assoc_lookup_tables_modify, h]
  by_cases hn : name = table_name
  · simp only [Option.map_some', hn, if_true]
    obtain ⟨h1, h2, h3, h4, h5⟩ := hf t
    exact ⟨f t, rfl, h1, h2, h3, h4, h5⟩
  · simp only [Option.map_some', hn, if_false]
    exact ⟨t, rfl, rfl, id, id, id, List.prefix_refl _⟩

theorem Staged.trans_staged {a b c : TrackerData} (h1 : Staged a b) (h2 : Staged b c) : Staged a c := by
  refine ⟨h2.data_eq.trans h1.data_eq, h2.rb_eq.trans h1.rb_eq, h1.is_some, ?_⟩
  intro rb rb'' ha hc
  cases hb : b.resource_buffer with
  | none =>
    have := h1.rb_eq
    simp [hb, ha] at this
  | some rbb =>
    exact (h1.tables rb rbb ha hb).trans_tables_grow (h2.tables rbb rb'' hb hc)

theorem cache_ensure_table_staged {data : TrackerData} {rb : TrackerDataUpdateBufferResource}
    (table_name : String) (multiple_values : Bool) (hrb : data.resource_buffer = some rb) :
    ∃ data', cache_ensure_table data table_name multiple_values = Except.ok data'
      ∧ Staged data data' := by
  unfold cache_ensure_table
  simp only [hrb]
  split
  · refine ⟨_, rfl, by simp, by simp [hrb], by simp [hrb], ?_⟩
    intro r r' h1 h2
    simp only [hrb, Option.some.injEq] at h1 h2
    subst h1; subst h2
    exact tables_ensure_grow _ _ _
  · refine ⟨_, rfl, ?_, by simp [hrb], by simp [hrb], ?_⟩
    · simp only [get_transaction_modseq]
      split <;> split <;> rfl
    · intro r r' h1 h2
      simp only [hrb, Option.some.injEq] at h1 h2
      subst h1; subst h2
      refine TablesGrow.trans_tables_grow (tables_ensure_grow _ "rdfs:Resource" false) ?_
      refine TablesGrow.trans_tables_grow (tables_modify_grow _ "rdfs:Resource" _ ?_) (tables_ensure_grow _ _ _)
      intro t
      exact ⟨rfl, id, id, id, by simp [table_append]⟩

theorem modify_table_staged {data : TrackerData} {rb : TrackerDataUpdateBufferResource}
    (table_name : String) (f : TrackerDataUpdateBufferTable → TrackerDataUpdateBufferTable)
    (hf : GrowingWrite f) (hrb : data.resource_buffer = some rb) :
    Staged data (modify_table data table_name f) := by
  unfold modify_table
  simp only [hrb]
  refine ⟨by simp, by simp [hrb], by simp [hrb], ?_⟩
  intro r r' h1 h2
  simp only [hrb, Option.some.injEq] at h1 h2
  subst h1; subst h2
  exact tables_modify_grow _ _ _ hf

theorem Staged.exists_rb_staged {data data' : TrackerData} (h : Staged data data') :
    ∃ rb', data'.resource_buffer = some rb' := by
  have h1 := h.rb_eq
  have h2 := h.is_some
  cases hb : data'.resource_buffer with
  | none =>
    cases ha : data.resource_buffer with
    | none => simp [ha] at h2
    | some rb => simp [ha, hb] at h1
  | some rb' => exact ⟨rb', rfl⟩

theorem stage_write {data : TrackerData} {rb : TrackerDataUpdateBufferResource}
    (table_name : String) (multiple_values : Bool)
    (f : TrackerDataUpdateBufferTable → TrackerDataUpdateBufferTable)
    (hf : GrowingWrite f) (hrb : data.resource_buffer = some rb) :
    ∃ data1, cache_ensure_table data table_name multiple_values = Except.ok data1
      ∧ Staged data (modify_table data1 table_name f) := by
  obtain ⟨data1, h1, hs1⟩ := cache_ensure_table_staged table_name multiple_values hrb
  obtain ⟨rb1, hrb1⟩ := hs1.exists_rb_staged
  exact ⟨data1, h1, hs1.trans_staged (modify_table_staged table_name f hf hrb1)⟩

theorem cache_insert_row_staged (m : TrackerDataManager) {data : TrackerData}
    {rb : TrackerDataUpdateBufferResource} (cl : TrackerClass)
    (hrb : data.resource_buffer = some rb) :
    ∃ data', cache_insert_row m data cl = Except.ok data' ∧ Staged data data' := by
  obtain ⟨data1, h1, hs⟩ := stage_write (tracker_class_get_name m cl) false
    (fun t => { t with class_ := some cl, insert := true })
    (fun t => ⟨rfl, fun _ => rfl, id, id, List.prefix_refl _⟩) hrb
  exact ⟨_, by simp only [cache_insert_row, h1], hs⟩

theorem cache_insert_value_staged {data : TrackerData}
    {rb : TrackerDataUpdateBufferResource} (table_name field_name : String) (value : GValue)
    (multiple_values fts date_time : Bool) (hrb : data.resource_buffer = some rb) :
    ∃ data', cache_insert_value data table_name field_name value multiple_values fts date_time
        = Except.ok data' ∧ Staged data data' := by
  obtain ⟨data1, h1, hs⟩ := stage_write table_name multiple_values
    (table_append (buffer_property field_name value fts date_time))
    (fun t => ⟨rfl, id, id, id, by simp [table_append]⟩) hrb
  exact ⟨_, by simp only [cache_insert_value, h1], hs⟩

theorem cache_delete_row_staged (m : TrackerDataManager) {data : TrackerData}
    {rb : TrackerDataUpdateBufferResource} (cl : TrackerClass)
    (hrb : data.resource_buffer = some rb) :
    ∃ data', cache_delete_row m data cl = Except.ok data' ∧ Staged data data' := by
  obtain ⟨data1, h1, hs⟩ := stage_write (tracker_class_get_name m cl) false
    (fun t => { t with class_ := some cl, delete_row := true })
    (fun t => ⟨rfl, id, fun _ => rfl, id, List.prefix_refl _⟩) hrb
  exact ⟨_, by simp only [cache_delete_row, h1], hs⟩

theorem cache_delete_all_values_staged {data : TrackerData}
    {rb : TrackerDataUpdateBufferResource} (table_name field_name : String)
    (fts date_time : Bool) (hrb : data.resource_buffer = some rb) :
    ∃ data', cache_delete_all_values data table_name field_name fts date_time
        = Except.ok data' ∧ Staged data data' := by
  obtain ⟨data1, h1, hs⟩ := stage_write table_name true
    (fun t => table_append
      { name := field_name, value := none, date_time := date_time, fts := fts,
        delete_all_values := true }
      { t with delete_value := true })
    (fun t => ⟨rfl, id, id, fun _ => rfl, by simp [table_append]⟩) hrb
  exact ⟨_, by simp only [cache_delete_all_values, h1], hs⟩

theorem cache_delete_value_staged {data : TrackerData}
    {rb : TrackerDataUpdateBufferResource} (table_name field_name : String) (value : GValue)
    (multiple_values fts date_time : Bool) (hrb : data.resource_buffer = some rb) :
    ∃ data', cache_delete_value data table_name field_name value multiple_values fts date_time
        = Except.ok data' ∧ Staged data data' := by
  obtain ⟨data1, h1, hs⟩ := stage_write table_name multiple_values
    (fun t => table_append (buffer_property field_name value fts date_time)
      { t with delete_value := true })
    (fun t => ⟨rfl, id, id, fun _ => rfl, by simp [table_append]⟩) hrb
  exact ⟨_, by simp only [cache_delete_value, h1], hs⟩

theorem Staged.rb_staged {data data' : TrackerData} {rb : TrackerDataUpdateBufferResource}
    (h : Staged data data') (hrb : data.resource_buffer = some rb) :
    ∃ rb', data'.resource_buffer = some rb' ∧ rb_ident rb' = rb_ident rb
      ∧ rb'.types = rb.types ∧ rb'.predicates = rb.predicates
      ∧ rb'.fts_updated = rb.fts_updated ∧ TablesGrow rb.tables rb'.tables := by
  obtain ⟨rb', hrb'⟩ := h.exists_rb_staged
  have h1 := h.rb_eq
  simp only [hrb, hrb', Option.map_some', Option.some.injEq] at h1
  refine ⟨rb', hrb', ?_, ?_, ?_, ?_, h.tables rb rb' hrb hrb'⟩
  · have := congrArg rb_ident h1
    simpa [rb_ident] using this
  · exact congrArg (fun r => r.types) h1
  · exact congrArg (fun r => r.predicates) h1
  · exact congrArg (fun r => r.fts_updated) h1

theorem Staged.insert_log_staged {data data' : TrackerData} (h : Staged data data') :
    data'.insert_log = data.insert_log :=
  congrArg (fun d => d.insert_log) h.data_eq

theorem Staged.delete_log_staged {data data' : TrackerData} (h : Staged data data') :
    data'.delete_log = data.delete_log :=
  congrArg (fun d => d.delete_log) h.data_eq

theorem Staged.insert_callbacks_staged {data data' : TrackerData} (h : Staged data data') :
    data'.insert_callbacks = data.insert_callbacks :=
  congrArg (fun d => d.insert_callbacks) h.data_eq

theorem Staged.delete_callbacks_staged {data data' : TrackerData} (h : Staged data data') :
    data'.delete_callbacks = data.delete_callbacks :=
  congrArg (fun d => d.delete_callbacks) h.data_eq

theorem Staged.db {data data' : TrackerData} (h : Staged data data') :
    data'.db = data.db :=
  congrArg (fun d => d.db) h.data_eq

theorem Staged.update_buffer {data data' : TrackerData} (h : Staged data data') :
    data'.update_buffer = data.update_buffer :=
  congrArg (fun d => d.update_buffer) h.data_eq

theorem get_property_values_lookup_ne (m : TrackerDataManager) (db : Database)
    (rb : TrackerDataUpdateBufferResource) (property other : TrackerProperty)
    (h : other ≠ property) :
    assoc_lookup other (get_property_values m db rb property).predicates
      = assoc_lookup other rb.predicates := by
  simp only [get_property_values]
  exact assoc_lookup_insert_ne _ _ _ _ h

theorem get_property_values_lookup_self (m : TrackerDataManager) (db : Database)
    (rb : TrackerDataUpdateBufferResource) (property : TrackerProperty) :
    ∃ vs, assoc_lookup property (get_property_values m db rb property).predicates = some vs := by
  simp only [get_property_values]
  exact ⟨_, assoc_lookup_insert_self _ _ _⟩

theorem fts_load_frame (m : TrackerDataManager) (db : Database) (props : List TrackerProperty)
    (rb : TrackerDataUpdateBufferResource) :
    { (fts_load m db props rb).1 with predicates := [] } = { rb with predicates := [] }
    ∧ ∀ other, other ∉ props →
        assoc_lookup other (fts_load m db props rb).1.predicates
          = assoc_lookup other rb.predicates := by
  induction props generalizing rb with
  | nil => exact ⟨rfl, fun _ _ => rfl⟩
  | cons p rest ih =>
    simp only [fts_load]
    obtain ⟨h1, h2⟩ := ih (get_property_values m db rb p)
    refine ⟨h1.trans (by simp [get_property_values]), ?_⟩
    intro other hother
    rw [h2 other (fun h => hother (List.mem_cons_of_mem _ h))]
    exact get_property_values_lookup_ne m db rb p other
      (fun h => hother (h ▸ List.mem_cons_self _ _))

theorem get_old_property_values_loaded (m : TrackerDataManager) {data : TrackerData}
    {rb : TrackerDataUpdateBufferResource} (property : TrackerProperty)
    (hrb : data.resource_buffer = some rb) :
    ∃ r, get_old_property_values m data property = Except.ok r
      ∧ Loaded data r.data
      ∧ (∃ rb', r.data.resource_buffer = some rb' ∧ ValuesKept m rb rb'
          ∧ (r.error = none → r.val = assoc_lookup property rb'.predicates)
          ∧ (r.error = none → check_property_domain m rb property = false →
              (assoc_lookup property rb.predicates).isSome = true))
      ∧ (r.error = none ∨ (r.error = some GError.CONSTRAINT ∧ r.data = data ∧ r.val = none
          ∧ assoc_lookup property rb.predicates = none
          ∧ check_property_domain m rb property = false)) := by
  unfold get_old_property_values
  simp only [hrb]
  cases hl : assoc_lookup property rb.predicates with
  | some old_values =>
    refine ⟨_, rfl, ⟨rfl, rfl, by simp [hrb]⟩, ⟨rb, hrb, ⟨id, fun _ _ _ => rfl⟩, ?_, ?_⟩, Or.inl rfl⟩
    · intro _; exact hl.symm
    · intro _ _; rfl
  | none =>
    simp only
    by_cases hdom : check_property_domain m rb property = true
    · simp only [hdom, Bool.not_true, Bool.false_eq_true, if_false]
      by_cases hfts : tracker_property_get_fulltext_indexed m property = true
      · simp only [hfts, if_true]
        by_cases hfirst : (!rb.fts_updated && !rb.create) = true
        · simp only [hfirst, if_true]
          obtain ⟨hf1, hf2⟩ := fts_load_frame m data.db (fts_properties m rb) rb
          refine ⟨_, rfl, ⟨rfl, ?_, by simp [hrb]⟩, ⟨_, rfl, ⟨fun _ => rfl, ?_⟩, fun _ => rfl, ?_⟩,
            Or.inl rfl⟩
          · simp only [hrb, Option.map_some', Option.some.injEq]
            have := congrArg (fun r : TrackerDataUpdateBufferResource =>
              { r with fts_updated := false }) hf1
            simpa using this
          · intro other _ hstable
            simp only [Bool.and_eq_true, Bool.not_eq_true'] at hfirst
            have hnf : tracker_property_get_fulltext_indexed m other = false := by
              rcases hstable with h | h | h
              · simp [hfirst.1] at h
              · simp [hfirst.2] at h
              · exact h
            apply hf2
            intro hmem
            simp [fts_properties, hnf] at hmem
          · intro _ h; simp [hdom] at h
        · simp only [hfirst, if_false, Bool.false_eq_true]
          refine ⟨_, rfl, ⟨rfl, ?_, by simp [hrb]⟩, ⟨_, rfl, ⟨fun _ => rfl, ?_⟩, fun _ => rfl, ?_⟩,
            Or.inl rfl⟩
          · simp [hrb, get_property_values]
          · intro other hsome _
            apply get_property_values_lookup_ne
            intro h
            subst h
            simp [hl] at hsome
          · intro _ h; simp [hdom] at h
      · simp only [hfts, if_false, Bool.false_eq_true]
        refine ⟨_, rfl, ⟨rfl, ?_, by simp [hrb]⟩, ⟨_, rfl, ⟨?_, ?_⟩, fun _ => rfl, ?_⟩, Or.inl rfl⟩
        · simp [hrb, get_property_values]
        · intro h; simpa [get_property_values] using h
        · intro other hsome _
          apply get_property_values_lookup_ne
          intro h
          subst h
          simp [hl] at hsome
        · intro _ h; simp [hdom] at h
    · simp only [Bool.not_eq_true] at hdom
      simp only [hdom, Bool.not_false, if_true]
      refine ⟨_, rfl, ⟨rfl, rfl, by simp [hrb]⟩, ⟨rb, hrb, ⟨id, fun _ _ _ => rfl⟩, ?_, ?_⟩,
        Or.inr ⟨rfl, rfl, rfl, trivial, trivial⟩⟩
      · intro h; simp at h
      · intro h; simp at h

theorem Loaded.exists_rb_loaded {data data' : TrackerData} (h : Loaded data data') :
    ∃ rb', data'.resource_buffer = some rb' := by
  have h1 := h.rb_eq
  have h2 := h.is_some
  cases hb : data'.resource_buffer with
  | none =>
    cases ha : data.resource_buffer with
    | none => simp [ha] at h2
    | some rb => simp [ha, hb] at h1
  | some rb' => exact ⟨rb', rfl⟩

theorem Loaded.rb_loaded {data data' : TrackerData} {rb : TrackerDataUpdateBufferResource}
    (h : Loaded data data') (hrb : data.resource_buffer = some rb) :
    ∃ rb', data'.resource_buffer = some rb' ∧ rb_ident rb' = rb_ident rb
      ∧ rb'.types = rb.types ∧ rb'.tables = rb.tables ∧ rb'.modified = rb.modified := by
  obtain ⟨rb', hrb'⟩ := h.exists_rb_loaded
  have h1 := h.rb_eq
  simp only [hrb, hrb', Option.map_some', Option.some.injEq] at h1
  refine ⟨rb', hrb', ?_, ?_, ?_, ?_⟩
  · have := congrArg rb_ident h1
    simpa [rb_ident] using this
  · exact congrArg (fun r => r.types) h1
  · exact congrArg (fun r => r.tables) h1
  · exact congrArg (fun r => r.modified) h1

theorem Loaded.insert_log_loaded {data data' : TrackerData} (h : Loaded data data') :
    data'.insert_log = data.insert_log :=
  congrArg (fun d => d.insert_log) h.data_eq

theorem Loaded.delete_log_loaded {data data' : TrackerData} (h : Loaded data data') :
    data'.delete_log = data.delete_log :=
  congrArg (fun d => d.delete_log) h.data_eq

theorem Loaded.insert_callbacks_loaded {data data' : TrackerData} (h : Loaded data data') :
    data'.insert_callbacks = data.insert_callbacks :=
  congrArg (fun d => d.insert_callbacks) h.data_eq

theorem Loaded.delete_callbacks_loaded {data data' : TrackerData} (h : Loaded data data') :
    data'.delete_callbacks = data.delete_callbacks :=
  congrArg (fun d => d.delete_callbacks) h.data_eq

theorem Loaded.db_resource {data data' : TrackerData} (h : Loaded data data') :
    data'.db.resource = data.db.resource :=
  congrArg (fun d => d.db.resource) h.data_eq

theorem Loaded.db_tables {data data' : TrackerData} (h : Loaded data data') :
    data'.db.tables = data.db.tables :=
  congrArg (fun d => d.db.tables) h.data_eq

theorem Loaded.db_journal {data data' : TrackerData} (h : Loaded data data') :
    data'.db.journal = data.db.journal :=
  congrArg (fun d => d.db.journal) h.data_eq

theorem dispatch_insert_some {data : TrackerData} {rb : TrackerDataUpdateBufferResource}
    (predicate_id object_id : Int) (object : String) (hrb : data.resource_buffer = some rb) :
    tracker_data_dispatch_insert_statement_callbacks data predicate_id object_id object
      = Except.ok { data with
          insert_log := data.insert_log ++
            statement_events rb (data.insert_callbacks.getD []) predicate_id object_id object } := by
  cases data
  simp only at hrb
  subst hrb
  rename_i ic dc cc rc _ _ _ _ _ _ _ _ _ _
  cases ic <;> simp [tracker_data_dispatch_insert_statement_callbacks, statement_events]

theorem dispatch_delete_some {data : TrackerData} {rb : TrackerDataUpdateBufferResource}
    (predicate_id object_id : Int) (object : String) (hrb : data.resource_buffer = some rb) :
    tracker_data_dispatch_delete_statement_callbacks data predicate_id object_id object
      = Except.ok { data with
          delete_log := data.delete_log ++
            statement_events rb (data.delete_callbacks.getD []) predicate_id object_id object } := by
  cases data
  simp only at hrb
  subst hrb
  rename_i ic dc cc rc _ _ _ _ _ _ _ _ _ _
  cases dc <;> simp [tracker_data_dispatch_delete_statement_callbacks, statement_events]

/-! ## Inserting `rdf:type` -/

theorem ClassesInserted.nil (m : TrackerDataManager) (types : List TrackerClass) :
    ClassesInserted m types [] [] :=
  ⟨by simp, by simp, by simp, by simp⟩

theorem ClassesInserted.cons {m : TrackerDataManager} {types rest a1 a2 : List TrackerClass}
    {s : TrackerClass} (h1 : ClassesInserted m types [s] a1)
    (h2 : ClassesInserted m (types ++ a1) rest a2) :
    ClassesInserted m types (s :: rest) (a1 ++ a2) := by
  refine ⟨?_, ?_, ?_, ?_⟩
  · intro c hc
    rcases List.mem_append.1 hc with hc | hc
    · exact h1.fresh c hc
    · intro hct
      exact h2.fresh c hc (List.mem_append_left _ hct)
  · refine List.nodup_append.2 ⟨h1.nodup, h2.nodup, ?_⟩
    intro c hc1 hc2
    exact h2.fresh c hc2 (List.mem_append_right _ hc1)
  · intro c hc
    rcases List.mem_append.1 hc with hc | hc
    · obtain ⟨r, hr, hs⟩ := h1.reach c hc
      have : r = s := by simpa using hr
      subst this
      exact ⟨r, by simp, hs⟩
    · obtain ⟨r, hr, hs⟩ := h2.reach c hc
      exact ⟨r, List.mem_cons_of_mem _ hr, hs⟩
  · intro r hr c hs
    rcases List.mem_cons.1 hr with hr | hr
    · subst hr
      have := h1.closed r (by simp) c hs
      rw [← List.append_assoc]
      exact List.mem_append_left _ this
    · have := h2.closed r hr c hs
      rwa [List.append_assoc] at this

theorem SuperClass.of_super {m : TrackerDataManager} {cl s c : TrackerClass}
    (hs : s ∈ tracker_class_get_super_classes m cl) (h : SuperClass m s c) :
    SuperClass m cl c :=
  SuperClass.step hs h

theorem Frame.refl_frame (data : TrackerData) : Frame data data :=
  ⟨rfl, rfl, rfl, rfl, rfl, fun rb h => ⟨rb, h, rfl, rfl, TablesGrow.refl_tables_grow _⟩⟩

theorem Frame.trans_frame {a b c : TrackerData} (h1 : Frame a b) (h2 : Frame b c) : Frame a c := by
  refine ⟨h2.in_transaction.trans h1.in_transaction, h2.insert_log.trans h1.insert_log,
    h2.delete_log.trans h1.delete_log, h2.insert_callbacks.trans h1.insert_callbacks,
    h2.delete_callbacks.trans h1.delete_callbacks, ?_⟩
  intro rb hrb
  obtain ⟨rb1, hrb1, hi1, ht1, hg1⟩ := h1.rb rb hrb
  obtain ⟨rb2, hrb2, hi2, ht2, hg2⟩ := h2.rb rb1 hrb1
  exact ⟨rb2, hrb2, hi2.trans hi1, ht2.trans ht1, hg1.trans_tables_grow hg2⟩

theorem Staged.in_transaction_staged {data data' : TrackerData} (h : Staged data data') :
    data'.in_transaction = data.in_transaction :=
  congrArg (fun d => d.in_transaction) h.data_eq

theorem Loaded.in_transaction_loaded {data data' : TrackerData} (h : Loaded data data') :
    data'.in_transaction = data.in_transaction :=
  congrArg (fun d => d.in_transaction) h.data_eq

theorem Frame.of_staged_frame {data data' : TrackerData} (h : Staged data data') :
    Frame data data' := by
  refine ⟨h.in_transaction_staged, h.insert_log_staged, h.delete_log_staged, h.insert_callbacks_staged,
    h.delete_callbacks_staged, ?_⟩
  intro rb hrb
  obtain ⟨rb', hrb', hi, ht, _, _, hg⟩ := h.rb_staged hrb
  exact ⟨rb', hrb', hi, ht, hg⟩

theorem Frame.of_loaded_frame {data data' : TrackerData} (h : Loaded data data') :
    Frame data data' := by
  refine ⟨h.in_transaction_loaded, h.insert_log_loaded, h.delete_log_loaded, h.insert_callbacks_loaded,
    h.delete_callbacks_loaded, ?_⟩
  intro rb hrb
  obtain ⟨rb', hrb', hi, ht, htab, _⟩ := h.rb_loaded hrb
  exact ⟨rb', hrb', hi, ht, htab ▸ TablesGrow.refl_tables_grow _⟩

theorem Frame.of_same_frame {data data' : TrackerData} (h : SameDraft data data') :
    Frame data data' :=
  ⟨h.in_transaction, h.insert_log, h.delete_log, h.insert_callbacks, h.delete_callbacks,
    fun rb hrb => ⟨rb, h.resource_buffer.trans hrb, rfl, rfl, TablesGrow.refl_tables_grow _⟩⟩

theorem SameDraft.refl_same_draft (data : TrackerData) : SameDraft data data :=
  ⟨rfl, rfl, rfl, rfl, rfl, rfl⟩

theorem SameDraft.trans_same_draft {a b c : TrackerData} (h1 : SameDraft a b) (h2 : SameDraft b c) :
    SameDraft a c :=
  ⟨h2.resource_buffer.trans h1.resource_buffer, h2.in_transaction.trans h1.in_transaction,
    h2.insert_log.trans h1.insert_log, h2.delete_log.trans h1.delete_log,
    h2.insert_callbacks.trans h1.insert_callbacks,
    h2.delete_callbacks.trans h1.delete_callbacks⟩

theorem Guarded.of_same_guarded {m : TrackerDataManager} {property : TrackerProperty}
    {J : List GValue → Prop} {data data' : TrackerData}
    (h : Guarded m property J data) (hs : SameDraft data data') :
    Guarded m property J data' := by
  obtain ⟨rb, vs, hrb, hl, hj, hf⟩ := h
  exact ⟨rb, vs, hs.resource_buffer.trans hrb, hl, hj, hf⟩

theorem Guarded.of_staged_guarded {m : TrackerDataManager} {property : TrackerProperty}
    {J : List GValue → Prop} {data data' : TrackerData}
    (h : Guarded m property J data) (hs : Staged data data') :
    Guarded m property J data' := by
  obtain ⟨rb, vs, hrb, hl, hj, hf⟩ := h
  obtain ⟨rb', hrb', hi, _, hp, hfu, _⟩ := hs.rb_staged hrb
  refine ⟨rb', vs, hrb', by rw [hp]; exact hl, hj, ?_⟩
  have hc : rb'.create = rb.create := by
    have := congrArg (fun t => t.2.2.2.2) hi
    simpa [rb_ident] using this
  rw [hfu, hc]
  exact hf

theorem Guarded.of_values_kept {m : TrackerDataManager} {property : TrackerProperty}
    {J : List GValue → Prop} {data data' : TrackerData}
    {rb rb' : TrackerDataUpdateBufferResource}
    (h : Guarded m property J data) (hrb : data.resource_buffer = some rb)
    (hrb' : data'.resource_buffer = some rb') (hi : rb_ident rb' = rb_ident rb)
    (hk : ValuesKept m rb rb') :
    Guarded m property J data' := by
  obtain ⟨rb0, vs, hrb0, hl, hj, hf⟩ := h
  have : rb0 = rb := by
    rw [hrb] at hrb0
    exact (Option.some.inj hrb0).symm
  subst this
  have hc : rb'.create = rb0.create := by
    have := congrArg (fun t => t.2.2.2.2) hi
    simpa [rb_ident] using this
  refine ⟨rb', vs, hrb', ?_, hj, ?_⟩
  · rw [hk.2 property (by simp [hl]) hf]
    exact hl
  · rcases hf with hf | hf | hf
    · exact Or.inl (hk.1 hf)
    · exact Or.inr (Or.inl (hc.trans hf))
    · exact Or.inr (Or.inr hf)

theorem Preserves.refl_preserves (m : TrackerDataManager) (property : TrackerProperty)
    (J : List GValue → Prop) (data : TrackerData) (error : Option GError) :
    Preserves m property J data data error :=
  ⟨Frame.refl_frame data, fun h _ => h⟩

theorem Preserves.trans_preserves {m : TrackerDataManager} {property : TrackerProperty}
    {J : List GValue → Prop} {a b c : TrackerData} {error : Option GError}
    (h1 : Preserves m property J a b none) (h2 : Preserves m property J b c error) :
    Preserves m property J a c error :=
  ⟨h1.1.trans_frame h2.1, fun hg he => h2.2 (h1.2 hg rfl) he⟩

theorem Preserves.of_frame_preserves {m : TrackerDataManager} {property : TrackerProperty}
    {J : List GValue → Prop} {a b : TrackerData} {e : GError} (h : Frame a b) :
    Preserves m property J a b (some e) :=
  ⟨h, fun _ he => by cases he⟩

theorem Preserves.frame_trans {m : TrackerDataManager} {property : TrackerProperty}
    {J : List GValue → Prop} {a b c : TrackerData} {e : GError}
    (h1 : Preserves m property J a b none) (h2 : Frame b c) :
    Preserves m property J a c (some e) :=
  Preserves.of_frame_preserves (h1.1.trans_frame h2)

theorem Preserves.of_staged_preserves {m : TrackerDataManager} {property : TrackerProperty}
    {J : List GValue → Prop} {a b : TrackerData} (error : Option GError) (h : Staged a b) :
    Preserves m property J a b error :=
  ⟨Frame.of_staged_frame h, fun hg _ => hg.of_staged_guarded h⟩

theorem Preserves.of_same_preserves {m : TrackerDataManager} {property : TrackerProperty}
    {J : List GValue → Prop} {a b : TrackerData} (error : Option GError) (h : SameDraft a b) :
    Preserves m property J a b error :=
  ⟨Frame.of_same_frame h, fun hg _ => hg.of_same_guarded h⟩

theorem get_old_property_values_preserves (m : TrackerDataManager)
    (P : TrackerProperty) (J : List GValue → Prop) {data : TrackerData}
    {rb : TrackerDataUpdateBufferResource} (property : TrackerProperty)
    (hrb : data.resource_buffer = some rb) :
    ∃ r, get_old_property_values m data property = Except.ok r
      ∧ Preserves m P J data r.data none
      ∧ (∃ rb', r.data.resource_buffer = some rb'
          ∧ (r.error = none → r.val = assoc_lookup property rb'.predicates))
      ∧ (r.error = none ∨ (r.error = some GError.CONSTRAINT ∧ r.data = data)) := by
  obtain ⟨r, hr, hload, ⟨rb', hrb', hk, hval, _⟩, herr⟩ :=
    get_old_property_values_loaded m property hrb
  refine ⟨r, hr, ⟨Frame.of_loaded_frame hload, fun hg _ => ?_⟩, ⟨rb', hrb', hval⟩, ?_⟩
  · obtain ⟨rb1, hrb1, hi, _⟩ := hload.rb_loaded hrb
    have : rb1 = rb' := by
      rw [hrb'] at hrb1
      exact (Option.some.inj hrb1).symm
    subst this
    exact hg.of_values_kept hrb hrb' hi hk
  · rcases herr with h | ⟨h1, h2, _⟩
    · exact Or.inl h
    · exact Or.inr ⟨h1, h2⟩

theorem query_resource_id_same (data : TrackerData) (uri : String) :
    SameDraft data (query_resource_id data uri).1 := by
  unfold query_resource_id
  simp only
  split_ifs <;> exact ⟨rfl, rfl, rfl, rfl, rfl, rfl⟩

theorem new_service_id_same (m : TrackerDataManager) (data : TrackerData) :
    SameDraft data (tracker_data_update_get_new_service_id m data).1 := by
  unfold tracker_data_update_get_new_service_id
  simp only
  split_ifs <;> exact ⟨rfl, rfl, rfl, rfl, rfl, rfl⟩

theorem ensure_resource_id_same (m : TrackerDataManager) (data : TrackerData) (uri : String)
    {r : TrackerData × Int × Bool} (h : ensure_resource_id m data uri = Except.ok r) :
    SameDraft data r.1 := by
  unfold ensure_resource_id at h
  simp only at h
  have hq := query_resource_id_same data uri
  have hn := new_service_id_same m (query_resource_id data uri).1
  by_cases h1 : (query_resource_id data uri).2 = 0
  · rw [if_pos h1] at h
    by_cases h2 : (tracker_data_update_get_new_service_id m (query_resource_id data uri).1).2 > 0
    · rw [if_pos h2] at h
      split at h
      · cases h
      · cases h
        exact (hq.trans_same_draft hn).trans_same_draft ⟨rfl, rfl, rfl, rfl, rfl, rfl⟩
    · rw [if_neg h2] at h
      cases h
      exact (hq.trans_same_draft hn).trans_same_draft ⟨rfl, rfl, rfl, rfl, rfl, rfl⟩
  · rw [if_neg h1] at h
    cases h
    exact hq

theorem bytes_to_gvalue_same (m : TrackerDataManager) (data : TrackerData) (bytes : GBytes)
    (type : TrackerPropertyType) {r : Ret (Option GValue)}
    (h : bytes_to_gvalue m data bytes type = Except.ok r) :
    SameDraft data r.data := by
  unfold bytes_to_gvalue at h
  cases type <;> simp only at h
  case RESOURCE =>
    cases hx : ensure_resource_id m data bytes.text with
    | error e => simp [hx] at h
    | ok t =>
      simp only [hx] at h
      cases h
      exact ensure_resource_id_same m data bytes.text hx
  case DATE =>
    split at h <;> cases h <;> exact SameDraft.refl_same_draft _
  case DATETIME =>
    split at h <;> cases h <;> exact SameDraft.refl_same_draft _
  all_goals
    cases h
    exact SameDraft.refl_same_draft _

theorem Staged.refl_staged {data : TrackerData} (h : data.resource_buffer.isSome = true) :
    Staged data data :=
  ⟨rfl, rfl, h, fun rb rb' h1 h2 => by
    rw [h1] at h2
    cases h2
    exact TablesGrow.refl_tables_grow _⟩

theorem for_each_staged {α : Type} (f : TrackerData → α → Run TrackerData)
    (hf : ∀ d x, d.resource_buffer.isSome = true → ∃ d', f d x = Except.ok d' ∧ Staged d d')
    (xs : List α) (data : TrackerData) (hsome : data.resource_buffer.isSome = true) :
    ∃ data', for_each f xs data = Except.ok data' ∧ Staged data data' := by
  induction xs generalizing data with
  | nil => exact ⟨data, rfl, Staged.refl_staged hsome⟩
  | cons x rest ih =>
    obtain ⟨d1, h1, hs1⟩ := hf data x hsome
    obtain ⟨rb1, hrb1⟩ := hs1.exists_rb_staged
    obtain ⟨d2, h2, hs2⟩ := ih d1 (by simp [hrb1])
    exact ⟨d2, by simp only [for_each, h1, h2], hs1.trans_staged hs2⟩

theorem process_domain_indexes_staged (m : TrackerDataManager) (data : TrackerData)
    (property : TrackerProperty) (gvalue : GValue) (field_name : String)
    (hsome : data.resource_buffer.isSome = true) :
    ∃ data', process_domain_indexes m data property gvalue field_name = Except.ok data'
      ∧ Staged data data' := by
  unfold process_domain_indexes
  refine for_each_staged _ ?_ _ data hsome
  intro d x hd
  cases hrb : d.resource_buffer with
  | none => simp [hrb] at hd
  | some rb =>
    by_cases hin : resource_in_domain_index_class d x = true
    · simp only [hin, if_true]
      exact cache_insert_value_staged _ _ _ _ _ _ hrb
    · simp only [hin]
      exact ⟨d, rfl, Staged.refl_staged hd⟩

theorem set_property_values_frame (data : TrackerData) (property : TrackerProperty)
    (values : List GValue) : Frame data (set_property_values data property values) := by
  unfold set_property_values
  cases hrb : data.resource_buffer with
  | none => exact Frame.refl_frame _
  | some rb =>
    refine ⟨rfl, rfl, rfl, rfl, rfl, ?_⟩
    intro rb0 h0
    simp only at h0
    rw [hrb] at h0
    cases h0
    exact ⟨_, rfl, rfl, rfl, TablesGrow.refl_tables_grow _⟩

theorem set_property_values_guarded {m : TrackerDataManager} {P : TrackerProperty}
    {J : List GValue → Prop} {data : TrackerData} (property : TrackerProperty)
    (values : List GValue) (h : Guarded m P J data)
    (hj : property = P → J values) :
    Guarded m P J (set_property_values data property values) := by
  obtain ⟨rb, vs, hrb, hl, hjv, hf⟩ := h
  unfold set_property_values
  simp only [hrb]
  by_cases hp : property = P
  · subst hp
    exact ⟨_, values, rfl, assoc_lookup_insert_self _ _ _, hj rfl, hf⟩
  · refine ⟨_, vs, rfl, ?_, hjv, hf⟩
    show assoc_lookup P (assoc_insert property values rb.predicates) = some vs
    rw [assoc_lookup_insert_ne _ _ _ _ (fun h => hp h.symm)]
    exact hl

theorem set_property_values_some (data : TrackerData) (property : TrackerProperty)
    (values : List GValue) (h : data.resource_buffer.isSome = true) :
    (set_property_values data property values).resource_buffer.isSome = true := by
  unfold set_property_values
  cases hrb : data.resource_buffer with
  | none => simp [hrb] at h
  | some rb => rfl

theorem current_property_values_guarded {m : TrackerDataManager} {P : TrackerProperty}
    {J : List GValue → Prop} {data : TrackerData} (h : Guarded m P J data)
    {vs : List GValue} (hv : current_property_values data P = some vs) : J vs := by
  obtain ⟨rb, vs0, hrb, hl, hj, _⟩ := h
  simp only [current_property_values, hrb, hl, Option.some.injEq] at hv
  exact hv ▸ hj

theorem insert_value_step_preserves (m : TrackerDataManager) (P : TrackerProperty)
    (J : List GValue → Prop)
    (hadd : ∀ vs v new, J vs → value_set_add_value m vs (some v) = Except.ok (new, true) →
      (tracker_property_get_multiple_values m P = true ∨ new.length ≤ 1) → J new)
    (data : TrackerData) (property : TrackerProperty) (object : GBytes)
    (have_old_values change : Bool) (r : Ret Bool)
    (hsome : data.resource_buffer.isSome = true)
    (h : insert_value_step m data property object have_old_values change = Except.ok r) :
    Preserves m P J data r.data r.error := by
  unfold insert_value_step at h
  cases hb : bytes_to_gvalue m data object (tracker_property_get_data_type m property) with
  | error e => simp [hb] at h
  | ok r0 =>
    simp only [hb] at h
    have hs0 := bytes_to_gvalue_same m data object _ hb
    have hp0 : Preserves m P J data r0.data none := Preserves.of_same_preserves none hs0
    have hsome0 : r0.data.resource_buffer.isSome = true := by
      rw [hs0.resource_buffer]; exact hsome
    cases he : r0.error with
    | some e =>
      simp only [he] at h
      cases h
      exact Preserves.of_frame_preserves hp0.1
    | none =>
      cases hv : r0.val with
      | none =>
        simp only [he, hv] at h
        cases h
        exact hp0
      | some value =>
        simp only [he, hv] at h
        cases hold : (if have_old_values then current_property_values r0.data property
            else none) with
        | none => simp [hold] at h
        | some old_values =>
          simp only [hold] at h
          have hcur : current_property_values r0.data property = some old_values := by
            by_cases hh : have_old_values = true
            · simpa [hh] using hold
            · simp [hh] at hold
          cases hadd' : value_set_add_value m old_values (some value) with
          | error e => simp [hadd'] at h
          | ok res =>
            obtain ⟨new_values, added⟩ := res
            cases added with
            | false =>
              simp only [hadd'] at h
              cases h
              exact hp0
            | true =>
              simp only [hadd'] at h
              have hf1 := set_property_values_frame r0.data property new_values
              have hsome1 := set_property_values_some r0.data property new_values hsome0
              by_cases hc : (!tracker_property_get_multiple_values m property
                  && decide (new_values.length > 1)) = true
              · rw [if_pos hc] at h
                cases h
                exact Preserves.of_frame_preserves (hp0.1.trans_frame hf1)
              · rw [if_neg hc] at h
                have hp1 : Preserves m P J r0.data
                    (set_property_values r0.data property new_values) none := by
                  refine ⟨hf1, fun hg _ => set_property_values_guarded property new_values hg ?_⟩
                  intro hpp
                  subst hpp
                  refine hadd old_values value new_values
                    (current_property_values_guarded hg hcur) hadd' ?_
                  cases hm : tracker_property_get_multiple_values m property with
                  | true => exact Or.inl rfl
                  | false =>
                    right
                    simp only [hm, Bool.not_false, Bool.true_and, decide_eq_true_eq] at hc
                    omega
                cases hrb1 : (set_property_values r0.data property new_values).resource_buffer with
                | none => simp [hrb1] at hsome1
                | some rb1 =>
                  obtain ⟨d2, h2, hs2⟩ := cache_insert_value_staged
                    (tracker_property_get_table_name m property)
                    (tracker_property_get_name m property) value
                    (tracker_property_get_multiple_values m property)
                    (tracker_property_get_fulltext_indexed m property)
                    (decide (tracker_property_get_data_type m property
                      = TrackerPropertyType.DATETIME)) hrb1
                  simp only [h2] at h
                  have hp2 : Preserves m P J data d2 none :=
                    (hp0.trans_preserves hp1).trans_preserves (Preserves.of_staged_preserves none hs2)
                  by_cases hm : (!tracker_property_get_multiple_values m property) = true
                  · rw [if_pos hm] at h
                    obtain ⟨rb2, hrb2⟩ := hs2.exists_rb_staged
                    obtain ⟨d3, h3, hs3⟩ := process_domain_indexes_staged m d2 property value
                      (tracker_property_get_name m property) (by simp [hrb2])
                    simp only [h3] at h
                    cases h
                    exact hp2.trans_preserves (Preserves.of_staged_preserves none hs3)
                  · rw [if_neg hm] at h
                    cases h
                    exact hp2

theorem Frame.is_some_frame {data data' : TrackerData} (h : Frame data data')
    (hsome : data.resource_buffer.isSome = true) : data'.resource_buffer.isSome = true := by
  cases hrb : data.resource_buffer with
  | none => simp [hrb] at hsome
  | some rb =>
    obtain ⟨rb', hrb', _⟩ := h.rb rb hrb
    simp [hrb']

theorem insert_super_properties_preserves (m : TrackerDataManager) (P : TrackerProperty)
    (J : List GValue → Prop) (recurse : TrackerData → TrackerProperty → Run (Ret Bool))
    (hrec : ∀ d p r, d.resource_buffer.isSome = true → recurse d p = Except.ok r →
      Preserves m P J d r.data r.error)
    (supers : List TrackerProperty) (data : TrackerData) (change : Bool) (r : Ret Bool)
    (hsome : data.resource_buffer.isSome = true)
    (h : insert_super_properties m recurse supers data change = Except.ok r) :
    Preserves m P J data r.data r.error := by
  induction supers generalizing data change with
  | nil =>
    simp only [insert_super_properties] at h
    cases h
    exact Preserves.refl_preserves _ _ _ _ _
  | cons super rest ih =>
    simp only [insert_super_properties] at h
    cases hrb : data.resource_buffer with
    | none => simp [hrb] at hsome
    | some rb =>
      obtain ⟨r0, hr0, hp0, _, _⟩ := get_old_property_values_preserves m P J super hrb
      simp only [hr0] at h
      have hsome0 := hp0.1.is_some_frame hsome
      cases he0 : r0.error with
      | some e =>
        simp only [he0] at h
        cases h
        exact Preserves.of_frame_preserves hp0.1
      | none =>
        simp only [he0] at h
        by_cases hc : (tracker_property_get_multiple_values m super
            || decide (r0.val.map List.length = some 0)) = true
        · rw [if_pos hc] at h
          cases hr1 : recurse r0.data super with
          | error e => simp [hr1] at h
          | ok r1 =>
            simp only [hr1] at h
            have hp1 := hrec r0.data super r1 hsome0 hr1
            cases he1 : r1.error with
            | some e =>
              simp only [he1] at h
              cases h
              exact Preserves.of_frame_preserves (hp0.1.trans_frame hp1.1)
            | none =>
              simp only [he1] at h
              rw [he1] at hp1
              exact (hp0.trans_preserves hp1).trans_preserves (ih r1.data _ (hp1.1.is_some_frame hsome0) h)
        · rw [if_neg hc] at h
          by_cases hn : r0.val = none
          · rw [if_pos hn] at h
            cases h
          · rw [if_neg hn] at h
            exact hp0.trans_preserves (ih r0.data _ hsome0 h)

theorem cache_insert_metadata_decomposed_preserves (m : TrackerDataManager)
    (P : TrackerProperty) (J : List GValue → Prop)
    (hadd : ∀ vs v new, J vs → value_set_add_value m vs (some v) = Except.ok (new, true) →
      (tracker_property_get_multiple_values m P = true ∨ new.length ≤ 1) → J new)
    (object : GBytes) :
    ∀ (fuel : Nat) (data : TrackerData) (property : TrackerProperty) (r : Ret Bool),
      data.resource_buffer.isSome = true →
      cache_insert_metadata_decomposed m fuel data property object = Except.ok r →
      Preserves m P J data r.data r.error := by
  intro fuel
  induction fuel with
  | zero =>
    intro data property r _ h
    simp [cache_insert_metadata_decomposed] at h
  | succ fuel ih =>
    intro data property r hsome h
    simp only [cache_insert_metadata_decomposed] at h
    cases hrb : data.resource_buffer with
    | none => simp [hrb] at hsome
    | some rb =>
      obtain ⟨r0, hr0, hp0, _, _⟩ := get_old_property_values_preserves m P J property hrb
      simp only [hr0] at h
      have hsome0 := hp0.1.is_some_frame hsome
      cases he0 : r0.error with
      | some e =>
        simp only [he0] at h
        cases h
        exact Preserves.of_frame_preserves hp0.1
      | none =>
        simp only [he0] at h
        cases hsup : insert_super_properties m
            (fun d p => cache_insert_metadata_decomposed m fuel d p object)
            (tracker_property_get_super_properties m property) r0.data false with
        | error e => simp [hsup] at h
        | ok r1 =>
          simp only [hsup] at h
          have hp1 := insert_super_properties_preserves m P J _
            (fun d p r hd hr => ih d p r hd hr) _ r0.data false r1 hsome0 hsup
          cases he1 : r1.error with
          | some e =>
            simp only [he1] at h
            cases h
            exact Preserves.of_frame_preserves (hp0.1.trans_frame hp1.1)
          | none =>
            simp only [he1] at h
            rw [he1] at hp1
            exact (hp0.trans_preserves hp1).trans_preserves
              (insert_value_step_preserves m P J hadd r1.data property object _ _ r
                (hp1.1.is_some_frame hsome0) h)

/-! ## Frames of the decomposition of delete statements -/

theorem delete_domain_indexes_staged (m : TrackerDataManager) (data : TrackerData)
    (property : TrackerProperty) (gvalue : GValue)
    (hsome : data.resource_buffer.isSome = true) :
    ∃ data', delete_domain_indexes m data property gvalue = Except.ok data'
      ∧ Staged data data' := by
  unfold delete_domain_indexes
  refine for_each_staged _ ?_ _ data hsome
  intro d x hd
  cases hrb : d.resource_buffer with
  | none => simp [hrb] at hd
  | some rb =>
    by_cases hin : resource_in_domain_index_class d x = true
    · simp only [hin, if_true]
      exact cache_delete_value_staged _ _ _ _ _ _ hrb
    · simp only [hin]
      exact ⟨d, rfl, Staged.refl_staged hd⟩

theorem stage_delete_value_staged (m : TrackerDataManager) (data : TrackerData)
    (property : TrackerProperty) (gvalue : GValue)
    (hsome : data.resource_buffer.isSome = true) :
    ∃ data', stage_delete_value m data property gvalue = Except.ok data'
      ∧ Staged data data' := by
  unfold stage_delete_value
  cases hrb : data.resource_buffer with
  | none => simp [hrb] at hsome
  | some rb =>
    obtain ⟨d1, h1, hs1⟩ := cache_delete_value_staged
      (tracker_property_get_table_name m property)
      (tracker_property_get_name m property) gvalue
      (tracker_property_get_multiple_values m property)
      (tracker_property_get_fulltext_indexed m property)
      (decide (tracker_property_get_data_type m property = TrackerPropertyType.DATETIME)) hrb
    simp only [h1]
    by_cases hm : (!tracker_property_get_multiple_values m property) = true
    · rw [if_pos hm]
      obtain ⟨rb1, hrb1⟩ := hs1.exists_rb_staged
      obtain ⟨d2, h2, hs2⟩ := delete_domain_indexes_staged m d1 property gvalue
        (by simp [hrb1])
      exact ⟨d2, h2, hs1.trans_staged hs2⟩
    · rw [if_neg hm]
      exact ⟨d1, rfl, hs1⟩

theorem delete_super_properties_preserves (m : TrackerDataManager) (P : TrackerProperty)
    (J : List GValue → Prop) (recurse : TrackerData → TrackerProperty → Run (Ret Bool))
    (hrec : ∀ d p r, d.resource_buffer.isSome = true → recurse d p = Except.ok r →
      Preserves m P J d r.data r.error)
    (supers : List TrackerProperty) (data : TrackerData) (change : Bool)
    (err : Option GError) (r : Ret Bool)
    (hsome : data.resource_buffer.isSome = true)
    (h : delete_super_properties recurse supers data change err = Except.ok r) :
    Preserves m P J data r.data r.error ∧ (r.error = none → err = none) := by
  induction supers generalizing data change err with
  | nil =>
    simp only [delete_super_properties] at h
    cases h
    exact ⟨Preserves.refl_preserves _ _ _ _ _, id⟩
  | cons super rest ih =>
    simp only [delete_super_properties] at h
    cases hr1 : recurse data super with
    | error e => simp [hr1] at h
    | ok r1 =>
      simp only [hr1] at h
      have hp1 := hrec data super r1 hsome hr1
      obtain ⟨hp2, he2⟩ := ih r1.data _ _ (hp1.1.is_some_frame hsome) h
      refine ⟨⟨hp1.1.trans_frame hp2.1, fun hg he => ?_⟩, fun he => ?_⟩
      · have := he2 he
        cases herr : err with
        | some e => simp [herr] at this
        | none =>
          simp only [herr] at this
          exact hp2.2 (hp1.2 hg this) he
      · have := he2 he
        cases herr : err with
        | some e => simp [herr] at this
        | none => rfl

theorem delete_metadata_decomposed_preserves (m : TrackerDataManager)
    (P : TrackerProperty) (J : List GValue → Prop)
    (hremove : ∀ vs v new b, J vs → value_set_remove_value m vs v = Except.ok (new, b) → J new)
    (object : GBytes) :
    ∀ (fuel : Nat) (data : TrackerData) (property : TrackerProperty) (r : Ret Bool),
      data.resource_buffer.isSome = true →
      delete_metadata_decomposed m fuel data property object = Except.ok r →
      Preserves m P J data r.data r.error := by
  intro fuel
  induction fuel with
  | zero =>
    intro data property r _ h
    simp [delete_metadata_decomposed] at h
  | succ fuel ih =>
    intro data property r hsome h
    simp only [delete_metadata_decomposed] at h
    cases hb : bytes_to_gvalue m data object (tracker_property_get_data_type m property) with
    | error e => simp [hb] at h
    | ok r0 =>
      simp only [hb] at h
      have hs0 := bytes_to_gvalue_same m data object _ hb
      have hp0 : Preserves m P J data r0.data none := Preserves.of_same_preserves none hs0
      have hsome0 : r0.data.resource_buffer.isSome = true := by
        rw [hs0.resource_buffer]; exact hsome
      cases he0 : r0.error with
      | some e =>
        simp only [he0] at h
        cases h
        exact Preserves.of_frame_preserves hp0.1
      | none =>
        simp only [he0] at h
        cases hrb0 : r0.data.resource_buffer with
        | none => simp [hrb0] at hsome0
        | some rb0 =>
          obtain ⟨r1, hr1, hp1, ⟨rb1, hrb1, hval1⟩, _⟩ :=
            get_old_property_values_preserves m P J property hrb0
          simp only [hr1] at h
          have hsome1 := hp1.1.is_some_frame hsome0
          cases he1 : r1.error with
          | some e =>
            simp only [he1] at h
            cases h
            exact hp0.trans_preserves hp1
          | none =>
            simp only [he1] at h
            have hmid : ∀ data3 change,
                (match r0.val, r1.val with
                  | none, _ => Except.ok (r1.data, false)
                  | some _, none => Except.error Fatal.null_dereference
                  | some value, some old_values =>
                      match value_set_remove_value m old_values (some value) with
                      | Except.error e => Except.error e
                      | Except.ok (_, false) => Except.ok (r1.data, false)
                      | Except.ok (new_values, true) =>
                          match stage_delete_value m
                              (set_property_values r1.data property new_values)
                              property value with
                          | Except.error e => Except.error e
                          | Except.ok data2 => Except.ok (data2, true))
                  = (Except.ok (data3, change) : Run (TrackerData × Bool)) →
                Preserves m P J r1.data data3 none := by
              intro data3 change hm
              cases hv0 : r0.val with
              | none =>
                simp only [hv0] at hm
                cases hm
                exact Preserves.refl_preserves _ _ _ _ _
              | some value =>
                cases hv1 : r1.val with
                | none => simp [hv0, hv1] at hm
                | some old_values =>
                  simp only [hv0, hv1] at hm
                  cases hrem : value_set_remove_value m old_values (some value) with
                  | error e => simp [hrem] at hm
                  | ok res =>
                    obtain ⟨new_values, removed⟩ := res
                    cases removed with
                    | false =>
                      simp only [hrem] at hm
                      cases hm
                      exact Preserves.refl_preserves _ _ _ _ _
                    | true =>
                      simp only [hrem] at hm
                      obtain ⟨d2, h2, hs2⟩ := stage_delete_value_staged m
                        (set_property_values r1.data property new_values) property value
                        (set_property_values_some _ _ _ hsome1)
                      simp only [h2] at hm
                      cases hm
                      have hcur : current_property_values r1.data property = some old_values := by
                        simp only [current_property_values, hrb1]
                        rw [← hval1 he1, hv1]
                      have hpset : Preserves m P J r1.data
                          (set_property_values r1.data property new_values) none :=
                        ⟨set_property_values_frame _ _ _, fun hg _ =>
                          set_property_values_guarded property new_values hg (fun hpp => by
                            subst hpp
                            exact hremove old_values (some value) new_values true
                              (current_property_values_guarded hg hcur) hrem)⟩
                      exact hpset.trans_preserves (Preserves.of_staged_preserves none hs2)
            split at h
            · cases h
            · rename_i data3 change hm
              have hp2 := hmid data3 change hm
              have hp3 := (delete_super_properties_preserves m P J _
                (fun d p r hd hr => ih d p r hd hr) _ data3 change none r
                (hp2.1.is_some_frame hsome1) h).1
              exact ((hp0.trans_preserves hp1).trans_preserves hp2).trans_preserves hp3

/-! ## Frames of the decomposition of `rdf:type` statements -/

theorem DraftKept.refl_draft_kept (data : TrackerData) : DraftKept data data :=
  ⟨rfl, fun rb h => ⟨rb, h, rfl⟩⟩

theorem DraftKept.trans_draft_kept {a b c : TrackerData} (h1 : DraftKept a b) (h2 : DraftKept b c) :
    DraftKept a c := by
  refine ⟨h2.in_transaction.trans h1.in_transaction, ?_⟩
  intro rb hrb
  obtain ⟨rb1, hrb1, hi1⟩ := h1.rb rb hrb
  obtain ⟨rb2, hrb2, hi2⟩ := h2.rb rb1 hrb1
  exact ⟨rb2, hrb2, hi2.trans hi1⟩

theorem DraftKept.of_frame_draft_kept {data data' : TrackerData} (h : Frame data data') :
    DraftKept data data' :=
  ⟨h.in_transaction, fun rb hrb => by
    obtain ⟨rb', hrb', hi, _⟩ := h.rb rb hrb
    exact ⟨rb', hrb', hi⟩⟩

theorem DraftKept.is_some_draft_kept {data data' : TrackerData} (h : DraftKept data data')
    (hsome : data.resource_buffer.isSome = true) : data'.resource_buffer.isSome = true := by
  cases hrb : data.resource_buffer with
  | none => simp [hrb] at hsome
  | some rb =>
    obtain ⟨rb', hrb', _⟩ := h.rb rb hrb
    simp [hrb']

theorem Keeps.refl_keeps (m : TrackerDataManager) (P : TrackerProperty) (J : List GValue → Prop)
    (data : TrackerData) : Keeps m P J data data :=
  ⟨DraftKept.refl_draft_kept data, id⟩

theorem Keeps.trans_keeps {m : TrackerDataManager} {P : TrackerProperty} {J : List GValue → Prop}
    {a b c : TrackerData} (h1 : Keeps m P J a b) (h2 : Keeps m P J b c) : Keeps m P J a c :=
  ⟨h1.1.trans_draft_kept h2.1, fun hg => h2.2 (h1.2 hg)⟩

theorem Keeps.of_preserves {m : TrackerDataManager} {P : TrackerProperty}
    {J : List GValue → Prop} {a b : TrackerData} (h : Preserves m P J a b none) :
    Keeps m P J a b :=
  ⟨DraftKept.of_frame_draft_kept h.1, fun hg => h.2 hg rfl⟩

theorem Keeps.of_staged_keeps {m : TrackerDataManager} {P : TrackerProperty}
    {J : List GValue → Prop} {a b : TrackerData} (h : Staged a b) : Keeps m P J a b :=
  Keeps.of_preserves (Preserves.of_staged_preserves none h)

theorem Keeps.of_same_keeps {m : TrackerDataManager} {P : TrackerProperty}
    {J : List GValue → Prop} {a b : TrackerData} (h : SameDraft a b) : Keeps m P J a b :=
  Keeps.of_preserves (Preserves.of_same_preserves none h)

theorem Keeps.is_some_keeps {m : TrackerDataManager} {P : TrackerProperty}
    {J : List GValue → Prop} {a b : TrackerData} (h : Keeps m P J a b)
    (hsome : a.resource_buffer.isSome = true) : b.resource_buffer.isSome = true :=
  h.1.is_some_draft_kept hsome

/-- Replacing the types of the current resource keeps the draft and the value
sets. -/
theorem Keeps.of_types {m : TrackerDataManager} {P : TrackerProperty}
    {J : List GValue → Prop} (data : TrackerData) (rb : TrackerDataUpdateBufferResource)
    (types : List TrackerClass) (hrb : data.resource_buffer = some rb) :
    Keeps m P J data { data with resource_buffer := some { rb with types := types } } := by
  refine ⟨⟨rfl, fun rb0 h0 => ?_⟩, fun hg => ?_⟩
  · rw [hrb] at h0
    cases h0
    exact ⟨_, rfl, rfl⟩
  · obtain ⟨rb0, vs, h0, hl, hj, hf⟩ := hg
    rw [hrb] at h0
    cases h0
    exact ⟨_, vs, rfl, hl, hj, hf⟩

theorem Keeps.of_rb_eq {m : TrackerDataManager} {P : TrackerProperty}
    {J : List GValue → Prop} {a b : TrackerData}
    (hrb : b.resource_buffer = a.resource_buffer) (ht : b.in_transaction = a.in_transaction) :
    Keeps m P J a b := by
  refine ⟨⟨ht, fun rb h => ⟨rb, hrb.trans h, rfl⟩⟩, fun hg => ?_⟩
  obtain ⟨rb, vs, h0, hl, hj, hf⟩ := hg
  exact ⟨rb, vs, hrb.trans h0, hl, hj, hf⟩

theorem dispatch_insert_keeps (m : TrackerDataManager) (P : TrackerProperty)
    (J : List GValue → Prop) (data : TrackerData) (predicate_id object_id : Int)
    (object : String) (hsome : data.resource_buffer.isSome = true) :
    ∃ data', tracker_data_dispatch_insert_statement_callbacks data predicate_id object_id object
        = Except.ok data' ∧ Keeps m P J data data' := by
  cases hrb : data.resource_buffer with
  | none => simp [hrb] at hsome
  | some rb =>
    refine ⟨_, dispatch_insert_some predicate_id object_id object hrb, ?_⟩
    exact Keeps.of_rb_eq rfl rfl

theorem dispatch_delete_keeps (m : TrackerDataManager) (P : TrackerProperty)
    (J : List GValue → Prop) (data : TrackerData) (predicate_id object_id : Int)
    (object : String) (hsome : data.resource_buffer.isSome = true) :
    ∃ data', tracker_data_dispatch_delete_statement_callbacks data predicate_id object_id object
        = Except.ok data' ∧ Keeps m P J data data' := by
  cases hrb : data.resource_buffer with
  | none => simp [hrb] at hsome
  | some rb =>
    refine ⟨_, dispatch_delete_some predicate_id object_id object hrb, ?_⟩
    exact Keeps.of_rb_eq rfl rfl

theorem for_each_keeps {m : TrackerDataManager} {P : TrackerProperty}
    {J : List GValue → Prop} {α : Type} (f : TrackerData → α → Run TrackerData)
    (hf : ∀ d x d', d.resource_buffer.isSome = true → f d x = Except.ok d' → Keeps m P J d d')
    (xs : List α) (data data' : TrackerData) (hsome : data.resource_buffer.isSome = true)
    (h : for_each f xs data = Except.ok data') : Keeps m P J data data' := by
  induction xs generalizing data with
  | nil =>
    simp only [for_each] at h
    cases h
    exact Keeps.refl_keeps _ _ _ _
  | cons x rest ih =>
    simp only [for_each] at h
    cases hx : f data x with
    | error e => simp [hx] at h
    | ok d1 =>
      simp only [hx] at h
      have h1 := hf data x d1 hsome hx
      exact h1.trans_keeps (ih d1 (h1.is_some_keeps hsome) h)

theorem propagate_domain_index_keeps (m : TrackerDataManager) (P : TrackerProperty)
    (J : List GValue → Prop) (cl : TrackerClass)
    {data data' : TrackerData} (domain_index : TrackerProperty)
    (hsome : data.resource_buffer.isSome = true)
    (h : propagate_domain_index m cl data domain_index = Except.ok data') :
    Keeps m P J data data' := by
  unfold propagate_domain_index at h
  cases hrb : data.resource_buffer with
  | none => simp [hrb] at hsome
  | some rb =>
    obtain ⟨r, hr, hp, _, _⟩ := get_old_property_values_preserves m P J domain_index hrb
    rw [hr] at h
    simp only at h
    have hl : Keeps m P J data r.data := Keeps.of_preserves hp
    cases hre : r.error with
    | some e =>
      rw [hre] at h
      simp only at h
      cases h; exact hl
    | none =>
      rw [hre] at h
      cases hrv : r.val with
      | none =>
        rw [hrv] at h
        simp only at h
        cases h; exact hl
      | some vs =>
        rw [hrv] at h
        match vs, h with
        | [], h =>
          simp only at h
          cases h; exact hl
        | [v], h =>
          simp only at h
          have hs1 := hl.is_some_keeps hsome
          cases hrb1 : r.data.resource_buffer with
          | none => simp [hrb1] at hs1
          | some rb1 =>
            obtain ⟨d2, h2, hs⟩ := cache_insert_value_staged (tracker_class_get_name m cl)
              (tracker_property_get_name m domain_index) v
              (tracker_property_get_multiple_values m domain_index)
              (tracker_property_get_fulltext_indexed m domain_index)
              (decide (tracker_property_get_data_type m domain_index
                = TrackerPropertyType.DATETIME))
              hrb1
            rw [h2] at h
            cases h
            exact hl.trans_keeps (Keeps.of_staged_keeps hs)
        | _ :: _ :: _, h =>
          simp only at h
          cases h

theorem cache_create_service_decomposed_keeps (m : TrackerDataManager) (P : TrackerProperty)
    (J : List GValue → Prop) :
    ∀ (fuel : Nat) (data : TrackerData) (cl : TrackerClass) (data' : TrackerData),
      data.resource_buffer.isSome = true →
      cache_create_service_decomposed m fuel data cl = Except.ok data' →
      Keeps m P J data data' := by
  intro fuel
  induction fuel with
  | zero =>
    intro data cl data' _ h
    simp [cache_create_service_decomposed] at h
  | succ fuel ih =>
    intro data cl data' hsome h
    simp only [cache_create_service_decomposed] at h
    cases hloop : for_each (cache_create_service_decomposed m fuel)
        (tracker_class_get_super_classes m cl) data with
    | error e => simp [hloop] at h
    | ok data1 =>
      simp only [hloop] at h
      have hk1 : Keeps m P J data data1 :=
        for_each_keeps _ (fun d x d' hd hx => ih d x d' hd hx) _ data data1 hsome hloop
      have hsome1 := hk1.is_some_keeps hsome
      cases hrb1 : data1.resource_buffer with
      | none => simp [hrb1] at hsome1
      | some rb1 =>
        simp only [hrb1] at h
        by_cases hmem : cl ∈ rb1.types
        · simp only [hmem, if_true] at h
          cases h
          exact hk1
        · simp only [hmem, if_false] at h
          have hkt : Keeps m P J data1
              { data1 with resource_buffer := some { rb1 with types := rb1.types ++ [cl] } } :=
            Keeps.of_types data1 rb1 _ hrb1
          have hx : ({ data1 with resource_buffer := some { rb1 with types := rb1.types ++ [cl] } }
              : TrackerData).resource_buffer = some { rb1 with types := rb1.types ++ [cl] } := rfl
          obtain ⟨data2, h2, hs2⟩ := cache_insert_row_staged m cl hx
          obtain ⟨rb2, hrb2⟩ := hs2.exists_rb_staged
          obtain ⟨data3, h3, hs3⟩ := cache_insert_value_staged "rdfs:Resource_rdf:type"
            "rdf:type" (GValue.int64 (tracker_class_get_id m cl)) true false false hrb2
          obtain ⟨rb3, hrb3⟩ := hs3.exists_rb_staged
          obtain ⟨data4, h4, hk4⟩ := dispatch_insert_keeps m P J data3
            (tracker_property_get_id m m.ontologies.rdf_type)
            (tracker_class_get_id m cl) (tracker_class_get_uri m cl) (by simp [hrb3])
          simp only [h2, h3, h4] at h
          have hk : Keeps m P J data data4 :=
            (((hk1.trans_keeps hkt).trans_keeps (Keeps.of_staged_keeps hs2)).trans_keeps (Keeps.of_staged_keeps hs3)).trans_keeps hk4
          cases hdi : tracker_class_get_domain_indexes m cl with
          | none =>
            simp only [hdi] at h
            cases h
            exact hk
          | some dis =>
            simp only [hdi] at h
            exact hk.trans_keeps (for_each_keeps _
              (fun d x d' hd hx => propagate_domain_index_keeps m P J cl x hd hx)
              dis data4 data' (hk.is_some_keeps hsome) h)

theorem set_property_values_keeps {m : TrackerDataManager} {P : TrackerProperty}
    {J : List GValue → Prop} (data : TrackerData) (property : TrackerProperty)
    (values : List GValue) (hj : Guarded m P J data → property = P → J values) :
    Keeps m P J data (set_property_values data property values) :=
  ⟨DraftKept.of_frame_draft_kept (set_property_values_frame _ _ _),
    fun hg => set_property_values_guarded property values hg (hj hg)⟩

theorem delete_values_from_keeps (m : TrackerDataManager) (P : TrackerProperty)
    (J : List GValue → Prop)
    (hremove : ∀ vs v new b, J vs → value_set_remove_value m vs v = Except.ok (new, b) → J new)
    (prop : TrackerProperty) :
    ∀ (n : Nat) (data data' : TrackerData), data.resource_buffer.isSome = true →
      delete_values_from m prop n data = Except.ok data' → Keeps m P J data data' := by
  intro n
  induction n with
  | zero =>
    intro data data' _ h
    simp only [delete_values_from] at h
    cases h
    exact Keeps.refl_keeps _ _ _ _
  | succ y ih =>
    intro data data' hsome h
    simp only [delete_values_from] at h
    cases hcur : current_property_values data prop with
    | none => simp [hcur] at h
    | some old_values =>
      simp only [hcur] at h
      cases hy : old_values[y]? with
      | none => simp [hy] at h
      | some old_gvalue =>
        simp only [hy] at h
        cases hrem : value_set_remove_value m old_values (some old_gvalue) with
        | error e => simp [hrem] at h
        | ok res =>
          obtain ⟨new_values, removed⟩ := res
          simp only [hrem] at h
          have hk1 : Keeps m P J data (set_property_values data prop new_values) :=
            set_property_values_keeps data prop new_values (fun hg hpp => by
              subst hpp
              exact hremove old_values (some old_gvalue) new_values removed
                (current_property_values_guarded hg hcur) hrem)
          obtain ⟨d1, h1, hs1⟩ := stage_delete_value_staged m
            (set_property_values data prop new_values) prop old_gvalue (hk1.is_some_keeps hsome)
          simp only [h1] at h
          have hk2 := hk1.trans_keeps (Keeps.of_staged_keeps hs1 : Keeps m P J _ d1)
          exact hk2.trans_keeps (ih d1 data' (hk2.is_some_keeps hsome) h)

theorem delete_type_properties_keeps (m : TrackerDataManager) (P : TrackerProperty)
    (J : List GValue → Prop)
    (hremove : ∀ vs v new b, J vs → value_set_remove_value m vs v = Except.ok (new, b) → J new)
    (cl : TrackerClass) :
    ∀ (props : List TrackerProperty) (data data' : TrackerData),
      data.resource_buffer.isSome = true →
      delete_type_properties m cl props data = Except.ok data' → Keeps m P J data data' := by
  intro props
  induction props with
  | nil =>
    intro data data' _ h
    simp only [delete_type_properties] at h
    cases h
    exact Keeps.refl_keeps _ _ _ _
  | cons prop rest ih =>
    intro data data' hsome h
    simp only [delete_type_properties] at h
    by_cases hd : tracker_property_get_domain m prop ≠ cl
    · rw [if_pos hd] at h
      exact ih data data' hsome h
    · rw [if_neg hd] at h
      cases hrb : data.resource_buffer with
      | none => simp [hrb] at hsome
      | some rb =>
        obtain ⟨r, hr, hp, _, _⟩ := get_old_property_values_preserves m P J prop hrb
        simp only [hr] at h
        have hk0 : Keeps m P J data r.data := Keeps.of_preserves hp
        cases hv : r.val with
        | none => simp [hv] at h
        | some old_values =>
          simp only [hv] at h
          cases hdel : delete_values_from m prop old_values.length r.data with
          | error e => simp [hdel] at h
          | ok data1 =>
            simp only [hdel] at h
            have hk1 := hk0.trans_keeps (delete_values_from_keeps m P J hremove prop _ r.data data1
              (hk0.is_some_keeps hsome) hdel)
            exact hk1.trans_keeps (ih data1 data' (hk1.is_some_keeps hsome) h)

theorem delete_type_body_keeps (m : TrackerDataManager) (P : TrackerProperty)
    (J : List GValue → Prop)
    (hremove : ∀ vs v new b, J vs → value_set_remove_value m vs v = Except.ok (new, b) → J new)
    (data data' : TrackerData) (cl : TrackerClass)
    (hsome : data.resource_buffer.isSome = true)
    (h : delete_type_body m data cl = Except.ok data') : Keeps m P J data data' := by
  unfold delete_type_body at h
  cases h1 : delete_type_properties m cl m.ontologies.properties data with
  | error e => simp [h1] at h
  | ok data1 =>
    simp only [h1] at h
    have hk1 := delete_type_properties_keeps m P J hremove cl _ data data1 hsome h1
    have hs1 := hk1.is_some_keeps hsome
    cases hrb1 : data1.resource_buffer with
    | none => simp [hrb1] at hs1
    | some rb1 =>
      obtain ⟨data2, h2, hst2⟩ := cache_delete_row_staged m cl hrb1
      simp only [h2] at h
      have hk2 := hk1.trans_keeps (Keeps.of_staged_keeps hst2 : Keeps m P J _ data2)
      obtain ⟨data3, h3, hk3'⟩ := dispatch_delete_keeps m P J data2
        (tracker_property_get_id m m.ontologies.rdf_type)
        (tracker_class_get_id m cl) (tracker_class_get_uri m cl) (hk2.is_some_keeps hsome)
      simp only [h3] at h
      have hk3 := hk2.trans_keeps hk3'
      cases hrb3 : data3.resource_buffer with
      | none => simp [hrb3] at h
      | some rb3 =>
        simp only [hrb3] at h
        cases h
        exact hk3.trans_keeps (Keeps.of_types data3 rb3 _ hrb3)

theorem delete_all_types_keeps (m : TrackerDataManager) (P : TrackerProperty)
    (J : List GValue → Prop) (recurse : TrackerData → TrackerClass → Run TrackerData)
    (hrec : ∀ d c d', d.resource_buffer.isSome = true → recurse d c = Except.ok d' →
      Keeps m P J d d') :
    ∀ (n : Nat) (data data' : TrackerData), data.resource_buffer.isSome = true →
      delete_all_types recurse n data = Except.ok data' → Keeps m P J data data' := by
  intro n
  induction n with
  | zero =>
    intro data data' hsome h
    unfold delete_all_types at h
    cases hrb : data.resource_buffer with
    | none => simp [hrb] at hsome
    | some rb =>
      simp only [hrb] at h
      cases hl : rb.types.getLast? with
      | none =>
        simp only [hl] at h
        cases h
        exact Keeps.refl_keeps _ _ _ _
      | some t => simp [hl] at h
  | succ n ih =>
    intro data data' hsome h
    unfold delete_all_types at h
    cases hrb : data.resource_buffer with
    | none => simp [hrb] at hsome
    | some rb =>
      simp only [hrb] at h
      cases hl : rb.types.getLast? with
      | none =>
        simp only [hl] at h
        cases h
        exact Keeps.refl_keeps _ _ _ _
      | some t =>
        simp only [hl] at h
        cases hr : recurse data t with
        | error e => simp [hr] at h
        | ok d1 =>
          simp only [hr] at h
          have hk1 := hrec data t d1 hsome hr
          exact hk1.trans_keeps (ih d1 data' (hk1.is_some_keeps hsome) h)

theorem cache_delete_resource_type_full_keeps (m : TrackerDataManager) (P : TrackerProperty)
    (J : List GValue → Prop)
    (hremove : ∀ vs v new b, J vs → value_set_remove_value m vs v = Except.ok (new, b) → J new) :
    ∀ (fuel : Nat) (data : TrackerData) (cl : TrackerClass) (single_type : Bool)
      (data' : TrackerData), data.resource_buffer.isSome = true →
      cache_delete_resource_type_full m fuel data cl single_type = Except.ok data' →
      Keeps m P J data data' := by
  intro fuel
  induction fuel with
  | zero =>
    intro data cl single_type data' _ h
    simp [cache_delete_resource_type_full] at h
  | succ fuel ih =>
    intro data cl single_type data' hsome h
    simp only [cache_delete_resource_type_full] at h
    by_cases hst : single_type = true
    · rw [if_pos hst] at h
      exact delete_type_body_keeps m P J hremove data data' cl hsome h
    · rw [if_neg hst] at h
      cases hrb : data.resource_buffer with
      | none => simp [hrb] at hsome
      | some rb =>
        simp only [hrb] at h
        by_cases hall : tracker_class_get_uri m cl = RDFS_RESOURCE_URI ∧ rb.tables.length = 0
        · rw [if_pos hall] at h
          have hk := delete_all_types_keeps m P J _
            (fun d c d' hd hr => ih d c true d' hd hr) _ _ data' (by exact rfl) h
          refine Keeps.trans_keeps ?_ hk
          exact Keeps.of_rb_eq hrb.symm rfl
        · rw [if_neg hall] at h
          by_cases hmem : cl ∉ rb.types
          · rw [if_pos hmem] at h
            cases h
            exact Keeps.refl_keeps _ _ _ _
          · rw [if_neg hmem] at h
            cases hloop : for_each
                (fun d class_uri =>
                  match class_uri.bind (tracker_ontologies_get_class_by_uri m) with
                  | none => Except.error Fatal.null_dereference
                  | some sub => cache_delete_resource_type_full m fuel d sub false)
                (query_subclasses data.db (database_of rb.graph) rb.id
                  (tracker_class_get_uri m cl)) data with
            | error e => simp [hloop] at h
            | ok data1 =>
              simp only [hloop] at h
              have hk1 : Keeps m P J data data1 := by
                refine for_each_keeps _ ?_ _ data data1 hsome hloop
                intro d x d' hd hx
                cases hc : x.bind (tracker_ontologies_get_class_by_uri m) with
                | none => simp [hc] at hx
                | some sub =>
                  simp only [hc] at hx
                  exact ih d sub false d' hd hx
              exact hk1.trans_keeps (delete_type_body_keeps m P J hremove data1 data' cl
                (hk1.is_some_keeps hsome) h)

/-! ## Statements on the current draft -/

@[simp] theorem set_has_persistent_resource_buffer (data : TrackerData) :
    (set_has_persistent data).resource_buffer = data.resource_buffer := rfl

theorem get_old_property_values_not_in_domain (m : TrackerDataManager) (data : TrackerData)
    (rb : TrackerDataUpdateBufferResource) (property : TrackerProperty)
    (hrb : data.resource_buffer = some rb)
    (hcache : assoc_lookup property rb.predicates = none)
    (hdom : tracker_property_get_domain m property ∉ rb.types) :
    get_old_property_values m data property
      = Except.ok { data := data, error := some GError.CONSTRAINT, val := none } := by
  have hc : check_property_domain m rb property = false := by
    unfold check_property_domain
    rw [List.any_eq_false]
    intro cl hcl
    simp only [decide_eq_true_eq]
    intro h
    exact hdom (h ▸ hcl)
  simp [get_old_property_values, hrb, hcache, hc]

theorem resource_buffer_switch_same (m : TrackerDataManager) (data : TrackerData)
    (rb : TrackerDataUpdateBufferResource) (graph : Option String) (subject : String)
    (subject_id : Int)
    (hrb : data.resource_buffer = some rb) (hg : rb.graph = graph) (hs : rb.subject = subject) :
    resource_buffer_switch m data graph subject subject_id
      = Except.ok { data := data, error := none, val := true } := by
  simp [resource_buffer_switch, hrb, hg, hs]


theorem set_has_persistent_same (data : TrackerData) :
    SameDraft data (set_has_persistent data) :=
  ⟨rfl, rfl, rfl, rfl, rfl, rfl⟩

theorem insert_statement_with_string_keeps (m : TrackerDataManager) (P : TrackerProperty)
    (J : List GValue → Prop)
    (hadd : ∀ vs v new, J vs → value_set_add_value m vs (some v) = Except.ok (new, true) →
      (tracker_property_get_multiple_values m P = true ∨ new.length ≤ 1) → J new)
    (fuel : Nat) (data : TrackerData) (rb : TrackerDataUpdateBufferResource)
    (graph : Option String) (subject predicate : String) (object : GBytes) (r : Ret Unit)
    (hrb : data.resource_buffer = some rb) (hg : rb.graph = graph) (hs : rb.subject = subject)
    (h : tracker_data_insert_statement_with_string m fuel data graph subject predicate object
      = Except.ok r)
    (he : r.error = none) : Keeps m P J data r.data := by
  unfold tracker_data_insert_statement_with_string at h
  by_cases htx : (!data.in_transaction) = true
  · rw [if_pos htx] at h
    cases h
    exact Keeps.refl_keeps _ _ _ _
  · rw [if_neg htx] at h
    cases hp : tracker_ontologies_get_property_by_uri m predicate with
    | none =>
      simp only [hp] at h
      cases h
      cases he
    | some property =>
      simp only [hp] at h
      by_cases hty : tracker_property_get_data_type m property = TrackerPropertyType.RESOURCE
      · rw [if_pos hty] at h
        cases h
        cases he
      · rw [if_neg hty] at h
        have hsw := resource_buffer_switch_same m (set_has_persistent data) rb graph subject 0
          (by simp [hrb]) hg hs
        simp only [hsw, Bool.not_true, Bool.false_eq_true, if_false] at h
        have hk0 : Keeps m P J data (set_has_persistent data) :=
          Keeps.of_same_keeps (set_has_persistent_same data)
        have hsome0 : (set_has_persistent data).resource_buffer.isSome = true := by
          simp [hrb]
        cases hc : cache_insert_metadata_decomposed m fuel (set_has_persistent data)
            property object with
        | error e => simp [hc] at h
        | ok r1 =>
          simp only [hc] at h
          have hp1 := cache_insert_metadata_decomposed_preserves m P J hadd object fuel _ _ r1
            hsome0 hc
          cases he1 : r1.error with
          | some e =>
            simp only [he1] at h
            cases h
            cases he
          | none =>
            simp only [he1] at h
            rw [he1] at hp1
            have hk1 := hk0.trans_keeps (Keeps.of_preserves hp1)
            by_cases hv : r1.val = true
            · rw [if_pos hv] at h
              obtain ⟨d2, h2, hk2⟩ := dispatch_insert_keeps m P J r1.data
                (if tracker_property_get_id m property ≠ 0
                  then tracker_property_get_id m property
                  else tracker_data_query_resource_id r1.data.db predicate)
                0 object.text (hk1.is_some_keeps (by simp [hrb]))
              simp only [h2] at h
              cases h
              exact hk1.trans_keeps hk2
            · rw [if_neg hv] at h
              cases h
              exact hk1

theorem insert_statement_with_uri_keeps (m : TrackerDataManager) (P : TrackerProperty)
    (J : List GValue → Prop)
    (hadd : ∀ vs v new, J vs → value_set_add_value m vs (some v) = Except.ok (new, true) →
      (tracker_property_get_multiple_values m P = true ∨ new.length ≤ 1) → J new)
    (fuel : Nat) (data : TrackerData) (rb : TrackerDataUpdateBufferResource)
    (graph : Option String) (subject predicate : String) (object : GBytes) (r : Ret Unit)
    (hrb : data.resource_buffer = some rb) (hg : rb.graph = graph) (hs : rb.subject = subject)
    (h : tracker_data_insert_statement_with_uri m fuel data graph subject predicate object
      = Except.ok r)
    (he : r.error = none) : Keeps m P J data r.data := by
  unfold tracker_data_insert_statement_with_uri at h
  by_cases htx : (!data.in_transaction) = true
  · rw [if_pos htx] at h
    cases h
    exact Keeps.refl_keeps _ _ _ _
  · rw [if_neg htx] at h
    cases hp : tracker_ontologies_get_property_by_uri m predicate with
    | none =>
      simp only [hp] at h
      cases h
      cases he
    | some property =>
      simp only [hp] at h
      by_cases hty : tracker_property_get_data_type m property ≠ TrackerPropertyType.RESOURCE
      · rw [if_pos hty] at h
        cases h
        cases he
      · rw [if_neg hty] at h
        have hsw := resource_buffer_switch_same m (set_has_persistent data) rb graph subject 0
          (by simp [hrb]) hg hs
        simp only [hsw, Bool.not_true, Bool.false_eq_true, if_false] at h
        have hk0 : Keeps m P J data (set_has_persistent data) :=
          Keeps.of_same_keeps (set_has_persistent_same data)
        have hsome0 : (set_has_persistent data).resource_buffer.isSome = true := by
          simp [hrb]
        by_cases hrt : property = m.ontologies.rdf_type
        · rw [if_pos hrt] at h
          cases hcl : tracker_ontologies_get_class_by_uri m object.text with
          | none =>
            simp only [hcl] at h
            cases h
            cases he
          | some cl =>
            simp only [hcl] at h
            cases hc : cache_create_service_decomposed m fuel (set_has_persistent data) cl with
            | error e => simp [hc] at h
            | ok data1 =>
              simp only [hc] at h
              cases h
              have hk1 := cache_create_service_decomposed_keeps m P J fuel _ cl data1 hsome0 hc
              exact (hk0.trans_keeps hk1).trans_keeps (Keeps.of_same_keeps (query_resource_id_same _ _))
        · rw [if_neg hrt] at h
          cases hc : cache_insert_metadata_decomposed m fuel (set_has_persistent data)
              property object with
          | error e => simp [hc] at h
          | ok r1 =>
            simp only [hc] at h
            have hp1 := cache_insert_metadata_decomposed_preserves m P J hadd object fuel _ _ r1
              hsome0 hc
            cases he1 : r1.error with
            | some e =>
              simp only [he1] at h
              cases h
              cases he
            | none =>
              simp only [he1] at h
              rw [he1] at hp1
              have hk1 := hk0.trans_keeps (Keeps.of_preserves hp1)
              by_cases hv : r1.val = true
              · rw [if_pos hv] at h
                have hkq : Keeps m P J r1.data (query_resource_id r1.data object.text).1 :=
                  Keeps.of_same_keeps (query_resource_id_same _ _)
                have hk2 := hk1.trans_keeps hkq
                obtain ⟨d2, h2, hk3⟩ := dispatch_insert_keeps m P J
                  (query_resource_id r1.data object.text).1
                  (if tracker_property_get_id m property ≠ 0
                    then tracker_property_get_id m property
                    else tracker_data_query_resource_id
                      (query_resource_id r1.data object.text).1.db predicate)
                  (query_resource_id r1.data object.text).2 object.text
                  (hk2.is_some_keeps (by simp [hrb]))
                simp only [h2] at h
                cases h
                exact hk2.trans_keeps hk3
              · rw [if_neg hv] at h
                cases h
                exact hk1

theorem insert_statement_keeps (m : TrackerDataManager) (P : TrackerProperty)
    (J : List GValue → Prop)
    (hadd : ∀ vs v new, J vs → value_set_add_value m vs (some v) = Except.ok (new, true) →
      (tracker_property_get_multiple_values m P = true ∨ new.length ≤ 1) → J new)
    (fuel : Nat) (data : TrackerData) (rb : TrackerDataUpdateBufferResource)
    (graph : Option String) (subject predicate : String) (object : Option GBytes)
    (r : Ret Unit)
    (hrb : data.resource_buffer = some rb) (hg : rb.graph = graph) (hs : rb.subject = subject)
    (h : tracker_data_insert_statement m fuel data graph subject predicate object = Except.ok r)
    (he : r.error = none) : Keeps m P J data r.data := by
  unfold tracker_data_insert_statement at h
  cases object with
  | none =>
    simp only at h
    cases h
    exact Keeps.refl_keeps _ _ _ _
  | some bytes =>
    simp only at h
    by_cases htx : (!data.in_transaction) = true
    · rw [if_pos htx] at h
      cases h
      exact Keeps.refl_keeps _ _ _ _
    · rw [if_neg htx] at h
      cases hp : tracker_ontologies_get_property_by_uri m predicate with
      | none =>
        simp only [hp] at h
        cases h
        cases he
      | some property =>
        simp only [hp] at h
        by_cases hty : tracker_property_get_data_type m property = TrackerPropertyType.RESOURCE
        · rw [if_pos hty] at h
          exact insert_statement_with_uri_keeps m P J hadd fuel data rb graph subject predicate
            bytes r hrb hg hs h he
        · rw [if_neg hty] at h
          exact insert_statement_with_string_keeps m P J hadd fuel data rb graph subject
            predicate bytes r hrb hg hs h he

theorem delete_statement_keeps (m : TrackerDataManager) (P : TrackerProperty)
    (J : List GValue → Prop)
    (hremove : ∀ vs v new b, J vs → value_set_remove_value m vs v = Except.ok (new, b) → J new)
    (fuel : Nat) (data : TrackerData) (rb : TrackerDataUpdateBufferResource)
    (graph : Option String) (subject predicate : String) (object : GBytes) (r : Ret Unit)
    (hrb : data.resource_buffer = some rb) (hg : rb.graph = graph) (hs : rb.subject = subject)
    (h : tracker_data_delete_statement m fuel data graph subject predicate object = Except.ok r)
    (he : r.error = none) : Keeps m P J data r.data := by
  unfold tracker_data_delete_statement at h
  by_cases htx : (!data.in_transaction) = true
  · rw [if_pos htx] at h
    cases h
    exact Keeps.refl_keeps _ _ _ _
  · rw [if_neg htx] at h
    simp only at h
    have hq := query_resource_id_same data subject
    have hkq : Keeps m P J data (query_resource_id data subject).1 := Keeps.of_same_keeps hq
    by_cases hz : (query_resource_id data subject).2 = 0
    · rw [if_pos hz] at h
      cases h
      exact hkq
    · rw [if_neg hz] at h
      have hsw := resource_buffer_switch_same m (query_resource_id data subject).1 rb graph
        subject (query_resource_id data subject).2 (hq.resource_buffer.trans hrb) hg hs
      simp only [hsw, Bool.not_true, Bool.false_eq_true, if_false] at h
      have hk0 : Keeps m P J data (set_has_persistent (query_resource_id data subject).1) :=
        hkq.trans_keeps (Keeps.of_same_keeps (set_has_persistent_same _))
      have hsome0 : (set_has_persistent (query_resource_id data subject).1).resource_buffer.isSome
          = true := hk0.is_some_keeps (by simp [hrb])
      by_cases hrt : predicate = RDF_TYPE_URI
      · rw [if_pos hrt] at h
        cases hcl : tracker_ontologies_get_class_by_uri m object.text with
        | none =>
          simp only [hcl] at h
          cases h
          cases he
        | some cl =>
          simp only [hcl] at h
          cases hc : cache_delete_resource_type m fuel
              (set_has_persistent (query_resource_id data subject).1) cl with
          | error e => simp [hc] at h
          | ok data1 =>
            simp only [hc] at h
            cases h
            exact hk0.trans_keeps (cache_delete_resource_type_full_keeps m P J hremove fuel _ cl false
              data1 hsome0 hc)
      · rw [if_neg hrt] at h
        cases hp : tracker_ontologies_get_property_by_uri m predicate with
        | none =>
          simp only [hp] at h
          cases h
          cases he
        | some field =>
          simp only [hp] at h
          cases hc : delete_metadata_decomposed m fuel
              (set_has_persistent (query_resource_id data subject).1) field object with
          | error e => simp [hc] at h
          | ok r1 =>
            simp only [hc] at h
            have hp1 := delete_metadata_decomposed_preserves m P J hremove object fuel _ _ r1
              hsome0 hc
            by_cases hv : r1.val = true
            · rw [if_pos hv] at h
              obtain ⟨d2, h2, hk2⟩ := dispatch_delete_keeps m P J r1.data
                (tracker_property_get_id m field) 0 object.text (hp1.1.is_some_frame hsome0)
              simp only [h2] at h
              cases h
              simp only at he
              rw [he] at hp1
              exact (hk0.trans_keeps (Keeps.of_preserves hp1)).trans_keeps hk2
            · rw [if_neg hv] at h
              cases h
              simp only at he
              rw [he] at hp1
              exact hk0.trans_keeps (Keeps.of_preserves hp1)

theorem value_set_remove_first_length (m : TrackerDataManager) (vs : List GValue)
    (v : GValue) (new : List GValue) (b : Bool)
    (h : value_set_remove_first m vs v = Except.ok (new, b)) : new.length ≤ vs.length := by
  induction vs generalizing new b with
  | nil =>
    simp only [value_set_remove_first] at h
    cases h
    exact Nat.le_refl _
  | cons x rest ih =>
    simp only [value_set_remove_first] at h
    cases he : value_equal m x v with
    | error e => simp [he] at h
    | ok eq =>
      cases eq with
      | true =>
        simp only [he] at h
        cases h
        simp
      | false =>
        simp only [he] at h
        cases hr : value_set_remove_first m rest v with
        | error e => simp [hr] at h
        | ok res =>
          obtain ⟨rest1, found⟩ := res
          simp only [hr] at h
          cases h
          have := ih rest1 _ hr
          simp only [List.length_cons]
          omega

theorem value_set_remove_value_length (m : TrackerDataManager) (vs : List GValue)
    (v : Option GValue) (new : List GValue) (b : Bool)
    (h : value_set_remove_value m vs v = Except.ok (new, b)) : new.length ≤ vs.length := by
  cases v with
  | none =>
    simp only [value_set_remove_value] at h
    cases h
    exact Nat.le_refl _
  | some value => exact value_set_remove_first_length m vs value new b h

theorem OnDraft.of_keeps {m : TrackerDataManager} {P : TrackerProperty}
    {J : List GValue → Prop} {graph : Option String} {subject : String}
    {data data' : TrackerData} (h : OnDraft graph subject data) (hk : Keeps m P J data data') :
    OnDraft graph subject data' := by
  obtain ⟨rb, hrb, hg, hs⟩ := h
  obtain ⟨rb', hrb', hi⟩ := hk.1.rb rb hrb
  refine ⟨rb', hrb', ?_, ?_⟩
  · have := congrArg (fun t => t.1) hi
    simp only [rb_ident] at this
    exact this.trans hg
  · have := congrArg (fun t => t.2.2.1) hi
    simp only [rb_ident] at this
    exact this.trans hs

theorem run_error_free_keeps (m : TrackerDataManager) (P : TrackerProperty)
    (J : List GValue → Prop)
    (hadd : ∀ vs v new, J vs → value_set_add_value m vs (some v) = Except.ok (new, true) →
      (tracker_property_get_multiple_values m P = true ∨ new.length ≤ 1) → J new)
    (hremove : ∀ vs v new b, J vs → value_set_remove_value m vs v = Except.ok (new, b) → J new)
    (fuel : Nat) (graph : Option String) (subject : String) :
    ∀ (calls : List Call) (data data' : TrackerData),
      (∀ c ∈ calls, c.is_statement_about subject = true) →
      OnDraft graph subject data →
      run_error_free m fuel graph calls data = some data' →
      Keeps m P J data data' := by
  intro calls
  induction calls with
  | nil =>
    intro data data' _ _ h
    simp only [run_error_free] at h
    cases h
    exact Keeps.refl_keeps _ _ _ _
  | cons c rest ih =>
    intro data data' hcalls hdraft h
    simp only [run_error_free] at h
    cases hc : c.run m fuel graph data with
    | error e => simp [hc] at h
    | ok r =>
      simp only [hc] at h
      cases he : r.error with
      | some e => simp [he] at h
      | none =>
        simp only [he] at h
        obtain ⟨rb, hrb, hg, hs⟩ := hdraft
        have hstmt := hcalls c (List.mem_cons_self _ _)
        have hk : Keeps m P J data r.data := by
          cases c with
          | insert s p o =>
            have hsub : s = subject := by simpa [Call.is_statement_about] using hstmt
            subst hsub
            exact insert_statement_keeps m P J hadd fuel data rb graph s p (some o) r
              hrb hg hs hc he
          | delete s p o =>
            have hsub : s = subject := by simpa [Call.is_statement_about] using hstmt
            subst hsub
            exact delete_statement_keeps m P J hremove fuel data rb graph s p o r
              hrb hg hs hc he
          | update s p o => simp [Call.is_statement_about] at hstmt
          | delete_all s p => simp [Call.is_statement_about] at hstmt
          | flush => simp [Call.is_statement_about] at hstmt
        exact hk.trans_keeps (ih r.data data'
          (fun c' hc' => hcalls c' (List.mem_cons_of_mem _ hc'))
          (OnDraft.of_keeps ⟨rb, hrb, hg, hs⟩ hk) h)

theorem get_old_property_values_cached (m : TrackerDataManager) (data : TrackerData)
    (rb : TrackerDataUpdateBufferResource) (property : TrackerProperty) (vs : List GValue)
    (hrb : data.resource_buffer = some rb)
    (hl : assoc_lookup property rb.predicates = some vs) :
    get_old_property_values m data property
      = Except.ok { data := data, error := none, val := some vs } := by
  simp [get_old_property_values, hrb, hl]

theorem insert_super_properties_settled (m : TrackerDataManager)
    (recurse : TrackerData → TrackerProperty → Run (Ret Bool)) (data : TrackerData)
    (rb : TrackerDataUpdateBufferResource) (hrb : data.resource_buffer = some rb)
    (good : TrackerProperty → Bool)
    (hrec : ∀ S, good S = true →
      recurse data S = Except.ok { data := data, error := none, val := false })
    (supers : List TrackerProperty) (change : Bool)
    (hsupers : supers.all (fun super =>
        match assoc_lookup super rb.predicates with
        | none => false
        | some super_values =>
            if tracker_property_get_multiple_values m super then good super
            else !super_values.isEmpty) = true) :
    insert_super_properties m recurse supers data change
      = Except.ok { data := data, error := none, val := change } := by
  induction supers with
  | nil => rfl
  | cons S rest ih =>
    simp only [List.all_cons, Bool.and_eq_true] at hsupers
    obtain ⟨hS, hrest⟩ := hsupers
    cases hl : assoc_lookup S rb.predicates with
    | none => simp [hl] at hS
    | some vs =>
      simp only [hl] at hS
      simp only [insert_super_properties, get_old_property_values_cached m data rb S vs hrb hl]
      cases hm : tracker_property_get_multiple_values m S with
      | true =>
        simp only [hm, if_true] at hS
        simp only [Bool.true_or, if_true, hrec S hS, Bool.or_false]
        exact ih hrest
      | false =>
        simp only [hm, Bool.false_eq_true, if_false, Bool.not_eq_true',
          List.isEmpty_eq_false] at hS
        have hlen : vs.length ≠ 0 := fun h => hS (List.length_eq_zero.1 h)
        simp only [Option.map_some', Bool.false_or, Option.some.injEq, decide_eq_true_eq, hlen,
          if_false, reduceCtorEq]
        exact ih hrest

theorem value_set_add_value_present (m : TrackerDataManager) (vs : List GValue) (v : GValue)
    (h : value_set_contains m vs v = Except.ok true) :
    value_set_add_value m vs (some v) = Except.ok (vs, false) := by
  simp [value_set_add_value, h]

theorem settled_no_op (m : TrackerDataManager) (data : TrackerData) (object : GBytes) :
    ∀ (fuel : Nat) (P : TrackerProperty), settled m data object fuel P = true →
      cache_insert_metadata_decomposed m fuel data P object
        = Except.ok { data := data, error := none, val := false } := by
  intro fuel
  induction fuel with
  | zero => intro P h; simp [settled] at h
  | succ fuel ih =>
    intro P h
    simp only [settled] at h
    cases hrb : data.resource_buffer with
    | none => simp [hrb] at h
    | some rb =>
      simp only [hrb] at h
      cases hl : assoc_lookup P rb.predicates with
      | none => simp [hl] at h
      | some vs =>
        simp only [hl, Bool.and_eq_true] at h
        obtain ⟨hsupers, hdec⟩ := h
        have hsup := insert_super_properties_settled m
          (fun d p => cache_insert_metadata_decomposed m fuel d p object) data rb hrb
          (settled m data object fuel) (fun S hS => ih S hS)
          (tracker_property_get_super_properties m P) false hsupers
        cases hb : bytes_to_gvalue m data object (tracker_property_get_data_type m P) with
        | error e => simp [hb] at hdec
        | ok r =>
          simp only [hb, Bool.and_eq_true, decide_eq_true_eq, Option.isNone_iff_eq_none] at hdec
          obtain ⟨⟨hd, he⟩, hv⟩ := hdec
          cases hval : r.val with
          | none => simp [hval] at hv
          | some value =>
            simp only [hval, decide_eq_true_eq] at hv
            have hcur : current_property_values data P = some vs := by
              simp [current_property_values, hrb, hl]
            simp only [cache_insert_metadata_decomposed,
              get_old_property_values_cached m data rb P vs hrb hl, hsup, insert_value_step, hb,
              he, hval, hd, Option.isSome_some, if_true, hcur,
              value_set_add_value_present m vs value hv]

/-! ## `tracker_data_update_statement` on a flushed buffer -/

theorem exec_accepted (m : TrackerDataManager) (db : Database) (stmt : SqlStmt)
    (hstore : ∀ s, m.db_error s = none) :
    db.exec m stmt = Except.ok { db.apply stmt with journal := db.journal ++ [stmt] } := by
  simp [Database.exec, hstore]

theorem set_rows_journal (db : Database) (database table : String) (rows : List Row) :
    (db.set_rows database table rows).journal = db.journal := by
  unfold Database.set_rows
  split_ifs <;> rfl

theorem stored_property_values_congr (m : TrackerDataManager) (db db' : Database)
    (rb rb' : TrackerDataUpdateBufferResource) (property : TrackerProperty)
    (hrows : db'.rows_of (database_of rb'.graph) (tracker_property_get_table_name m property)
      = db.rows_of (database_of rb.graph) (tracker_property_get_table_name m property))
    (hid : rb'.id = rb.id) :
    stored_property_values m db' rb' property = stored_property_values m db rb property := by
  simp only [stored_property_values, hrows, hid]

theorem Flushed.refl_flushed (data : TrackerData) : Flushed data data :=
  ⟨rfl, rfl, rfl, rfl, rfl, rfl, rfl, fun _ => rfl⟩

theorem Flushed.trans_flushed {a b c : TrackerData} (h1 : Flushed a b) (h2 : Flushed b c) :
    Flushed a c :=
  ⟨h2.in_transaction.trans h1.in_transaction,
   h2.in_ontology_transaction.trans h1.in_ontology_transaction,
   h2.has_persistent.trans h1.has_persistent,
   h2.commit_callbacks.trans h1.commit_callbacks,
   h2.rollback_callbacks.trans h1.rollback_callbacks,
   h2.commit_log.trans h1.commit_log,
   h2.rollback_log.trans h1.rollback_log,
   fun h => by
     have hb := h1.transaction_modseq h
     rw [h2.transaction_modseq (by rw [hb]; exact h), hb]⟩

theorem execute_flushed (m : TrackerDataManager) (data : TrackerData) (stmt : SqlStmt) :
    Flushed data (execute m data stmt).1 := by
  unfold execute
  split <;> exact ⟨rfl, rfl, rfl, rfl, rfl, rfl, rfl, fun _ => rfl⟩

theorem query_resource_id_flushed (data : TrackerData) (uri : String) :
    Flushed data (query_resource_id data uri).1 := by
  unfold query_resource_id
  simp only
  split_ifs <;> exact ⟨rfl, rfl, rfl, rfl, rfl, rfl, rfl, fun _ => rfl⟩

theorem new_service_id_flushed (m : TrackerDataManager) (data : TrackerData) :
    Flushed data (tracker_data_update_get_new_service_id m data).1 := by
  unfold tracker_data_update_get_new_service_id
  simp only
  split_ifs <;> exact ⟨rfl, rfl, rfl, rfl, rfl, rfl, rfl, fun _ => rfl⟩

theorem ensure_resource_id_flushed (m : TrackerDataManager) (data : TrackerData) (uri : String)
    {r : TrackerData × Int × Bool} (h : ensure_resource_id m data uri = Except.ok r) :
    Flushed data r.1 := by
  unfold ensure_resource_id at h
  simp only at h
  have hq := query_resource_id_flushed data uri
  have hn := new_service_id_flushed m (query_resource_id data uri).1
  by_cases h1 : (query_resource_id data uri).2 = 0
  · rw [if_pos h1] at h
    by_cases h2 : (tracker_data_update_get_new_service_id m (query_resource_id data uri).1).2 > 0
    · rw [if_pos h2] at h
      split at h
      · cases h
      · cases h
        exact (hq.trans_flushed hn).trans_flushed
          ⟨rfl, rfl, rfl, rfl, rfl, rfl, rfl, fun _ => rfl⟩
    · rw [if_neg h2] at h
      cases h
      exact (hq.trans_flushed hn).trans_flushed
        ⟨rfl, rfl, rfl, rfl, rfl, rfl, rfl, fun _ => rfl⟩
  · rw [if_neg h1] at h
    cases h
    exact hq

theorem get_transaction_modseq_flushed (data : TrackerData) :
    Flushed data (get_transaction_modseq data).1 := by
  unfold get_transaction_modseq
  simp only
  by_cases h0 : data.transaction_modseq = 0
  · simp only [h0, if_true]
    split_ifs <;> exact ⟨rfl, rfl, rfl, rfl, rfl, rfl, rfl, fun h => absurd h0 h⟩
  · simp only [h0, if_false]
    split_ifs <;> exact Flushed.refl_flushed _

theorem flush_multi_value_table_flushed (m : TrackerDataManager) (database table_name : String)
    (id : Int) (delete_value : Bool) (properties : List TrackerDataUpdateBufferProperty) :
    ∀ data, Flushed data
      (flush_multi_value_table m database table_name id delete_value properties data).1 := by
  induction properties with
  | nil => intro data; exact Flushed.refl_flushed _
  | cons property rest ih =>
    intro data
    have he := execute_flushed m data
      (multi_value_statement m database table_name id delete_value property)
    simp only [flush_multi_value_table]
    cases hx : execute m data
        (multi_value_statement m database table_name id delete_value property) with
    | mk data1 err =>
      rw [hx] at he
      cases err with
      | some e => exact he
      | none => exact he.trans_flushed (ih data1)

theorem flush_single_value_table_flushed (m : TrackerDataManager) (data : TrackerData)
    (resource : TrackerDataUpdateBufferResource) (table_name : String)
    (table : TrackerDataUpdateBufferTable) {r : TrackerData × Option GError}
    (h : flush_single_value_table m data resource table_name table = Except.ok r) :
    Flushed data r.1 := by
  unfold flush_single_value_table at h
  simp only at h
  by_cases hd : table.delete_row = true
  · rw [if_pos hd] at h
    cases hc : table.class_ with
    | none => simp [hc] at h
    | some cl =>
      simp only [hc] at h
      cases hx : ensure_resource_id m data (tracker_class_get_uri m cl) with
      | error e => simp [hx] at h
      | ok t =>
        obtain ⟨data1, class_id, created⟩ := t
        simp only [hx] at h
        have h1 := ensure_resource_id_flushed m data _ hx
        have h2 := execute_flushed m data1 (SqlStmt.delete_value (database_of resource.graph)
          "rdfs:Resource_rdf:type" "rdf:type"
          [SqlValue.integer resource.id, SqlValue.integer class_id])
        cases hy : execute m data1 (SqlStmt.delete_value (database_of resource.graph)
          "rdfs:Resource_rdf:type" "rdf:type"
          [SqlValue.integer resource.id, SqlValue.integer class_id]) with
        | mk data2 err =>
          rw [hy] at h2
          simp only [hy] at h
          cases err with
          | some e =>
            simp only at h
            cases h
            exact h1.trans_flushed h2
          | none =>
            simp only at h
            cases h
            exact (h1.trans_flushed h2).trans_flushed (execute_flushed m data2 _)
  · rw [if_neg hd] at h
    by_cases hi : table.insert = true
    · rw [if_pos hi] at h
      by_cases hn : table_name = "rdfs:Resource"
      · rw [if_pos hn] at h
        cases h
        exact (get_transaction_modseq_flushed data).trans_flushed (execute_flushed m _ _)
      · rw [if_neg hn] at h
        cases h
        exact execute_flushed m _ _
    · rw [if_neg hi] at h
      cases h
      exact execute_flushed m _ _

theorem flush_tables_flushed (m : TrackerDataManager)
    (resource : TrackerDataUpdateBufferResource)
    (tables : List (String × TrackerDataUpdateBufferTable)) :
    ∀ data {r : TrackerData × Option GError},
      flush_tables m resource tables data = Except.ok r → Flushed data r.1 := by
  induction tables with
  | nil =>
    intro data r h
    simp only [flush_tables] at h
    cases h
    exact Flushed.refl_flushed _
  | cons e rest ih =>
    intro data r h
    obtain ⟨table_name, table⟩ := e
    simp only [flush_tables] at h
    by_cases hm : table.multiple_values = true
    · rw [if_pos hm] at h
      have h1 := flush_multi_value_table_flushed m (database_of resource.graph) table_name
        resource.id table.delete_value table.properties data
      cases hx : flush_multi_value_table m (database_of resource.graph) table_name
        resource.id table.delete_value table.properties data with
      | mk data1 err =>
        rw [hx] at h1
        simp only [hx] at h
        cases err with
        | some e =>
          simp only at h
          cases h
          exact h1
        | none =>
          simp only at h
          exact h1.trans_flushed (ih data1 h)
    · rw [if_neg hm] at h
      cases hx : flush_single_value_table m data resource table_name table with
      | error e => simp [hx] at h
      | ok t =>
        obtain ⟨data1, err⟩ := t
        have h1 := flush_single_value_table_flushed m data resource table_name table hx
        simp only [hx] at h
        cases err with
        | some e =>
          simp only at h
          cases h
          exact h1
        | none =>
          simp only at h
          exact h1.trans_flushed (ih data1 h)

theorem flush_fts_flushed (m : TrackerDataManager) (data : TrackerData)
    (resource : TrackerDataUpdateBufferResource) : Flushed data (flush_fts m data resource) := by
  unfold flush_fts
  simp only
  split_ifs <;> exact ⟨rfl, rfl, rfl, rfl, rfl, rfl, rfl, fun _ => rfl⟩

theorem resource_buffer_flush_flushed (m : TrackerDataManager) (data : TrackerData)
    (resource : TrackerDataUpdateBufferResource) {r : TrackerData × Option GError}
    (h : tracker_data_resource_buffer_flush m data resource = Except.ok r) :
    Flushed data r.1 := by
  unfold tracker_data_resource_buffer_flush at h
  cases hx : flush_tables m resource resource.tables data with
  | error e => simp [hx] at h
  | ok t =>
    obtain ⟨data1, err⟩ := t
    have h1 := flush_tables_flushed m resource resource.tables data hx
    simp only [hx] at h
    cases err with
    | some e =>
      simp only at h
      cases h
      exact h1
    | none =>
      simp only at h
      cases h
      exact h1.trans_flushed (flush_fts_flushed m data1 resource)

theorem flush_resources_flushed (m : TrackerDataManager)
    (resources : List TrackerDataUpdateBufferResource) :
    ∀ data {r : TrackerData × Option GError},
      flush_resources m resources data = Except.ok r → Flushed data r.1 := by
  induction resources with
  | nil =>
    intro data r h
    simp only [flush_resources] at h
    cases h
    exact Flushed.refl_flushed _
  | cons resource rest ih =>
    intro data r h
    simp only [flush_resources] at h
    cases hx : tracker_data_resource_buffer_flush m data resource with
    | error e => simp [hx] at h
    | ok t =>
      obtain ⟨data1, err⟩ := t
      have h1 := resource_buffer_flush_flushed m data resource hx
      simp only [hx] at h
      cases err with
      | some e =>
        simp only at h
        cases h
        exact h1
      | none =>
        simp only at h
        exact h1.trans_flushed (ih data1 h)

theorem sync_flushed (data : TrackerData) : Flushed data (sync data) := by
  unfold sync
  split <;> exact ⟨rfl, rfl, rfl, rfl, rfl, rfl, rfl, fun _ => rfl⟩

theorem update_buffer_flush_flushed (m : TrackerDataManager) (data : TrackerData)
    {r : Ret Unit} (h : tracker_data_update_buffer_flush m data = Except.ok r) :
    Flushed data r.data := by
  unfold tracker_data_update_buffer_flush at h
  simp only at h
  cases hx : flush_resources m
      ((sync data).update_buffer.graphs.flatMap (fun g => g.resources.map (fun e => e.2)))
      (sync data) with
  | error e => simp [hx] at h
  | ok t =>
    obtain ⟨data1, err⟩ := t
    have h1 := flush_resources_flushed m _ (sync data) hx
    simp only [hx] at h
    cases h
    exact ((sync_flushed data).trans_flushed h1).trans_flushed
      ⟨rfl, rfl, rfl, rfl, rfl, rfl, rfl, fun _ => rfl⟩

/-- What the flush leaves of the buffer: no graph and no current resource. -/
theorem update_buffer_flush_clears (m : TrackerDataManager) (data : TrackerData)
    {r : Ret Unit} (h : tracker_data_update_buffer_flush m data = Except.ok r) :
    r.data.update_buffer.graphs = [] ∧ r.data.resource_buffer = none := by
  unfold tracker_data_update_buffer_flush at h
  simp only at h
  split at h
  · cases h
  · cases h
    exact ⟨rfl, rfl⟩

/-! ## The outcome of selecting a resource -/

theorem create_graph_outcome (m : TrackerDataManager) (data : TrackerData) (name : String)
    {r : Ret Bool} (h : tracker_data_manager_create_graph m data name = Except.ok r) :
    SwitchOutcome m r := by
  unfold tracker_data_manager_create_graph at h
  cases hc : m.create_graph_error name with
  | some e =>
    simp only [hc] at h
    cases h
    exact Or.inr ⟨rfl, name, e, hc, rfl⟩
  | none =>
    simp only [hc] at h
    split at h
    · cases h
    · cases h
      exact Or.inl ⟨rfl, rfl⟩

theorem ensure_graph_known_outcome (m : TrackerDataManager) (data : TrackerData)
    (name : Option String) {r : Ret Bool} (h : ensure_graph_known m data name = Except.ok r) :
    SwitchOutcome m r := by
  cases name with
  | none =>
    simp only [ensure_graph_known] at h
    cases h
    exact Or.inl ⟨rfl, rfl⟩
  | some n =>
    simp only [ensure_graph_known] at h
    split_ifs at h
    · exact create_graph_outcome m data n h
    · cases h
      exact Or.inl ⟨rfl, rfl⟩

theorem ensure_graph_buffer_outcome (m : TrackerDataManager) (data : TrackerData)
    (name : Option String) {r : Ret Bool} (h : ensure_graph_buffer m data name = Except.ok r) :
    SwitchOutcome m r := by
  unfold ensure_graph_buffer at h
  split_ifs at h
  · cases h
    exact Or.inl ⟨rfl, rfl⟩
  · cases hx : ensure_graph_known m data name with
    | error e => simp [hx] at h
    | ok r1 =>
      have h1 := ensure_graph_known_outcome m data name hx
      simp only [hx] at h
      split_ifs at h
      · cases h
        exact h1
      · cases h
        exact Or.inl ⟨rfl, rfl⟩

theorem resource_buffer_switch_outcome (m : TrackerDataManager) (data : TrackerData)
    (graph : Option String) (subject : String) (subject_id : Int) {r : Ret Bool}
    (h : resource_buffer_switch m data graph subject subject_id = Except.ok r) :
    SwitchOutcome m r := by
  unfold resource_buffer_switch at h
  split_ifs at h
  · cases h
    exact Or.inl ⟨rfl, rfl⟩
  · cases hf : tracker_data_update_buffer_might_flush m data with
    | error e => simp [hf] at h
    | ok flushed =>
      simp only [hf] at h
      cases hx : ensure_graph_buffer m { sync flushed.data with resource_buffer := none }
          graph with
      | error e => simp [hx] at h
      | ok r1 =>
        have h1 := ensure_graph_buffer_outcome m _ graph hx
        simp only [hx] at h
        split_ifs at h with hv
        · cases h
          rcases h1 with ⟨h2, _⟩ | ⟨h2, n, e, h3, h4⟩
          · simp [h2] at hv
          · exact Or.inr ⟨rfl, n, e, h3, h4⟩
        · split at h
          · cases h
          · cases h
            exact Or.inl ⟨rfl, rfl⟩

theorem get_old_property_values_error (m : TrackerDataManager) (data : TrackerData)
    (property : TrackerProperty) {r : Ret (Option (List GValue))} {e : GError}
    (h : get_old_property_values m data property = Except.ok r) (he : r.error = some e) :
    e = GError.CONSTRAINT := by
  unfold get_old_property_values at h
  cases hrb : data.resource_buffer with
  | none => simp [hrb] at h
  | some rb =>
    simp only [hrb] at h
    cases hl : assoc_lookup property rb.predicates with
    | some vs =>
      simp only [hl] at h
      cases h
      simp at he
    | none =>
      simp only [hl] at h
      split_ifs at h <;> cases h <;> simp_all

theorem bytes_to_gvalue_error (m : TrackerDataManager) (data : TrackerData) (bytes : GBytes)
    (type : TrackerPropertyType) {r : Ret (Option GValue)} {e : GError}
    (h : bytes_to_gvalue m data bytes type = Except.ok r) (he : r.error = some e) :
    CollaboratorError m e := by
  unfold bytes_to_gvalue at h
  cases type <;> simp only at h
  case RESOURCE =>
    split at h
    · cases h
    · cases h
      simp at he
  case DATE =>
    cases hx : m.tracker_string_to_date (bytes.text ++ "T00:00:00Z") with
    | ok t =>
      simp only [hx] at h
      cases h
      simp at he
    | error x =>
      simp only [hx] at h
      cases h
      simp only [Option.some.injEq] at he
      subst he
      exact Or.inl ⟨_, hx⟩
  case DATETIME =>
    cases hx : m.tracker_date_time_set_from_string bytes.text with
    | ok t =>
      simp only [hx] at h
      cases h
      simp at he
    | error x =>
      simp only [hx] at h
      cases h
      simp only [Option.some.injEq] at he
      subst he
      exact Or.inr (Or.inl ⟨_, hx⟩)
  all_goals
    cases h
    simp at he

theorem insert_value_step_error (m : TrackerDataManager) (data : TrackerData)
    (property : TrackerProperty) (object : GBytes) (have_old_values change : Bool)
    {r : Ret Bool} {e : GError}
    (h : insert_value_step m data property object have_old_values change = Except.ok r)
    (he : r.error = some e) : InnerError m e := by
  unfold insert_value_step at h
  cases hx : bytes_to_gvalue m data object (tracker_property_get_data_type m property) with
  | error x => simp [hx] at h
  | ok r0 =>
    simp only [hx] at h
    cases hre : r0.error with
    | some e0 =>
      simp only [hre] at h
      cases h
      simp only [Option.some.injEq] at he
      subst he
      exact Or.inr (Or.inr (bytes_to_gvalue_error m data object _ hx hre))
    | none =>
      cases hrv : r0.val with
      | none =>
        simp only [hre, hrv] at h
        cases h
        simp at he
      | some value =>
        simp only [hre, hrv] at h
        repeat' (first
          | (cases h; cases he; exact Or.inl rfl)
          | (cases h; cases he)
          | (cases h)
          | split at h)

theorem insert_super_properties_error (m : TrackerDataManager)
    (recurse : TrackerData → TrackerProperty → Run (Ret Bool))
    (hrec : ∀ d p r e, recurse d p = Except.ok r → r.error = some e → InnerError m e)
    (supers : List TrackerProperty) :
    ∀ (data : TrackerData) (change : Bool) {r : Ret Bool} {e : GError},
      insert_super_properties m recurse supers data change = Except.ok r →
      r.error = some e → InnerError m e := by
  induction supers with
  | nil =>
    intro data change r e h he
    simp only [insert_super_properties] at h
    cases h
    simp at he
  | cons super rest ih =>
    intro data change r e h he
    simp only [insert_super_properties] at h
    cases hx : get_old_property_values m data super with
    | error x => simp [hx] at h
    | ok r0 =>
      simp only [hx] at h
      cases hre : r0.error with
      | some e0 =>
        simp only [hre] at h
        cases h
        simp only [Option.some.injEq] at he
        subst he
        exact Or.inl (get_old_property_values_error m data super hx hre)
      | none =>
        simp only [hre] at h
        by_cases hc : (tracker_property_get_multiple_values m super
            || decide (r0.val.map List.length = some 0)) = true
        · rw [if_pos hc] at h
          cases hy : recurse r0.data super with
          | error x => simp [hy] at h
          | ok r1 =>
            simp only [hy] at h
            cases hr1 : r1.error with
            | some e1 =>
              simp only [hr1] at h
              cases h
              simp only [Option.some.injEq] at he
              subst he
              exact hrec _ _ _ _ hy hr1
            | none =>
              simp only [hr1] at h
              exact ih _ _ h he
        · rw [if_neg hc] at h
          by_cases hn : r0.val = none
          · rw [if_pos hn] at h
            cases h
          · rw [if_neg hn] at h
            exact ih _ _ h he

theorem cache_insert_metadata_decomposed_error (m : TrackerDataManager) (object : GBytes) :
    ∀ (fuel : Nat) (data : TrackerData) (property : TrackerProperty) {r : Ret Bool}
      {e : GError},
      cache_insert_metadata_decomposed m fuel data property object = Except.ok r →
      r.error = some e → InnerError m e := by
  intro fuel
  induction fuel with
  | zero =>
    intro data property r e h
    simp [cache_insert_metadata_decomposed] at h
  | succ fuel ih =>
    intro data property r e h he
    simp only [cache_insert_metadata_decomposed] at h
    cases hx : get_old_property_values m data property with
    | error x => simp [hx] at h
    | ok r0 =>
      simp only [hx] at h
      cases hre : r0.error with
      | some e0 =>
        simp only [hre] at h
        cases h
        simp only [Option.some.injEq] at he
        subst he
        exact Or.inl (get_old_property_values_error m data property hx hre)
      | none =>
        simp only [hre] at h
        cases hy : insert_super_properties m
            (fun d p => cache_insert_metadata_decomposed m fuel d p object)
            (tracker_property_get_super_properties m property) r0.data false with
        | error x => simp [hy] at h
        | ok r1 =>
          simp only [hy] at h
          cases hr1 : r1.error with
          | some e1 =>
            simp only [hr1] at h
            cases h
            simp only [Option.some.injEq] at he
            subst he
            exact insert_super_properties_error m _ (fun d p r e h1 h2 => ih d p h1 h2) _ _ _
              hy hr1
          | none =>
            simp only [hr1] at h
            exact insert_value_step_error m _ _ _ _ _ h he

theorem SwitchOutcome.inner_error {m : TrackerDataManager} {r : Ret Bool} {e : GError}
    (h : SwitchOutcome m r) (he : r.error = some e) : InnerError m e := by
  rcases h with ⟨_, h1⟩ | ⟨_, n, e1, h2, h3⟩
  · simp [h1] at he
  · rw [h3] at he
    cases he
    exact Or.inr (Or.inr (Or.inr (Or.inr ⟨n, h2⟩)))

theorem insert_statement_with_string_error (m : TrackerDataManager) (fuel : Nat)
    (data : TrackerData) (graph : Option String) (subject predicate : String)
    (object : GBytes) (property : TrackerProperty) {r : Ret Unit} {e : GError}
    (htx : data.in_transaction = true)
    (hp : tracker_ontologies_get_property_by_uri m predicate = some property)
    (hty : tracker_property_get_data_type m property ≠ TrackerPropertyType.RESOURCE)
    (h : tracker_data_insert_statement_with_string m fuel data graph subject predicate object
      = Except.ok r)
    (he : r.error = some e) : InnerError m e := by
  simp only [tracker_data_insert_statement_with_string, htx, Bool.not_true, Bool.false_eq_true,
    if_false, hp, hty] at h
  cases hs : resource_buffer_switch m (set_has_persistent data) graph subject 0 with
  | error x => simp [hs] at h
  | ok sw =>
    have ho := resource_buffer_switch_outcome m _ graph subject 0 hs
    simp only [hs] at h
    by_cases hv : (!sw.val) = true
    · rw [if_pos hv] at h
      cases h
      exact ho.inner_error he
    · rw [if_neg hv] at h
      cases hc : cache_insert_metadata_decomposed m fuel sw.data property object with
      | error x => simp [hc] at h
      | ok rc =>
        simp only [hc] at h
        cases hre : rc.error with
        | some e1 =>
          simp only [hre] at h
          cases h
          simp only [Option.some.injEq] at he
          subst he
          exact cache_insert_metadata_decomposed_error m object fuel _ _ hc hre
        | none =>
          simp only [hre] at h
          repeat' (first
            | (cases h; cases he)
            | (cases h)
            | split at h)

theorem insert_statement_with_uri_error (m : TrackerDataManager) (fuel : Nat)
    (data : TrackerData) (graph : Option String) (subject predicate : String)
    (object : GBytes) (property : TrackerProperty) {r : Ret Unit} {e : GError}
    (htx : data.in_transaction = true)
    (hp : tracker_ontologies_get_property_by_uri m predicate = some property)
    (hty : tracker_property_get_data_type m property = TrackerPropertyType.RESOURCE)
    (h : tracker_data_insert_statement_with_uri m fuel data graph subject predicate object
      = Except.ok r)
    (he : r.error = some e) : InnerError m e := by
  simp only [tracker_data_insert_statement_with_uri, htx, Bool.not_true, Bool.false_eq_true,
    if_false, hp, hty, ne_eq, not_true_eq_false] at h
  cases hs : resource_buffer_switch m (set_has_persistent data) graph subject 0 with
  | error x => simp [hs] at h
  | ok sw =>
    have ho := resource_buffer_switch_outcome m _ graph subject 0 hs
    simp only [hs] at h
    by_cases hv : (!sw.val) = true
    · rw [if_pos hv] at h
      cases h
      exact ho.inner_error he
    · rw [if_neg hv] at h
      by_cases hrt : property = m.ontologies.rdf_type
      · rw [if_pos hrt] at h
        repeat' (first
          | (cases h; cases he; exact Or.inr (Or.inl rfl))
          | (cases h; cases he)
          | (cases h)
          | split at h)
      · rw [if_neg hrt] at h
        cases hc : cache_insert_metadata_decomposed m fuel sw.data property object with
      | error x => simp [hc] at h
      | ok rc =>
        simp only [hc] at h
        cases hre : rc.error with
        | some e1 =>
          simp only [hre] at h
          cases h
          simp only [Option.some.injEq] at he
          subst he
          exact cache_insert_metadata_decomposed_error m object fuel _ _ hc hre
        | none =>
          simp only [hre] at h
          repeat' (first
            | (cases h; cases he)
            | (cases h)
            | split at h)

theorem InnerError.not_early {m : TrackerDataManager} {e : GError}
    (hcollab : ∀ e, CollaboratorError m e → e ≠ GError.TYPE ∧ e ≠ GError.UNKNOWN_PROPERTY)
    (h : InnerError m e) : e ≠ GError.TYPE ∧ e ≠ GError.UNKNOWN_PROPERTY := by
  rcases h with h | h | h
  · subst h
    exact ⟨by decide, by decide⟩
  · subst h
    exact ⟨by decide, by decide⟩
  · exact hcollab e h

/-- The collaborators of the example manager raise date errors only. -/
theorem example_collaborator_errors (e : GError) (h : CollaboratorError example_manager e) :
    e ≠ GError.TYPE ∧ e ≠ GError.UNKNOWN_PROPERTY := by
  rcases h with ⟨s, h⟩ | ⟨s, h⟩ | ⟨n, h⟩
  · cases h
    exact ⟨by decide, by decide⟩
  · cases h
    exact ⟨by decide, by decide⟩
  · cases h

/-! ## Value sets as sets -/

theorem value_equal_returns (m : TrackerDataManager) (a b : GValue)
    (ha : has_equality a = true) (hb : has_equality b = true) :
    ∃ c, value_equal m a b = Except.ok c := by
  cases a <;> cases b <;> simp [has_equality] at ha hb <;>
    simp [value_equal, G_VALUE_TYPE]

/-- Two values that are equal to a third value which is no date-time are equal
to each other, when this is so for the comparison of doubles. -/
theorem value_equal_of_equal_to (m : TrackerDataManager) (a b c : GValue)
    (hdouble : ∀ x y z, m.double_eq x z = true → m.double_eq y z = true →
      m.double_eq x y = true)
    (hc : is_date_time c = false)
    (h1 : value_equal m a c = Except.ok true) (h2 : value_equal m b c = Except.ok true) :
    value_equal m a b = Except.ok true := by
  cases c <;> simp [is_date_time] at hc <;> cases a <;>
    simp [value_equal, G_VALUE_TYPE] at h1 <;> cases b <;>
    simp [value_equal, G_VALUE_TYPE] at h2 ⊢
  · rw [h1, h2]
  · rw [h1, h2]
  · exact hdouble _ _ _ h1 h2

theorem value_set_contains_spec (m : TrackerDataManager) (v : GValue)
    (hv : has_equality v = true) :
    ∀ S : List GValue, (∀ x ∈ S, has_equality x = true) →
      ∃ c, value_set_contains m S v = Except.ok c
        ∧ (c = false → ∀ y ∈ S, value_equal m y v = Except.ok false)
        ∧ (c = true → ∃ x ∈ S, value_equal m x v = Except.ok true) := by
  intro S
  induction S with
  | nil =>
    intro _
    exact ⟨false, rfl, fun _ y hy => by simp at hy, fun h => by simp at h⟩
  | cons a S ih =>
    intro hS
    obtain ⟨c, hc⟩ := value_equal_returns m a v (hS a (by simp)) hv
    obtain ⟨c1, h1, h2, h3⟩ := ih (fun x hx => hS x (by simp [hx]))
    cases c with
    | true =>
      refine ⟨true, by simp [value_set_contains, hc], fun h => by simp at h, fun _ => ?_⟩
      exact ⟨a, by simp, hc⟩
    | false =>
      refine ⟨c1, by simp [value_set_contains, hc, h1], ?_, ?_⟩
      · intro hf y hy
        rcases List.mem_cons.mp hy with rfl | hy
        · exact hc
        · exact h2 hf y hy
      · intro ht
        obtain ⟨x, hx, hxv⟩ := h3 ht
        exact ⟨x, by simp [hx], hxv⟩

theorem value_set_remove_first_spec (m : TrackerDataManager) (v : GValue)
    (hv : has_equality v = true) :
    ∀ S : List GValue, (∀ x ∈ S, has_equality x = true) →
      ∃ S' found, value_set_remove_first m S v = Except.ok (S', found)
        ∧ (found = true → ∃ pre x post, S = pre ++ x :: post ∧ S' = pre ++ post
            ∧ value_equal m x v = Except.ok true
            ∧ ∀ y ∈ pre, value_equal m y v = Except.ok false)
        ∧ (found = false → S' = S ∧ ∀ y ∈ S, value_equal m y v = Except.ok false) := by
  intro S
  induction S with
  | nil =>
    intro _
    exact ⟨[], false, rfl, fun h => by simp at h, fun _ => ⟨rfl, fun y hy => by simp at hy⟩⟩
  | cons a S ih =>
    intro hS
    obtain ⟨c, hc⟩ := value_equal_returns m a v (hS a (by simp)) hv
    obtain ⟨S1, f, h1, h2, h3⟩ := ih (fun x hx => hS x (by simp [hx]))
    cases c with
    | true =>
      refine ⟨S, true, by simp [value_set_remove_first, hc], fun _ => ?_, fun h => by simp at h⟩
      exact ⟨[], a, S, rfl, rfl, hc, fun y hy => by simp at hy⟩
    | false =>
      refine ⟨a :: S1, f, by simp [value_set_remove_first, hc, h1], ?_, ?_⟩
      · intro hf
        obtain ⟨pre, x, post, e1, e2, e3, e4⟩ := h2 hf
        refine ⟨a :: pre, x, post, by simp [e1], by simp [e2], e3, ?_⟩
        intro y hy
        rcases List.mem_cons.mp hy with rfl | hy
        · exact hc
        · exact e4 y hy
      · intro hf
        obtain ⟨e1, e2⟩ := h3 hf
        refine ⟨by rw [e1], ?_⟩
        intro y hy
        rcases List.mem_cons.mp hy with rfl | hy
        · exact hc
        · exact e2 y hy

theorem ValueSetOp.apply_distinct (m : TrackerDataManager) (op : ValueSetOp) (S : List GValue)
    (hS : Distinct m S) (hop : has_equality op.value = true) :
    ∃ S', op.apply m S = Except.ok S' ∧ Distinct m S' := by
  cases op with
  | add v =>
    obtain ⟨c, h1, h2, _⟩ := value_set_contains_spec m v hop S hS.1
    cases c with
    | true => exact ⟨S, by simp [ValueSetOp.apply, value_set_add_value, h1], hS⟩
    | false =>
      refine ⟨S ++ [v], by simp [ValueSetOp.apply, value_set_add_value, h1], ?_, ?_⟩
      · intro x hx
        rcases List.mem_append.mp hx with hx | hx
        · exact hS.1 x hx
        · simp only [List.mem_singleton] at hx
          subst hx
          exact hop
      · rw [List.pairwise_append]
        refine ⟨hS.2, List.pairwise_singleton _ _, ?_⟩
        intro a ha b hb
        simp only [List.mem_singleton] at hb
        subst hb
        exact h2 rfl a ha
  | remove v =>
    obtain ⟨S', f, h1, h2, h3⟩ := value_set_remove_first_spec m v hop S hS.1
    refine ⟨S', by simp [ValueSetOp.apply, value_set_remove_value, h1], ?_⟩
    cases f with
    | false =>
      rw [(h3 rfl).1]
      exact hS
    | true =>
      obtain ⟨pre, x, post, e1, e2, _, _⟩ := h2 rfl
      have hsub : S'.Sublist S := by
        rw [e1, e2]
        exact List.Sublist.append_left (List.sublist_cons_self x post) pre
      exact ⟨fun y hy => hS.1 y (hsub.subset hy), hS.2.sublist hsub⟩

theorem build_value_set_distinct (m : TrackerDataManager) (ops : List ValueSetOp) :
    ∀ S : List GValue, Distinct m S → (∀ op ∈ ops, has_equality op.value = true) →
      ∃ S', build_value_set m ops S = Except.ok S' ∧ Distinct m S' := by
  induction ops with
  | nil =>
    intro S hS _
    exact ⟨S, rfl, hS⟩
  | cons op rest ih =>
    intro S hS hops
    obtain ⟨S1, h1, h2⟩ := op.apply_distinct m S hS (hops op (by simp))
    obtain ⟨S2, h3, h4⟩ := ih S1 h2 (fun o ho => hops o (by simp [ho]))
    exact ⟨S2, by simp [build_value_set, h1, h3], h4⟩

/-! ## The stamp `nrl:modified` -/

theorem StagingOp.run_eq (m : TrackerDataManager) (data : TrackerData) (op : StagingOp) :
    op.run m data
      = (match cache_ensure_table data (op.table m) op.multiple_values with
         | Except.error e => Except.error e
         | Except.ok data1 => Except.ok (modify_table data1 (op.table m) op.write)) := by
  cases op <;> rfl

theorem StagingOp.write_keeps_class (op : StagingOp) (t : TrackerDataUpdateBufferTable)
    (h : t.delete_row = true → t.class_.isSome = true) :
    (op.write t).delete_row = true → (op.write t).class_.isSome = true := by
  cases op <;> simp [StagingOp.write, table_append] <;> exact h

theorem tables_ensure_stamped (t : TrackerDataUpdateBufferTable)
    (rest : List (String × TrackerDataUpdateBufferTable)) (name : String) (mv : Bool)
    (hrest : ∀ e ∈ rest, e.1 ≠ "rdfs:Resource")
    (hclass : ∀ e ∈ rest, e.2.delete_row = true → e.2.class_.isSome = true) :
    ∃ rest', tables_ensure (("rdfs:Resource", t) :: rest) name mv
        = ("rdfs:Resource", t) :: rest'
      ∧ (∀ e ∈ rest', e.1 ≠ "rdfs:Resource")
      ∧ (∀ e ∈ rest', e.2.delete_row = true → e.2.class_.isSome = true) := by
  unfold tables_ensure
  cases h : assoc_lookup name (("rdfs:Resource", t) :: rest) with
  | some t1 => exact ⟨rest, rfl, hrest, hclass⟩
  | none =>
    have hne : "rdfs:Resource" ≠ name := by
      intro he
      simp [assoc_lookup_cons, he] at h
    refine ⟨rest ++ [(name, { cache_table_new mv with insert := mv })], by simp, ?_, ?_⟩
    · intro e he
      rcases List.mem_append.mp he with he | he
      · exact hrest e he
      · simp only [List.mem_singleton] at he
        subst he
        exact fun h1 => hne h1.symm
    · intro e he
      rcases List.mem_append.mp he with he | he
      · exact hclass e he
      · simp only [List.mem_singleton] at he
        subst he
        simp [cache_table_new]

theorem tables_modify_mem (tables : List (String × TrackerDataUpdateBufferTable))
    (name : String) (f : TrackerDataUpdateBufferTable → TrackerDataUpdateBufferTable)
    (e : String × TrackerDataUpdateBufferTable) (he : e ∈ tables_modify tables name f) :
    ∃ e0 ∈ tables, e.1 = e0.1 ∧ (e.2 = e0.2 ∨ e.2 = f e0.2) := by
  unfold tables_modify at he
  obtain ⟨e0, h0, h1⟩ := List.mem_map.mp he
  refine ⟨e0, h0, ?_⟩
  by_cases hn : e0.1 = name
  · rw [if_pos hn] at h1
    subst h1
    exact ⟨rfl, Or.inr rfl⟩
  · rw [if_neg hn] at h1
    subst h1
    exact ⟨rfl, Or.inl rfl⟩

/-- A staging operation that spares the stamp keeps the staged tables
stamped. -/
theorem Stamped.write {k : Int} {rb : TrackerDataUpdateBufferResource} (m : TrackerDataManager)
    (op : StagingOp) (h : Stamped k rb) (hop : op.spares_stamp m = true) :
    Stamped k { rb with
      tables := tables_modify (tables_ensure rb.tables (op.table m) op.multiple_values)
        (op.table m) op.write } := by
  obtain ⟨t, rest, e1, h1, h2, h3, h4, h5, ⟨others, h6, h7⟩, h8⟩ := h.tables
  obtain ⟨rest', e2, g1, g2⟩ := tables_ensure_stamped t rest (op.table m) op.multiple_values h1 h8
  refine ⟨h.modified, ?_⟩
  simp only [e1, e2, tables_modify_cons]
  have hrest : ∀ e ∈ tables_modify rest' (op.table m) op.write,
      e.1 ≠ "rdfs:Resource" ∧ (e.2.delete_row = true → e.2.class_.isSome = true) := by
    intro e he
    obtain ⟨e0, h0, hk, hv⟩ := tables_modify_mem rest' _ _ e he
    refine ⟨by rw [hk]; exact g1 e0 h0, ?_⟩
    rcases hv with hv | hv
    · rw [hv]
      exact g2 e0 h0
    · rw [hv]
      exact op.write_keeps_class e0.2 (g2 e0 h0)
  by_cases hn : "rdfs:Resource" = op.table m
  · rw [if_pos hn]
    cases op with
    | insert_value table_name field_name value mv fts dt =>
      simp only [StagingOp.spares_stamp, StagingOp.table, decide_eq_true_eq] at hop hn
      have hfield : field_name ≠ "nrl:modified" := by
        rcases hop with hop | hop
        · exact absurd hn.symm hop
        · exact hop
      refine ⟨_, _, rfl, fun e he => (hrest e he).1, ?_, ?_, ?_, ?_,
        ⟨others ++ [buffer_property field_name value fts dt], ?_, ?_⟩,
        fun e he => (hrest e he).2⟩
      · simpa [StagingOp.write, table_append] using h2
      · simpa [StagingOp.write, table_append] using h3
      · simpa [StagingOp.write, table_append] using h4
      · simpa [StagingOp.write, table_append] using h5
      · simp [StagingOp.write, table_append, h6]
      · intro p hp
        rcases List.mem_append.mp hp with hp | hp
        · exact h7 p hp
        · simp only [List.mem_singleton] at hp
          subst hp
          simpa [buffer_property] using hfield
    | insert_row cl =>
      simp [StagingOp.spares_stamp, StagingOp.table] at hop hn
      exact absurd hn.symm hop
    | delete_row cl =>
      simp [StagingOp.spares_stamp, StagingOp.table] at hop hn
      exact absurd hn.symm hop
    | delete_all_values table_name field_name fts dt =>
      simp [StagingOp.spares_stamp, StagingOp.table] at hop hn
      exact absurd hn.symm hop
    | delete_value table_name field_name value mv fts dt =>
      simp [StagingOp.spares_stamp, StagingOp.table] at hop hn
      exact absurd hn.symm hop
  · rw [if_neg hn]
    exact ⟨t, _, rfl, fun e he => (hrest e he).1, h2, h3, h4, h5, ⟨others, h6, h7⟩,
      fun e he => (hrest e he).2⟩

theorem get_transaction_modseq_store (data : TrackerData) :
    (get_transaction_modseq data).1.db = data.db
    ∧ (get_transaction_modseq data).1.in_ontology_transaction = data.in_ontology_transaction
    ∧ (get_transaction_modseq data).1.resource_buffer = data.resource_buffer := by
  simp only [get_transaction_modseq]
  split_ifs <;> exact ⟨rfl, rfl, rfl⟩

theorem StagingOp.run_stamped (m : TrackerDataManager) (data : TrackerData)
    (rb : TrackerDataUpdateBufferResource) (op : StagingOp) (k : Int)
    (hrb : data.resource_buffer = some rb) (hst : Stamped k rb)
    (hop : op.spares_stamp m = true) :
    ∃ data' rb', op.run m data = Except.ok data' ∧ data'.resource_buffer = some rb'
      ∧ Stamped k rb' ∧ data'.db = data.db
      ∧ data'.in_ontology_transaction = data.in_ontology_transaction
      ∧ data'.transaction_modseq = data.transaction_modseq := by
  have hw := Stamped.write m op hst hop
  simp only [hst.modified] at hw
  rw [StagingOp.run_eq]
  simp only [cache_ensure_table, hrb, hst.modified, if_true, modify_table]
  exact ⟨_, _, rfl, rfl, hw, rfl, rfl, rfl⟩

theorem StagingOp.run_fresh (m : TrackerDataManager) (data : TrackerData)
    (rb : TrackerDataUpdateBufferResource) (op : StagingOp)
    (hrb : data.resource_buffer = some rb) (hfresh : rb.modified = false)
    (htables : rb.tables = []) (hop : op.spares_stamp m = true) :
    ∃ data' rb', op.run m data = Except.ok data' ∧ data'.resource_buffer = some rb'
      ∧ Stamped (get_transaction_modseq data).2 rb' ∧ data'.db = data.db
      ∧ data'.in_ontology_transaction = data.in_ontology_transaction
      ∧ data'.transaction_modseq = (get_transaction_modseq data).1.transaction_modseq := by
  have h0 : Stamped (get_transaction_modseq data).2
      { rb with
        modified := true,
        tables := [("rdfs:Resource",
          { cache_table_new false with
            insert := false, properties := [stamp (get_transaction_modseq data).2] })] } :=
    ⟨rfl, _, [], rfl, fun e he => by simp at he, rfl, rfl, rfl, rfl,
      ⟨[], rfl, fun p hp => by simp at hp⟩, fun e he => by simp at he⟩
  have hw := Stamped.write m op h0 hop
  obtain ⟨g1, g2, g3⟩ := get_transaction_modseq_store data
  rw [StagingOp.run_eq]
  simp only [cache_ensure_table, hrb, hfresh, Bool.false_eq_true, if_false, modify_table,
    htables]
  exact ⟨_, _, rfl, rfl, hw, g1, g2, rfl⟩

theorem run_staging_stamped (m : TrackerDataManager) (ops : List StagingOp) (k : Int) :
    ∀ (data : TrackerData) (rb : TrackerDataUpdateBufferResource),
      data.resource_buffer = some rb → Stamped k rb →
      (∀ op ∈ ops, op.spares_stamp m = true) →
      ∃ data' rb', run_staging m ops data = Except.ok data' ∧ data'.resource_buffer = some rb'
        ∧ Stamped k rb' ∧ data'.db = data.db
        ∧ data'.in_ontology_transaction = data.in_ontology_transaction
        ∧ data'.transaction_modseq = data.transaction_modseq := by
  induction ops with
  | nil =>
    intro data rb hrb hst _
    exact ⟨data, rb, rfl, hrb, hst, rfl, rfl, rfl⟩
  | cons op rest ih =>
    intro data rb hrb hst hops
    obtain ⟨d1, rb1, h1, h2, h3, h4, h5, h6⟩ :=
      StagingOp.run_stamped m data rb op k hrb hst (hops op (by simp))
    obtain ⟨d2, rb2, e1, e2, e3, e4, e5, e6⟩ :=
      ih d1 rb1 h2 h3 (fun o ho => hops o (by simp [ho]))
    exact ⟨d2, rb2, by simp [run_staging, h1, e1], e2, e3, e4.trans h4, e5.trans h5,
      e6.trans h6⟩

theorem execute_emits (m : TrackerDataManager) (data : TrackerData) (stmt : SqlStmt)
    (hstore : ∀ s, m.db_error s = none) :
    ∃ data1, execute m data stmt = (data1, none)
      ∧ data1.db.journal = data.db.journal ++ [stmt] := by
  simp [execute, exec_accepted m _ _ hstore]

theorem ensure_resource_id_emits (m : TrackerDataManager) (data : TrackerData) (uri : String)
    (hstore : ∀ s, m.db_error s = none) :
    ∃ r em, ensure_resource_id m data uri = Except.ok r
      ∧ r.1.db.journal = data.db.journal ++ em
      ∧ em.flatMap SqlStmt.modified_bindings = [] := by
  have hq : (query_resource_id data uri).1.db = data.db := by
    simp only [query_resource_id]
    split_ifs <;> rfl
  have hn : (tracker_data_update_get_new_service_id m (query_resource_id data uri).1).1.db
      = data.db := by
    rw [← hq]
    simp only [tracker_data_update_get_new_service_id]
    split_ifs <;> rfl
  unfold ensure_resource_id
  simp only
  by_cases h1 : (query_resource_id data uri).2 = 0
  · rw [if_pos h1]
    by_cases h2 : (tracker_data_update_get_new_service_id m (query_resource_id data uri).1).2 > 0
    · rw [if_pos h2, exec_accepted m _ _ hstore]
      refine ⟨_, [SqlStmt.insert_resource
        [SqlValue.integer (tracker_data_update_get_new_service_id m
            (query_resource_id data uri).1).2,
         SqlValue.text uri,
         SqlValue.integer (if g_str_starts_with uri "urn:bnode:" then 1 else 0)]], rfl, ?_, rfl⟩
      simp only [hn]
    · rw [if_neg h2]
      exact ⟨_, [], rfl, by simp [hn], rfl⟩
  · rw [if_neg h1]
    exact ⟨_, [], rfl, by simp [hq], rfl⟩

theorem multi_value_statement_bindings (m : TrackerDataManager) (database table_name : String)
    (id : Int) (delete_value : Bool) (property : TrackerDataUpdateBufferProperty) :
    (multi_value_statement m database table_name id delete_value property).modified_bindings
      = [] := by
  simp only [multi_value_statement]
  split_ifs <;> rfl

theorem flush_multi_value_table_emits (m : TrackerDataManager) (database table_name : String)
    (id : Int) (delete_value : Bool) (hstore : ∀ s, m.db_error s = none)
    (properties : List TrackerDataUpdateBufferProperty) :
    ∀ data, ∃ data1 em,
      flush_multi_value_table m database table_name id delete_value properties data
        = (data1, none)
      ∧ data1.db.journal = data.db.journal ++ em
      ∧ em.flatMap SqlStmt.modified_bindings = [] := by
  induction properties with
  | nil =>
    intro data
    exact ⟨data, [], rfl, by simp, rfl⟩
  | cons property rest ih =>
    intro data
    obtain ⟨d1, h1, h2⟩ := execute_emits m data
      (multi_value_statement m database table_name id delete_value property) hstore
    obtain ⟨d2, em, h3, h4, h5⟩ := ih d1
    refine ⟨d2, multi_value_statement m database table_name id delete_value property :: em,
      by simp [flush_multi_value_table, h1, h3], ?_, ?_⟩
    · rw [h4, h2]
      simp
    · simp [List.flatMap_cons, multi_value_statement_bindings, h5]

theorem flush_single_value_table_emits (m : TrackerDataManager) (data : TrackerData)
    (resource : TrackerDataUpdateBufferResource) (table_name : String)
    (table : TrackerDataUpdateBufferTable) (hstore : ∀ s, m.db_error s = none)
    (hname : table_name ≠ "rdfs:Resource")
    (hclass : table.delete_row = true → table.class_.isSome = true) :
    ∃ data1 em, flush_single_value_table m data resource table_name table
        = Except.ok (data1, none)
      ∧ data1.db.journal = data.db.journal ++ em
      ∧ em.flatMap SqlStmt.modified_bindings = [] := by
  unfold flush_single_value_table
  simp only
  by_cases hd : table.delete_row = true
  · rw [if_pos hd]
    obtain ⟨cl, hcl⟩ := Option.isSome_iff_exists.mp (hclass hd)
    simp only [hcl]
    obtain ⟨r, em0, e1, e2, e3⟩ := ensure_resource_id_emits m data (tracker_class_get_uri m cl)
      hstore
    obtain ⟨d1, id1, c1⟩ := r
    simp only [e1]
    obtain ⟨d2, f1, f2⟩ := execute_emits m d1 (SqlStmt.delete_value (database_of resource.graph)
      "rdfs:Resource_rdf:type" "rdf:type" [SqlValue.integer resource.id, SqlValue.integer id1])
      hstore
    simp only [f1]
    obtain ⟨d3, g1, g2⟩ := execute_emits m d2 (SqlStmt.delete_id (database_of resource.graph)
      table_name [SqlValue.integer resource.id]) hstore
    refine ⟨d3, em0 ++ [SqlStmt.delete_value (database_of resource.graph)
        "rdfs:Resource_rdf:type" "rdf:type"
        [SqlValue.integer resource.id, SqlValue.integer id1],
      SqlStmt.delete_id (database_of resource.graph) table_name
        [SqlValue.integer resource.id]], by rw [g1], ?_, ?_⟩
    · rw [g2, f2, e2]
      simp
    · simp [List.flatMap_append, e3, SqlStmt.modified_bindings]
  · rw [if_neg hd]
    by_cases hi : table.insert = true
    · rw [if_pos hi, if_neg hname]
      obtain ⟨d1, f1, f2⟩ := execute_emits m data (SqlStmt.insert_row (database_of resource.graph)
        table_name (table.properties.map (fun p => p.name))
        ([SqlValue.integer resource.id] ++ single_value_params m table)) hstore
      exact ⟨d1, [SqlStmt.insert_row (database_of resource.graph)
        table_name (table.properties.map (fun p => p.name))
        ([SqlValue.integer resource.id] ++ single_value_params m table)], by rw [f1], f2,
        by simp [SqlStmt.modified_bindings, hname]⟩
    · rw [if_neg hi]
      obtain ⟨d1, f1, f2⟩ := execute_emits m data (SqlStmt.update_row (database_of resource.graph)
        table_name (table.properties.map (fun p => p.name))
        (single_value_params m table ++ [SqlValue.integer resource.id])) hstore
      exact ⟨d1, [SqlStmt.update_row (database_of resource.graph)
        table_name (table.properties.map (fun p => p.name))
        (single_value_params m table ++ [SqlValue.integer resource.id])], by rw [f1], f2,
        by simp [SqlStmt.modified_bindings, hname]⟩

theorem flush_tables_emits (m : TrackerDataManager) (resource : TrackerDataUpdateBufferResource)
    (hstore : ∀ s, m.db_error s = none)
    (tables : List (String × TrackerDataUpdateBufferTable)) :
    (∀ e ∈ tables, e.1 ≠ "rdfs:Resource") →
    (∀ e ∈ tables, e.2.delete_row = true → e.2.class_.isSome = true) →
    ∀ data, ∃ data1 em, flush_tables m resource tables data = Except.ok (data1, none)
      ∧ data1.db.journal = data.db.journal ++ em
      ∧ em.flatMap SqlStmt.modified_bindings = [] := by
  induction tables with
  | nil =>
    intro _ _ data
    exact ⟨data, [], rfl, by simp, rfl⟩
  | cons e rest ih =>
    intro hnames hclass data
    obtain ⟨table_name, table⟩ := e
    have ih' := ih (fun e he => hnames e (by simp [he])) (fun e he => hclass e (by simp [he]))
    simp only [flush_tables]
    by_cases hm : table.multiple_values = true
    · rw [if_pos hm]
      obtain ⟨d1, em1, h1, h2, h3⟩ := flush_multi_value_table_emits m
        (database_of resource.graph) table_name resource.id table.delete_value hstore
        table.properties data
      obtain ⟨d2, em2, g1, g2, g3⟩ := ih' d1
      refine ⟨d2, em1 ++ em2, by simp only [h1, g1], ?_, ?_⟩
      · rw [g2, h2, List.append_assoc]
      · simp [List.flatMap_append, h3, g3]
    · rw [if_neg hm]
      obtain ⟨d1, em1, h1, h2, h3⟩ := flush_single_value_table_emits m data resource table_name
        table hstore (hnames (table_name, table) (by simp))
        (hclass (table_name, table) (by simp))
      obtain ⟨d2, em2, g1, g2, g3⟩ := ih' d1
      refine ⟨d2, em1 ++ em2, by simp only [h1, g1], ?_, ?_⟩
      · rw [g2, h2, List.append_assoc]
      · simp [List.flatMap_append, h3, g3]

theorem filter_zip_other_columns (columns : List String) (params : List SqlValue)
    (h : ∀ c ∈ columns, c ≠ "nrl:modified") :
    (columns.zip params).filter (fun e => decide (e.1 = "nrl:modified")) = [] := by
  rw [List.filter_eq_nil_iff]
  intro e he
  obtain ⟨c, p⟩ := e
  have := (List.of_mem_zip he).1
  simpa using h c this

/-- The flush of a stamped resource on a store that accepts every statement
returns without error, and the statements it emits bind the stamp to
`nrl:modified` of `rdfs:Resource` once. -/
theorem resource_buffer_flush_stamped (m : TrackerDataManager) (data : TrackerData)
    (rb : TrackerDataUpdateBufferResource) (k : Int) (hst : Stamped k rb)
    (hstore : ∀ s, m.db_error s = none) :
    ∃ data1 em, tracker_data_resource_buffer_flush m data rb = Except.ok (data1, none)
      ∧ data1.db.journal = data.db.journal ++ em
      ∧ em.flatMap SqlStmt.modified_bindings = [SqlValue.integer k] := by
  obtain ⟨t, rest, e1, h1, h2, h3, h4, h5, ⟨others, h6, h7⟩, h8⟩ := hst.tables
  obtain ⟨d1, f1, f2⟩ := execute_emits m data (SqlStmt.update_row (database_of rb.graph)
    "rdfs:Resource" (t.properties.map (fun p => p.name))
    (single_value_params m t ++ [SqlValue.integer rb.id])) hstore
  obtain ⟨d2, em2, g1, g2, g3⟩ := flush_tables_emits m rb hstore rest h1 h8 d1
  have hj : (flush_fts m d2 rb).db.journal = d2.db.journal := by
    simp only [flush_fts]
    split_ifs <;> rfl
  refine ⟨flush_fts m d2 rb, SqlStmt.update_row (database_of rb.graph)
    "rdfs:Resource" (t.properties.map (fun p => p.name))
    (single_value_params m t ++ [SqlValue.integer rb.id]) :: em2, ?_, ?_, ?_⟩
  · simp only [tracker_data_resource_buffer_flush, e1, flush_tables, h2, Bool.false_eq_true,
      if_false, flush_single_value_table, h4, h3, f1, g1]
  · rw [hj, g2, f2]
    simp
  · rw [List.flatMap_cons, g3, List.append_nil]
    simp only [SqlStmt.modified_bindings, if_true, h6, List.map_cons, single_value_params, h5,
      Bool.false_eq_true, if_false, List.flatMap_cons, stamp, buffer_property,
      statement_bind_gvalue, List.cons_append, List.nil_append, List.zip_cons_cons,
      List.filter_cons, decide_True, if_true]
    rw [filter_zip_other_columns]
    · rfl
    · intro c hc
      obtain ⟨p, hp, rfl⟩ := List.mem_map.mp hc
      exact h7 p hp

/-- Within a transaction `get_transaction_modseq` keeps returning what it
returned first. -/
theorem get_transaction_modseq_again (data data' : TrackerData) (hdb : data'.db = data.db)
    (hont : data'.in_ontology_transaction = data.in_ontology_transaction)
    (hseq : data'.transaction_modseq = (get_transaction_modseq data).1.transaction_modseq) :
    (get_transaction_modseq data').2 = (get_transaction_modseq data).2 := by
  have hnext : tracker_data_update_get_next_modseq data'
      = tracker_data_update_get_next_modseq data := by
    simp only [tracker_data_update_get_next_modseq, hdb]
  simp only [get_transaction_modseq] at hseq ⊢
  by_cases h0 : data.transaction_modseq = 0
  · simp only [h0, if_true] at hseq ⊢
    by_cases h1 : data'.transaction_modseq = 0
    · simp only [h1, if_true, hont, hnext]
      split_ifs <;> rfl
    · simp only [h1, if_false, hont]
      split_ifs at hseq ⊢
      · rfl
      · exact hseq
  · simp only [h0, if_false] at hseq ⊢
    have h1 : data'.transaction_modseq ≠ 0 := by
      split_ifs at hseq <;> (rw [hseq]; exact h0)
    simp only [h1, if_false, hont]
    split_ifs at hseq ⊢
    · rfl
    · exact hseq

/-! ## Sequences of id allocations -/

/-- What `bytes_to_gvalue` produces: a value of type `G_TYPE_BYTES` for the
type `rdf:langString`, and a string, 64-bit integer, double or date-time value
for every other type. -/
theorem decoded_shape (m : TrackerDataManager) (data : TrackerData) (bytes : GBytes)
    (type : TrackerPropertyType) (v : GValue) (h : decoded m data bytes type = some v) :
    (type = TrackerPropertyType.LANGSTRING ∧ ∃ b, v = GValue.bytes b)
    ∨ (type ≠ TrackerPropertyType.LANGSTRING
        ∧ ((∃ s, v = GValue.string s) ∨ (∃ i, v = GValue.int64 i)
          ∨ (∃ d, v = GValue.double d) ∨ (∃ t o, v = GValue.date_time t o))) := by
  cases type <;> simp only [decoded, bytes_to_gvalue] at h
  · simp at h
  · simp at h; simp [← h]
  · simp at h; simp [← h]
  · simp at h; simp [← h]
  · simp at h; simp [← h]
  · cases hd : m.tracker_string_to_date (bytes.text ++ "T00:00:00Z") <;>
      (rw [hd] at h; simp at h; simp [← h])
  · cases hd : m.tracker_date_time_set_from_string bytes.text with
    | error e => rw [hd] at h; simp at h; simp [← h]
    | ok r =>
        obtain ⟨t, o⟩ := r
        rw [hd] at h; simp at h; simp [← h]
  · cases hd : ensure_resource_id m data bytes.text with
    | error e => rw [hd] at h; simp at h
    | ok r =>
        obtain ⟨d1, i, c⟩ := r
        rw [hd] at h; simp at h; simp [← h]
  · simp at h; simp [← h]

/-! ## Propagation of domain indexes -/

theorem ValuesGrow.of_predicates {a b : TrackerDataUpdateBufferResource}
    (h : b.predicates = a.predicates) : ValuesGrow a b :=
  ⟨fun _ vs hl => ⟨[], by simpa [h] using hl⟩, fun _ hl => by simpa [h] using hl⟩

theorem unvisited_mono (nodes : List TrackerResource) {vis vis' : List TrackerResource}
    (h : ∀ v ∈ vis, v ∈ vis') : unvisited nodes vis' ≤ unvisited nodes vis := by
  unfold unvisited
  induction nodes with
  | nil => exact Nat.le_refl _
  | cons n rest ih =>
    by_cases h2 : n ∈ vis'
    · rw [List.filter_cons_of_neg (by simpa using h2)]
      by_cases h1 : n ∈ vis
      · rw [List.filter_cons_of_neg (by simpa using h1)]
        exact ih
      · rw [List.filter_cons_of_pos (by simpa using h1)]
        exact Nat.le_succ_of_le ih
    · have h1 : n ∉ vis := fun hin => h2 (h n hin)
      rw [List.filter_cons_of_pos (by simpa using h2),
        List.filter_cons_of_pos (by simpa using h1)]
      exact Nat.succ_le_succ ih

theorem unvisited_visit (nodes : List TrackerResource) (vis : List TrackerResource)
    (r : TrackerResource) (hr : r ∈ nodes) (hv : r ∉ vis) :
    unvisited nodes (vis ++ [r]) < unvisited nodes vis := by
  induction nodes with
  | nil => simp at hr
  | cons n rest ih =>
    have hmono : unvisited rest (vis ++ [r]) ≤ unvisited rest vis :=
      unvisited_mono rest (fun v hv => List.mem_append_left _ hv)
    unfold unvisited at ih hmono ⊢
    by_cases hn : n = r
    · subst hn
      rw [List.filter_cons_of_neg (by simp), List.filter_cons_of_pos (by simpa using hv)]
      exact Nat.lt_succ_of_le hmono
    · have hr' : r ∈ rest := by
        rcases List.mem_cons.1 hr with h | h
        · exact absurd h.symm hn
        · exact h
      have hlt := ih hr'
      by_cases h1 : n ∈ vis
      · rw [List.filter_cons_of_neg (by simp [h1]), List.filter_cons_of_neg (by simpa using h1)]
        exact hlt
      · rw [List.filter_cons_of_pos (by simp [h1, hn]),
          List.filter_cons_of_pos (by simpa using h1)]
        exact Nat.succ_lt_succ hlt

theorem Before.append_right {t1 : List (TrackerResource × String)}
    {a b : TrackerResource × String} (h : Before t1 a b)
    (t2 : List (TrackerResource × String)) : Before (t1 ++ t2) a b := by
  obtain ⟨pre, post, he, ha⟩ := h
  exact ⟨pre, post ++ t2, by simp [he], ha⟩

theorem Before.append_left {t2 : List (TrackerResource × String)}
    {a b : TrackerResource × String} (h : Before t2 a b)
    (t1 : List (TrackerResource × String)) : Before (t1 ++ t2) a b := by
  obtain ⟨pre, post, he, ha⟩ := h
  exact ⟨t1 ++ pre, post, by simp [he], List.mem_append_right _ ha⟩

theorem Before.of_mem {t1 t2 : List (TrackerResource × String)}
    {a b : TrackerResource × String} (ha : a ∈ t1) (hb : b ∈ t2) : Before (t1 ++ t2) a b := by
  obtain ⟨s, t, he⟩ := List.append_of_mem hb
  exact ⟨t1 ++ s, t, by simp [he], List.mem_append_left _ ha⟩

theorem TypeFirst.append_first {heap : ResourceHeap} {t1 t2 : List (TrackerResource × String)}
    (h1 : TypeFirst heap t1)
    (h2 : ∀ r p, (r, p) ∈ t2 → p ≠ "rdf:type" →
      "rdf:type" ∈ (heap r).properties →
      (r, "rdf:type") ∈ t1 ∨ Before t2 (r, "rdf:type") (r, p)) :
    TypeFirst heap (t1 ++ t2) := by
  intro r p hmem hp ht
  rcases List.mem_append.1 hmem with hin1 | hin2
  · exact (h1 r p hin1 hp ht).append_right t2
  · rcases h2 r p hin2 hp ht with h | h
    · exact Before.of_mem h hin2
    · exact h.append_left t1

theorem NestedTrace.nil_nested (heap : ResourceHeap) (vis vis' : List TrackerResource) :
    NestedTrace heap vis vis' [] :=
  ⟨fun _ h => by simp at h, List.nodup_nil, fun _ _ h => by simp at h⟩

theorem NestedTrace.append_nested {heap : ResourceHeap} {vis vis1 vis2 : List TrackerResource}
    {n1 n2 : List (TrackerResource × String)}
    (h1 : NestedTrace heap vis vis1 n1) (h2 : NestedTrace heap vis1 vis2 n2)
    (hv : ∀ v ∈ vis, v ∈ vis1) (hv2 : ∀ v ∈ vis1, v ∈ vis2) :
    NestedTrace heap vis vis2 (n1 ++ n2) := by
  refine ⟨?_, ?_, ?_⟩
  · intro e he
    rcases List.mem_append.1 he with h | h
    · exact ⟨(h1.fresh e h).1, hv2 _ (h1.fresh e h).2⟩
    · exact ⟨fun hin => (h2.fresh e h).1 (hv _ hin), (h2.fresh e h).2⟩
  · refine List.nodup_append.2 ⟨h1.nodup, h2.nodup, ?_⟩
    intro e he1 he2
    exact (h2.fresh e he2).1 (h1.fresh e he1).2
  · exact TypeFirst.append_first h1.type_first
      (fun r p hmem hp ht => Or.inr (h2.type_first r p hmem hp ht))


/-! ## The claims on `rdf:type` -/

/-- The assertion of `cache_create_service_decomposed` on domain indexes can
fail: after the refused second value of `nie:comment` stayed in the value set,
making the resource an instance of a class indexing `nie:comment` aborts. -/
theorem create_service_assertion_abort :
    aborted_with (run_calls indexed_manager 10 none index_two_comments
        { data := example_data, error := none, val := () })
      = some Fatal.assertion_failed := by
  decide!

/-! ## The claims on single-valued properties -/

/-- C2 (counterexample): `nie:description` is single-valued and its value set
is `[v1]`; the insert of `v2` fails with `CONSTRAINT` but leaves `v2` in the
value set, and the next insert of `v2` on the same draft returns without error
with two values in the value set. -/
theorem single_valued_two_values_after_failed_insert :
    tracker_property_get_multiple_values example_manager 2 = false
    ∧ current_property_values described_photo 2 = some [GValue.string "v1"]
    ∧ returned_error (example_run describe_twice.dropLast) = some (some GError.CONSTRAINT)
    ∧ returned_error (example_run describe_twice) = some none
    ∧ (returned_data (example_run describe_twice)).map
        (fun d => current_property_values d 2)
      = some (some [GValue.string "v1", GValue.string "v2"]) := by
  decide!

/-- C2 (amended): for a single-valued property `P` whose value set is loaded in
the draft of `subject` with at most one element (and is not due for the
full-text reload), every sequence of insert and delete statement calls about
`subject` in which each call returns without error ends on the same draft with
at most one element in the value set of `P`. -/
theorem single_valued_kept_by_error_free_calls (m : TrackerDataManager) (P : TrackerProperty)
    (fuel : Nat) (graph : Option String) (subject : String) (calls : List Call)
    (data data' : TrackerData)
    (hsingle : tracker_property_get_multiple_values m P = false)
    (hcalls : ∀ c ∈ calls, c.is_statement_about subject = true)
    (hdraft : OnDraft graph subject data)
    (hvalues : Guarded m P (fun vs => vs.length ≤ 1) data)
    (hrun : run_error_free m fuel graph calls data = some data') :
    OnDraft graph subject data' ∧ Guarded m P (fun vs => vs.length ≤ 1) data' := by
  have hk := run_error_free_keeps m P (fun vs => vs.length ≤ 1)
    (fun vs v new _ _ h => by
      rcases h with h | h
      · rw [hsingle] at h
        cases h
      · exact h)
    (fun vs v new b hj h => Nat.le_trans (value_set_remove_value_length m vs v new b h) hj)
    fuel graph subject calls data data' hcalls hdraft hrun
  exact ⟨hdraft.of_keeps hk, hk.2 hvalues⟩

/-- C2 (witness): the amended statement applied to the photo `ex:a` with the
description `v1` and the script that deletes `v1` and inserts `v2`. -/
theorem single_valued_kept_by_error_free_calls_witness :
    tracker_property_get_multiple_values example_manager 2 = false
    ∧ (∀ c ∈ replace_description, c.is_statement_about "ex:a" = true)
    ∧ OnDraft none "ex:a" described_photo
    ∧ Guarded example_manager 2 (fun vs => vs.length ≤ 1) described_photo
    ∧ run_error_free example_manager 10 none replace_description described_photo
        = some ((run_error_free example_manager 10 none replace_description
            described_photo).getD example_data)
    ∧ OnDraft none "ex:a" ((run_error_free example_manager 10 none replace_description
        described_photo).getD example_data)
    ∧ Guarded example_manager 2 (fun vs => vs.length ≤ 1)
        ((run_error_free example_manager 10 none replace_description
          described_photo).getD example_data) :=
  have h1 : tracker_property_get_multiple_values example_manager 2 = false := by decide
  have h2 : ∀ c ∈ replace_description, c.is_statement_about "ex:a" = true := by decide
  have h3 : OnDraft none "ex:a" described_photo :=
    ⟨described_photo_rb, by decide!, by decide!, by decide!⟩
  have h4 : Guarded example_manager 2 (fun vs => vs.length ≤ 1) described_photo :=
    ⟨described_photo_rb, [GValue.string "v1"], by decide!, by decide!, by decide,
      Or.inr (Or.inl (by decide!))⟩
  have h5 : run_error_free example_manager 10 none replace_description described_photo
      = some ((run_error_free example_manager 10 none replace_description
          described_photo).getD example_data) := by decide!
  have h6 := single_valued_kept_by_error_free_calls example_manager 2 10 none "ex:a"
    replace_description described_photo _ h1 h2 h3 h4 h5
  ⟨h1, h2, h3, h4, h5, h6.1, h6.2⟩

/-! ## The claims on the domain check -/

/-- C3 (counterexample): after the type `nmm:Photo` of `ex:a` was deleted, the
domain of `nmm:caption` is not among the types of the draft, but the value set
of `nmm:caption` is still loaded (empty), and inserting a caption returns
without error and stages the value.  Inserting `rdf:type` itself is never
checked against the domain of `rdf:type` either. -/
theorem insert_outside_domain_succeeds_when_loaded :
    (returned_data (example_run caption_then_untype)).map
        (fun d => (decide (tracker_property_get_domain example_manager 7 ∈ current_types d),
          current_property_values d 7))
      = some (false, some [])
    ∧ returned_error (example_run
        (caption_then_untype ++ [Call.insert "ex:a" "nmm:caption" (plain "v2")])) = some none
    ∧ (returned_data (example_run
        (caption_then_untype ++ [Call.insert "ex:a" "nmm:caption" (plain "v2")]))).map
        (fun d => current_property_values d 7) = some (some [GValue.string "v2"])
    ∧ decide (tracker_property_get_domain example_manager 0 ∈ current_types new_draft) = false
    ∧ returned_error (tracker_data_insert_statement example_manager 10 new_draft none "ex:a"
        RDF_TYPE_URI (some (plain "nmm:Photo"))) = some none := by
  decide!

/-- C3 (amended): in a transaction, on the draft of `subject`, for every
property `property` other than `rdf:type` whose domain class is not among the
types of the draft and whose value set is not loaded in the draft,
`tracker_data_insert_statement` returns the error `CONSTRAINT` and changes
nothing but the `has_persistent` flag. -/
theorem insert_outside_domain_fails_when_unloaded (m : TrackerDataManager) (fuel : Nat)
    (data : TrackerData) (rb : TrackerDataUpdateBufferResource) (graph : Option String)
    (subject predicate : String) (property : TrackerProperty) (object : GBytes)
    (htx : data.in_transaction = true)
    (hrb : data.resource_buffer = some rb) (hg : rb.graph = graph) (hs : rb.subject = subject)
    (hp : tracker_ontologies_get_property_by_uri m predicate = some property)
    (hnt : property ≠ m.ontologies.rdf_type)
    (hcache : assoc_lookup property rb.predicates = none)
    (hdom : tracker_property_get_domain m property ∉ rb.types) :
    tracker_data_insert_statement m (fuel + 1) data graph subject predicate (some object)
      = Except.ok { data := (set_has_persistent data),
                    error := some GError.CONSTRAINT, val := () } := by
  have hsw := resource_buffer_switch_same m (set_has_persistent data) rb graph subject 0
    (by simp [hrb]) hg hs
  have hold := get_old_property_values_not_in_domain m (set_has_persistent data) rb
    property (by simp [hrb]) hcache hdom
  by_cases hty : tracker_property_get_data_type m property = TrackerPropertyType.RESOURCE
  · simp [tracker_data_insert_statement, tracker_data_insert_statement_with_uri, htx, hp, hty,
      hsw, hnt, cache_insert_metadata_decomposed, hold]
  · simp [tracker_data_insert_statement, tracker_data_insert_statement_with_string, htx, hp, hty,
      hsw, cache_insert_metadata_decomposed, hold]

/-- C3 (witness): the amended statement applied to a new draft without types
and the property `nmm:caption`, whose domain is `nmm:Photo`. -/
theorem insert_outside_domain_fails_when_unloaded_witness :
    new_draft.in_transaction = true
    ∧ new_draft.resource_buffer = some new_draft_rb
    ∧ new_draft_rb.graph = none ∧ new_draft_rb.subject = "ex:a"
    ∧ tracker_ontologies_get_property_by_uri example_manager "nmm:caption" = some 7
    ∧ (7 : TrackerProperty) ≠ example_manager.ontologies.rdf_type
    ∧ assoc_lookup 7 new_draft_rb.predicates = none
    ∧ tracker_property_get_domain example_manager 7 ∉ new_draft_rb.types
    ∧ tracker_data_insert_statement example_manager (9 + 1) new_draft none "ex:a" "nmm:caption"
        (some (plain "v1"))
      = Except.ok { data := (set_has_persistent new_draft),
                    error := some GError.CONSTRAINT, val := () } :=
  ⟨rfl, rfl, rfl, rfl, by decide, by decide, rfl, by decide,
    insert_outside_domain_fails_when_unloaded example_manager 9 new_draft new_draft_rb none
      "ex:a" "nmm:caption" 7 (plain "v1") rfl rfl rfl rfl (by decide) (by decide) rfl
      (by decide)⟩

/-! ## The claims on `tracker_data_delete_all` and the resource writer -/

/-- C7 (code at the failing input): `ex:a` has the stored keywords `a` and `b`;
`tracker_data_delete_all` for `nie:keyword` returns without error, but the
value set still holds `b`, only the delete of `a` is staged, and after the
flush the store still holds `b`. -/
theorem delete_all_skips_every_second_value :
    (returned_data (example_run (two_keywords ++ [Call.flush]))).map
        (fun d => stored_column d.db "main" "nie:InformationElement_nie:keyword" 100001
          "nie:keyword")
      = some [SqlValue.text "a", SqlValue.text "b"]
    ∧ returned_error (example_run
        (two_keywords ++ [Call.flush, Call.delete_all "ex:a" "nie:keyword"])) = some none
    ∧ (returned_data (example_run
        (two_keywords ++ [Call.flush, Call.delete_all "ex:a" "nie:keyword"]))).map
        (fun d => (current_property_values d 3,
          staged_deletes d "nie:InformationElement_nie:keyword"))
      = some (some [GValue.string "b"], some [some (GValue.string "a")])
    ∧ (returned_data (example_run
        (two_keywords ++ [Call.flush, Call.delete_all "ex:a" "nie:keyword", Call.flush]))).map
        (fun d => stored_column d.db "main" "nie:InformationElement_nie:keyword" 100001
          "nie:keyword")
      = some [SqlValue.text "b"] := by
  decide!

/-- C8 (code at the failing input): writing the photo `ex:a` with
`nfo:interlaceMode` true succeeds; writing it again in the same batch with
`nfo:interlaceMode` false and the overwrite flag fails with `CONSTRAINT`.  The
stored boolean `1` is printed as `"1"` by `bytes_from_gvalue`, which
`bytes_to_gvalue` reads as false, so that the reset deletes nothing. -/
theorem overwrite_of_boolean_fails :
    written_error (update_resources example_manager example_heap 10 none [0] example_data none)
      = some none
    ∧ (written_data (update_resources example_manager example_heap 10 none [0] example_data
        none)).map (fun d => current_property_values d 4) = some (some [GValue.int64 1])
    ∧ written_error (update_resources example_manager example_heap 10 none [0, 1] example_data
        none) = some (some GError.CONSTRAINT)
    ∧ (bytes_from_gvalue example_manager no_resources example_data (GValue.int64 1)
        none).toOption.map (fun r => r.2.2) = some (some (plain "1"))
    ∧ (bytes_to_gvalue example_manager example_data (plain "1")
        TrackerPropertyType.BOOLEAN).toOption.map (fun r => r.val)
      = some (some (GValue.int64 0)) := by
  decide!

/-- C10 (code at the failing input): with one blank node map,
`get_bnode_for_resource` asked twice for the same resource labelled `_:bnode`
mints two identifiers, and two resources labelled `_:bnode` written with a
shared map become two subjects. -/
theorem same_label_yields_two_blank_nodes :
    bnodes_for_resources example_manager example_heap [2, 2] (some []) example_data
      = ["urn:bnode:0", "urn:bnode:1"]
    ∧ (example_heap 2).identifier = some "_:bnode"
    ∧ (example_heap 3).identifier = some "_:bnode"
    ∧ written_error (update_resources example_manager example_heap 10 none [2, 3] example_data
        (some [])) = some none
    ∧ (written_data (update_resources example_manager example_heap 10 none [2, 3] example_data
        (some []))).map buffered_subjects = some ["urn:bnode:0", "urn:bnode:1"] := by
  decide!

/-- C5 (code at the failing input): `nmm:Photo ⊑ nfo:Media ⊑
nie:InformationElement`.  When the types of `ex:a` were flushed to the store,
deleting `(ex:a, rdf:type, nie:InformationElement)` removes the three classes,
stages three row deletes and dispatches three delete callbacks.  When
`rdf:type nmm:Photo` was inserted in the same transaction and not flushed, the
same delete removes `nie:InformationElement` only: the sub-classes are looked
up in the store, which has no `rdf:type` row of the subject yet. -/
theorem delete_type_misses_unflushed_sub_classes :
    (returned_data (example_run (make_photo ++ [Call.flush,
        Call.delete "ex:a" RDF_TYPE_URI (plain "nie:InformationElement")]))).map
        (fun d => (current_types d, staged_row_deletes d, deleted_class_ids d))
      = some ([0], [some false, some true, some true, some true], [4, 3, 2])
    ∧ (returned_data (example_run make_photo)).map current_types = some [0, 1, 2, 3]
    ∧ returned_error (example_run (make_photo ++
        [Call.delete "ex:a" RDF_TYPE_URI (plain "nie:InformationElement")])) = some none
    ∧ (returned_data (example_run (make_photo ++
        [Call.delete "ex:a" RDF_TYPE_URI (plain "nie:InformationElement")]))).map
        (fun d => (current_types d, staged_row_deletes d, deleted_class_ids d))
      = some ([0, 2, 3], [some false, some true, some false, some false], [2]) := by
  decide!

/-- C6 (counterexample): the value set of `nie:description` holds `v1`, but its
super-property `nie:comment` holds no value any more; inserting
`(ex:a, nie:description, v1)` again returns without error, appends a write of
`nie:comment`, changes the value set of `nie:comment` and dispatches an insert
callback. -/
theorem insert_of_present_value_fans_out :
    (returned_data (example_run description_without_comment)).map
        (fun d => (current_property_values d 2, current_property_values d 1,
          (staged_in d "nie:InformationElement").length, d.insert_log.length))
      = some (some [GValue.string "v1"], some [], 3, 5)
    ∧ returned_error (example_run (description_without_comment
        ++ [Call.insert "ex:a" "nie:description" (plain "v1")])) = some none
    ∧ (returned_data (example_run (description_without_comment
        ++ [Call.insert "ex:a" "nie:description" (plain "v1")]))).map
        (fun d => (current_property_values d 2, current_property_values d 1,
          (staged_in d "nie:InformationElement").length, d.insert_log.length))
      = some (some [GValue.string "v1"], some [GValue.string "v1"], 4, 6) := by
  decide!

/-- C6 (amended): in a transaction, on the draft of `subject`, for a property
`P` other than `rdf:type` and an object whose decoded value is equal to an
element of the value set of `P`, provided that the fan-out finds nothing to do
either (`settled`: every single-valued super-property holds a value, every
multi-valued one holds the decoded object, and decoding does not touch the
state), `tracker_data_insert_statement` returns without error and leaves the
state as it was up to the `has_persistent` flag: no write is staged, no value
set changes and no insert callback is dispatched. -/
theorem insert_of_present_value_is_no_op (m : TrackerDataManager) (fuel : Nat)
    (data : TrackerData) (rb : TrackerDataUpdateBufferResource) (graph : Option String)
    (subject predicate : String) (P : TrackerProperty) (object : GBytes)
    (htx : data.in_transaction = true)
    (hrb : data.resource_buffer = some rb) (hg : rb.graph = graph) (hs : rb.subject = subject)
    (hp : tracker_ontologies_get_property_by_uri m predicate = some P)
    (hnt : P ≠ m.ontologies.rdf_type)
    (hsettled : settled m (set_has_persistent data) object fuel P = true) :
    tracker_data_insert_statement m fuel data graph subject predicate (some object)
      = Except.ok { data := set_has_persistent data, error := none, val := () } := by
  have hsw := resource_buffer_switch_same m (set_has_persistent data) rb graph subject 0
    (by simp [hrb]) hg hs
  have hins := settled_no_op m (set_has_persistent data) object fuel P hsettled
  by_cases hty : tracker_property_get_data_type m P = TrackerPropertyType.RESOURCE
  · simp [tracker_data_insert_statement, tracker_data_insert_statement_with_uri, htx, hp, hty,
      hsw, hnt, hins]
  · simp [tracker_data_insert_statement, tracker_data_insert_statement_with_string, htx, hp,
      hty, hsw, hins]

/-- C6 (witness): the amended statement applied to the photo `ex:a` with the
description `v1` and the insert of the description `v1`. -/
theorem insert_of_present_value_is_no_op_witness :
    described_photo.in_transaction = true
    ∧ described_photo.resource_buffer = some described_photo_rb
    ∧ described_photo_rb.graph = none ∧ described_photo_rb.subject = "ex:a"
    ∧ tracker_ontologies_get_property_by_uri example_manager "nie:description" = some 2
    ∧ (2 : TrackerProperty) ≠ example_manager.ontologies.rdf_type
    ∧ settled example_manager (set_has_persistent described_photo) (plain "v1") 10 2 = true
    ∧ assoc_lookup 2 described_photo_rb.predicates = some [GValue.string "v1"]
    ∧ tracker_data_insert_statement example_manager 10 described_photo none "ex:a"
          "nie:description" (some (plain "v1"))
        = Except.ok { data := set_has_persistent described_photo, error := none, val := () } :=
  have h1 : described_photo.in_transaction = true := by decide!
  have h2 : described_photo.resource_buffer = some described_photo_rb := by decide!
  have h3 : described_photo_rb.graph = none := by decide!
  have h4 : described_photo_rb.subject = "ex:a" := by decide!
  have h5 : tracker_ontologies_get_property_by_uri example_manager "nie:description" = some 2 := by
    decide
  have h6 : (2 : TrackerProperty) ≠ example_manager.ontologies.rdf_type := by decide
  have h7 : settled example_manager (set_has_persistent described_photo) (plain "v1") 10 2
      = true := by decide!
  ⟨h1, h2, h3, h4, h5, h6, h7, by decide!,
    insert_of_present_value_is_no_op example_manager 10 described_photo described_photo_rb none
      "ex:a" "nie:description" 2 (plain "v1") h1 h2 h3 h4 h5 h6 h7⟩

/-! ## The claim on `tracker_data_update_statement` -/

/-- C12 (code at the failing input): the boolean `true` is decoded to the
integer 1, which `bytes_from_gvalue` encodes as `"1"` and `bytes_to_gvalue`
decodes to 0 for the type boolean; the resource id 100001 of `ex:a` is encoded
as `"100001"`, which is decoded for the type resource as the name of another
resource (id 100002); a date-time value and a language-tagged string are not
encoded at all.  An integer comes back as it was. -/
theorem decode_of_encode_differs :
    decoded example_manager example_data (plain "true") TrackerPropertyType.BOOLEAN
      = some (GValue.int64 1)
    ∧ decode_of_encode example_manager example_data (GValue.int64 1)
        TrackerPropertyType.BOOLEAN = some (GValue.int64 0)
    ∧ value_equal example_manager (GValue.int64 0) (GValue.int64 1) = Except.ok false
    ∧ decoded example_manager stored_codec (plain "ex:a") TrackerPropertyType.RESOURCE
      = some (GValue.int64 100001)
    ∧ decode_of_encode example_manager stored_codec (GValue.int64 100001)
        TrackerPropertyType.RESOURCE = some (GValue.int64 100002)
    ∧ decode_of_encode example_manager stored_codec (GValue.date_time ⟨0⟩ 0)
        TrackerPropertyType.DATETIME = none
    ∧ decode_of_encode example_manager stored_codec (GValue.bytes (tagged "a" "en"))
        TrackerPropertyType.LANGSTRING = none
    ∧ decode_of_encode example_manager stored_codec (GValue.int64 7)
        TrackerPropertyType.INTEGER = some (GValue.int64 7) := by
  decide!

/-- C13 (code at the failing input): `bytes_to_gvalue` decodes an object of a
property of type `rdf:langString` to a value of type `G_TYPE_BYTES`, for which
`value_equal` has no case: `value_set_add_value` on a set that holds such a
value does not return but runs into `g_assert_not_reached`, and so does the
insert of a second value of a `rdf:langString` property. -/
theorem add_value_aborts_on_language_strings :
    decoded langstring_manager example_data (tagged "a" "en") TrackerPropertyType.LANGSTRING
      = some (GValue.bytes (tagged "a" "en"))
    ∧ aborted_with (value_set_add_value example_manager [GValue.bytes (tagged "a" "en")]
        (some (GValue.bytes (tagged "a" "en")))) = some Fatal.assertion_failed
    ∧ aborted_with (value_set_add_value example_manager [GValue.bytes (tagged "a" "en")]
        (some (GValue.bytes (tagged "b" "de")))) = some Fatal.assertion_failed
    ∧ returned_error (run_calls langstring_manager 10 none
        (make_photo ++ [Call.insert "ex:a" "nie:keyword" (tagged "a" "en")])
        { data := example_data, error := none, val := () }) = some none
    ∧ aborted_with (run_calls langstring_manager 10 none
        (make_photo ++ [Call.insert "ex:a" "nie:keyword" (tagged "a" "en"),
          Call.insert "ex:a" "nie:keyword" (tagged "b" "de")])
        { data := example_data, error := none, val := () }) = some Fatal.assertion_failed := by
  decide!

/-! ## The claims on null updates and on the start of a transaction -/

/-- C17: in a transaction, `tracker_data_update_statement` with a null object
and a predicate that names `rdf:type` returns the error `UNSUPPORTED` and the
state it was called on: nothing is flushed, selected or staged. -/
theorem update_of_type_with_null_is_unsupported (m : TrackerDataManager) (fuel : Nat)
    (data : TrackerData) (graph : Option String) (subject predicate : String)
    (htx : data.in_transaction = true)
    (hp : tracker_ontologies_get_property_by_uri m predicate = some m.ontologies.rdf_type) :
    tracker_data_update_statement m fuel data graph subject predicate none
      = Except.ok { data := data, error := some GError.UNSUPPORTED, val := () } := by
  simp [tracker_data_update_statement, htx, hp]

/-- C17 (witness): the statement applied to the photo `ex:a` with a staged
description, in the default graph and in a named graph. -/
theorem update_of_type_with_null_is_unsupported_witness :
    described_photo.in_transaction = true
    ∧ tracker_ontologies_get_property_by_uri example_manager RDF_TYPE_URI
      = some example_manager.ontologies.rdf_type
    ∧ tracker_data_update_statement example_manager 10 described_photo (some "ex:g") "ex:b"
        RDF_TYPE_URI none
      = Except.ok { data := described_photo, error := some GError.UNSUPPORTED, val := () } :=
  ⟨by decide!, by decide,
    update_of_type_with_null_is_unsupported example_manager 10 described_photo (some "ex:g")
      "ex:b" RDF_TYPE_URI (by decide!) (by decide)⟩

/-- Without enough space `tracker_data_begin_transaction` returns `NO_SPACE`
and the state it was called on. -/
theorem begin_transaction_without_space (m : TrackerDataManager) (data : TrackerData)
    (hidle : data.in_transaction = false) (hspace : m.has_enough_space = false) :
    tracker_data_begin_transaction m data
      = { data := data, error := some GError.NO_SPACE, val := () } := by
  simp [tracker_data_begin_transaction, hidle, hspace]

/-- C18 (code at the failing input): without enough space
`tracker_data_begin_transaction` fails with `NO_SPACE` and leaves the state as
it was, and `tracker_data_begin_ontology_transaction` fails with `NO_SPACE`
too, but leaves `in_ontology_transaction` set outside a transaction; the next
ordinary transaction then runs as an ontology transaction, in which the
modification sequence reads 1 instead of 5. -/
theorem begin_ontology_transaction_keeps_flag_on_failure :
    example_idle.in_transaction = false ∧ example_idle.in_ontology_transaction = false
    ∧ (tracker_data_begin_transaction full_disk_manager example_idle).error
      = some GError.NO_SPACE
    ∧ (tracker_data_begin_transaction full_disk_manager example_idle).data = example_idle
    ∧ (tracker_data_begin_ontology_transaction full_disk_manager example_idle).error
      = some GError.NO_SPACE
    ∧ (tracker_data_begin_ontology_transaction full_disk_manager
        example_idle).data.in_transaction = false
    ∧ (tracker_data_begin_ontology_transaction full_disk_manager
        example_idle).data.in_ontology_transaction = true
    ∧ (tracker_data_begin_transaction example_manager
        (tracker_data_begin_ontology_transaction full_disk_manager
          example_idle).data).data.in_ontology_transaction = true
    ∧ (get_transaction_modseq (tracker_data_begin_transaction example_manager
        (tracker_data_begin_ontology_transaction full_disk_manager example_idle).data).data).2
      = 1
    ∧ (get_transaction_modseq (tracker_data_begin_transaction example_manager
        example_idle).data).2 = 5 := by
  decide!

/-! ## The claims on commit and rollback -/

/-- The modification sequence after `tracker_data_commit_transaction` returned
without error, in terms of the state the flush left. -/
theorem commit_transaction_result (m : TrackerDataManager) (data data' : TrackerData)
    (htx : data.in_transaction = true)
    (hdata : returned_data (tracker_data_commit_transaction m data) = some data')
    (herr : returned_error (tracker_data_commit_transaction m data) = some none) :
    ∃ fl : Ret Unit, tracker_data_update_buffer_flush m data = Except.ok fl
      ∧ data'.transaction_modseq
        = (if (get_transaction_modseq fl.data).1.has_persistent
              && !(get_transaction_modseq fl.data).1.in_ontology_transaction
           then (get_transaction_modseq fl.data).1.transaction_modseq + 1
           else (get_transaction_modseq fl.data).1.transaction_modseq) := by
  unfold tracker_data_commit_transaction at hdata herr
  simp only [htx, Bool.not_true, Bool.false_eq_true, if_false] at hdata herr
  cases hx : tracker_data_update_buffer_flush m data with
  | error e => simp [hx, returned_data] at hdata
  | ok fl =>
    refine ⟨fl, rfl, ?_⟩
    simp only [hx] at hdata herr
    cases he : fl.error with
    | some e => simp [he, returned_error] at herr
    | none =>
      simp only [he] at hdata herr
      cases hc : m.end_db_transaction_error with
      | some e => simp [hc, returned_error] at herr
      | none =>
        simp only [hc, returned_data, Option.some.injEq] at hdata
        rw [← hdata]
        simp only [tracker_data_dispatch_commit_statement_callbacks, get_transaction_modseq]
        split <;> split_ifs <;> rfl

/-- C19: when the modification sequence is initialised to `k`, a call of
`tracker_data_commit_transaction` in a transaction that returns without error
leaves it at `k + 1` if and only if `has_persistent` is set and the
transaction is no ontology transaction, and at `k` otherwise; in an ontology
transaction `get_transaction_modseq` returns 1 whatever the modification
sequence is. -/
theorem commit_transaction_modseq (m : TrackerDataManager) (data data' : TrackerData) (k : Int)
    (htx : data.in_transaction = true)
    (hk : data.transaction_modseq = k) (hk0 : k ≠ 0)
    (hdata : returned_data (tracker_data_commit_transaction m data) = some data')
    (herr : returned_error (tracker_data_commit_transaction m data) = some none) :
    (data'.transaction_modseq = k + 1
      ↔ (data.has_persistent = true ∧ data.in_ontology_transaction = false))
    ∧ (¬ (data.has_persistent = true ∧ data.in_ontology_transaction = false) →
        data'.transaction_modseq = k)
    ∧ ∀ d : TrackerData, d.in_ontology_transaction = true → (get_transaction_modseq d).2 = 1 := by
  obtain ⟨fl, hfl, hres⟩ := commit_transaction_result m data data' htx hdata herr
  have hf := update_buffer_flush_flushed m data hfl
  have hg := get_transaction_modseq_flushed fl.data
  have hall := hf.trans_flushed hg
  have hm : (get_transaction_modseq fl.data).1.transaction_modseq = k := by
    rw [hall.transaction_modseq (by rw [hk]; exact hk0), hk]
  rw [hall.has_persistent, hall.in_ontology_transaction, hm] at hres
  refine ⟨?_, ?_, ?_⟩
  · constructor
    · intro h
      by_contra hn
      have : (data.has_persistent && !data.in_ontology_transaction) = false := by
        cases hp : data.has_persistent <;> cases ho : data.in_ontology_transaction <;>
          simp_all
      rw [this] at hres
      simp only [Bool.false_eq_true, if_false] at hres
      omega
    · rintro ⟨hp, ho⟩
      rw [hres, hp, ho]
      rfl
  · intro hn
    have : (data.has_persistent && !data.in_ontology_transaction) = false := by
      cases hp : data.has_persistent <;> cases ho : data.in_ontology_transaction <;>
        simp_all
    rw [hres, this]
    rfl
  · intro d hd
    simp only [get_transaction_modseq]
    split_ifs <;> simp_all

/-- C19 (witness): the statement applied to the commit of the transaction that
made `ex:a` a photo with a description; the modification sequence goes from 1
to 2. -/
theorem commit_transaction_modseq_witness :
    described_photo.in_transaction = true
    ∧ described_photo.transaction_modseq = 1
    ∧ described_photo.has_persistent = true
    ∧ described_photo.in_ontology_transaction = false
    ∧ returned_data (tracker_data_commit_transaction example_manager described_photo)
      = some committed_photo
    ∧ returned_error (tracker_data_commit_transaction example_manager described_photo)
      = some none
    ∧ committed_photo.transaction_modseq = 2
    ∧ ((committed_photo.transaction_modseq = 1 + 1
        ↔ (described_photo.has_persistent = true
          ∧ described_photo.in_ontology_transaction = false))
      ∧ (¬ (described_photo.has_persistent = true
            ∧ described_photo.in_ontology_transaction = false) →
          committed_photo.transaction_modseq = 1)
      ∧ ∀ d : TrackerData, d.in_ontology_transaction = true →
          (get_transaction_modseq d).2 = 1) :=
  ⟨by decide!, by decide!, by decide!, by decide!, by decide!, by decide!, by decide!,
    commit_transaction_modseq example_manager described_photo committed_photo 1
      (by decide!) (by decide!) (by decide) (by decide!) (by decide!)⟩

theorem rollback_transaction_result (data : TrackerData) (htx : data.in_transaction = true) :
    (tracker_data_rollback_transaction data).in_transaction = false
    ∧ (tracker_data_rollback_transaction data).in_ontology_transaction = false
    ∧ (tracker_data_rollback_transaction data).update_buffer.graphs = []
    ∧ (tracker_data_rollback_transaction data).update_buffer.resource_cache = []
    ∧ (tracker_data_rollback_transaction data).resource_buffer = none
    ∧ (tracker_data_rollback_transaction data).rollback_log
      = data.rollback_log ++ data.rollback_callbacks.getD []
    ∧ (tracker_data_rollback_transaction data).commit_log = data.commit_log := by
  simp only [tracker_data_rollback_transaction, htx, Bool.not_true, Bool.false_eq_true,
    if_false, tracker_data_dispatch_rollback_statement_callbacks,
    tracker_data_update_buffer_clear]
  cases h : data.rollback_callbacks <;> simp

/-- C11: when `tracker_data_begin_transaction` reported no error and the
executor of the update returned inside the open transaction, and either the
executor reported an error, or the flush of `tracker_data_commit_transaction`
or its COMMIT reported one, then `update_sparql` returns that error and no
blank nodes, and in the state it returns the engine is neither in a transaction
nor in an ontology transaction, the buffer has no graph, no current resource
and an empty resource cache, every rollback callback has been dispatched once
and no commit callback has been dispatched. -/
theorem update_sparql_rolls_back_on_error {GVariant : Type} (m : TrackerDataManager)
    (tracker_sparql_execute_update : String → Bool → TrackerData → Run (Ret (Option GVariant)))
    (data d1 : TrackerData) (update : String) (blank : Bool) (e : GError)
    (hbegin : (tracker_data_begin_transaction m data).error = none)
    (hdata : returned_data (tracker_sparql_execute_update update blank
        (tracker_data_begin_transaction m data).data) = some d1)
    (hopen : d1.in_transaction = true)
    (hfail : returned_error (tracker_sparql_execute_update update blank
          (tracker_data_begin_transaction m data).data) = some (some e)
      ∨ (returned_error (tracker_sparql_execute_update update blank
            (tracker_data_begin_transaction m data).data) = some none
          ∧ returned_error (tracker_data_update_buffer_flush m d1) = some (some e))
      ∨ (returned_error (tracker_sparql_execute_update update blank
            (tracker_data_begin_transaction m data).data) = some none
          ∧ returned_error (tracker_data_update_buffer_flush m d1) = some none
          ∧ m.end_db_transaction_error = some e)) :
    ∃ data', update_sparql m tracker_sparql_execute_update data update blank
        = Except.ok { data := data', error := some e, val := none }
      ∧ data'.in_transaction = false ∧ data'.in_ontology_transaction = false
      ∧ data'.update_buffer.graphs = [] ∧ data'.update_buffer.resource_cache = []
      ∧ data'.resource_buffer = none
      ∧ data'.rollback_log = d1.rollback_log ++ d1.rollback_callbacks.getD []
      ∧ data'.commit_log = d1.commit_log := by
  cases hx : tracker_sparql_execute_update update blank
      (tracker_data_begin_transaction m data).data with
  | error x => simp [hx, returned_data] at hdata
  | ok r =>
    simp only [hx, returned_data, Option.some.injEq] at hdata
    simp only [hx, returned_error, Option.some.injEq] at hfail
    subst hdata
    rcases hfail with he | ⟨he, hfl⟩ | ⟨he, hfl, hc⟩
    · refine ⟨tracker_data_rollback_transaction r.data, ?_, rollback_transaction_result _ hopen⟩
      simp [update_sparql, hbegin, hx, he]
    · cases hy : tracker_data_update_buffer_flush m r.data with
      | error x => simp [hy] at hfl
      | ok fl =>
        simp only [hy, Option.some.injEq] at hfl
        have hf := update_buffer_flush_flushed m r.data hy
        have hres := rollback_transaction_result fl.data (by rw [hf.in_transaction]; exact hopen)
        rw [hf.rollback_log, hf.rollback_callbacks, hf.commit_log] at hres
        refine ⟨tracker_data_rollback_transaction fl.data, ?_, hres⟩
        simp [update_sparql, hbegin, hx, he, tracker_data_commit_transaction, hopen, hy, hfl]
    · cases hy : tracker_data_update_buffer_flush m r.data with
      | error x => simp [hy] at hfl
      | ok fl =>
        simp only [hy, Option.some.injEq] at hfl
        have hf := update_buffer_flush_flushed m r.data hy
        have hres := rollback_transaction_result
          { fl.data with
            db := { fl.data.db with
              calls := fl.data.db.calls ++ [StoreCall.end_db_transaction] } }
          (by show fl.data.in_transaction = true; rw [hf.in_transaction]; exact hopen)
        refine ⟨_, ?_, hres.1, hres.2.1, hres.2.2.1, hres.2.2.2.1, hres.2.2.2.2.1, ?_, ?_⟩
        · simp [update_sparql, hbegin, hx, he, tracker_data_commit_transaction, hopen, hy, hfl,
            hc]
        · rw [hres.2.2.2.2.2.1]
          show fl.data.rollback_log ++ fl.data.rollback_callbacks.getD [] = _
          rw [hf.rollback_log, hf.rollback_callbacks]
        · rw [hres.2.2.2.2.2.2]
          exact hf.commit_log

/-- C11 (witness): the statement applied to an update whose executor makes
`ex:a` a photo and then reports a parse error, on a state with one rollback
callback. -/
theorem update_sparql_rolls_back_on_error_witness :
    (tracker_data_begin_transaction example_manager watched_idle).error = none
    ∧ returned_data (failing_update malformed_update false
        (tracker_data_begin_transaction example_manager watched_idle).data) = some failed_update
    ∧ failed_update.in_transaction = true
    ∧ failed_update.update_buffer.graphs.length = 1
    ∧ failed_update.rollback_callbacks = some [{ callback := 4, user_data := 0 }]
    ∧ failed_update.rollback_log = []
    ∧ ∃ data', update_sparql example_manager failing_update watched_idle
          malformed_update false
        = Except.ok { data := data', error := some GError.PARSE, val := none }
      ∧ data'.in_transaction = false ∧ data'.in_ontology_transaction = false
      ∧ data'.update_buffer.graphs = [] ∧ data'.update_buffer.resource_cache = []
      ∧ data'.resource_buffer = none
      ∧ data'.rollback_log
        = failed_update.rollback_log ++ failed_update.rollback_callbacks.getD []
      ∧ data'.commit_log = failed_update.commit_log :=
  ⟨by decide!, by decide!, by decide!, by decide!, by decide!, by decide!,
    update_sparql_rolls_back_on_error example_manager failing_update watched_idle failed_update
      malformed_update false GError.PARSE
      (by decide!) (by decide!) (by decide!) (Or.inl (by decide!))⟩

/-! ## The claims on terms outside the ontology and on type errors -/

/-- C16: in a transaction, for a predicate that names the property `P`, and
collaborators (date parsers, graph manager) that raise neither `TYPE` nor
`UNKNOWN_PROPERTY` themselves: `tracker_data_insert_statement_with_uri`
returns `TYPE` if and only if `P` is not resource-typed, and then leaves the
state as it was; `tracker_data_insert_statement_with_string` returns `TYPE`
if and only if `P` is resource-typed, and then leaves the state as it was;
`tracker_data_insert_statement` never returns `TYPE`; and whenever one of the
three, called with any predicate, returns `TYPE` or `UNKNOWN_PROPERTY`, the
state it returns is the state it was called on. -/
theorem type_errors_of_insert_statements (m : TrackerDataManager) (fuel : Nat)
    (data : TrackerData) (graph : Option String) (subject predicate : String)
    (object : GBytes) (P : TrackerProperty)
    (htx : data.in_transaction = true)
    (hp : tracker_ontologies_get_property_by_uri m predicate = some P)
    (hcollab : ∀ e, CollaboratorError m e → e ≠ GError.TYPE ∧ e ≠ GError.UNKNOWN_PROPERTY) :
    (tracker_property_get_data_type m P ≠ TrackerPropertyType.RESOURCE →
      tracker_data_insert_statement_with_uri m fuel data graph subject predicate object
        = Except.ok { data := data, error := some GError.TYPE, val := () })
    ∧ (∀ r, tracker_data_insert_statement_with_uri m fuel data graph subject predicate object
          = Except.ok r →
        (r.error = some GError.TYPE
          ↔ tracker_property_get_data_type m P ≠ TrackerPropertyType.RESOURCE))
    ∧ (tracker_property_get_data_type m P = TrackerPropertyType.RESOURCE →
      tracker_data_insert_statement_with_string m fuel data graph subject predicate object
        = Except.ok { data := data, error := some GError.TYPE, val := () })
    ∧ (∀ r, tracker_data_insert_statement_with_string m fuel data graph subject predicate
          object = Except.ok r →
        (r.error = some GError.TYPE
          ↔ tracker_property_get_data_type m P = TrackerPropertyType.RESOURCE))
    ∧ (∀ r, tracker_data_insert_statement m fuel data graph subject predicate (some object)
          = Except.ok r → r.error ≠ some GError.TYPE)
    ∧ (∀ (other : String) (r : Ret Unit),
        (tracker_data_insert_statement_with_uri m fuel data graph subject other object
            = Except.ok r
          ∨ tracker_data_insert_statement_with_string m fuel data graph subject other object
            = Except.ok r
          ∨ tracker_data_insert_statement m fuel data graph subject other (some object)
            = Except.ok r) →
        (r.error = some GError.TYPE ∨ r.error = some GError.UNKNOWN_PROPERTY) →
        r.data = data) := by
  have huri : tracker_property_get_data_type m P ≠ TrackerPropertyType.RESOURCE →
      tracker_data_insert_statement_with_uri m fuel data graph subject predicate object
        = Except.ok { data := data, error := some GError.TYPE, val := () } := by
    intro hty
    simp [tracker_data_insert_statement_with_uri, htx, hp, hty]
  have hstr : tracker_property_get_data_type m P = TrackerPropertyType.RESOURCE →
      tracker_data_insert_statement_with_string m fuel data graph subject predicate object
        = Except.ok { data := data, error := some GError.TYPE, val := () } := by
    intro hty
    simp [tracker_data_insert_statement_with_string, htx, hp, hty]
  refine ⟨huri, ?_, hstr, ?_, ?_, ?_⟩
  · intro r h
    constructor
    · intro he hty
      exact (InnerError.not_early hcollab
        (insert_statement_with_uri_error m fuel data graph subject predicate object P htx hp
          hty h he)).1 rfl
    · intro hty
      rw [huri hty] at h
      cases h
      rfl
  · intro r h
    constructor
    · intro he
      by_contra hty
      exact (InnerError.not_early hcollab
        (insert_statement_with_string_error m fuel data graph subject predicate object P htx
          hp hty h he)).1 rfl
    · intro hty
      rw [hstr hty] at h
      cases h
      rfl
  · intro r h he
    simp only [tracker_data_insert_statement, htx, Bool.not_true, Bool.false_eq_true, if_false,
      hp] at h
    by_cases hty : tracker_property_get_data_type m P = TrackerPropertyType.RESOURCE
    · rw [if_pos hty] at h
      exact (InnerError.not_early hcollab
        (insert_statement_with_uri_error m fuel data graph subject predicate object P htx hp
          hty h he)).1 rfl
    · rw [if_neg hty] at h
      exact (InnerError.not_early hcollab
        (insert_statement_with_string_error m fuel data graph subject predicate object P htx
          hp hty h he)).1 rfl
  · intro other r h he
    cases ho : tracker_ontologies_get_property_by_uri m other with
    | none =>
      simp only [tracker_data_insert_statement_with_uri,
        tracker_data_insert_statement_with_string, tracker_data_insert_statement, htx,
        Bool.not_true, Bool.false_eq_true, if_false, ho] at h
      rcases h with h | h | h <;> cases h <;> rfl
    | some Q =>
      have hno : ∀ e, InnerError m e → ¬ (r.error = some e) := by
        intro e hi hre
        rw [hre] at he
        have := InnerError.not_early hcollab hi
        rcases he with he | he
        · exact this.1 (Option.some.inj he)
        · exact this.2 (Option.some.inj he)
      by_cases hty : tracker_property_get_data_type m Q = TrackerPropertyType.RESOURCE
      · rcases h with h | h | h
        · cases hre : r.error with
          | none => simp [hre] at he
          | some e =>
            exact absurd hre (hno e (insert_statement_with_uri_error m fuel data graph subject
              other object Q htx ho hty h hre))
        · simp only [tracker_data_insert_statement_with_string, htx, Bool.not_true,
            Bool.false_eq_true, if_false, ho, hty, if_true] at h
          cases h
          rfl
        · simp only [tracker_data_insert_statement, htx, Bool.not_true, Bool.false_eq_true,
            if_false, ho, hty, if_true] at h
          cases hre : r.error with
          | none => simp [hre] at he
          | some e =>
            exact absurd hre (hno e (insert_statement_with_uri_error m fuel data graph subject
              other object Q htx ho hty h hre))
      · rcases h with h | h | h
        · simp only [tracker_data_insert_statement_with_uri, htx, Bool.not_true,
            Bool.false_eq_true, if_false, ho, ne_eq, hty, not_false_eq_true, if_true] at h
          cases h
          rfl
        · cases hre : r.error with
          | none => simp [hre] at he
          | some e =>
            exact absurd hre (hno e (insert_statement_with_string_error m fuel data graph
              subject other object Q htx ho hty h hre))
        · simp only [tracker_data_insert_statement, htx, Bool.not_true, Bool.false_eq_true,
            if_false, ho, hty] at h
          cases hre : r.error with
          | none => simp [hre] at he
          | some e =>
            exact absurd hre (hno e (insert_statement_with_string_error m fuel data graph
              subject other object Q htx ho hty h hre))

/-- C16 (witness): the statement applied to the photo `ex:a` and the
string-typed property `nie:description`: the insert of a URI returns `TYPE`
and the state it was called on. -/
theorem type_errors_of_insert_statements_witness :
    described_photo.in_transaction = true
    ∧ tracker_ontologies_get_property_by_uri example_manager "nie:description" = some 2
    ∧ tracker_property_get_data_type example_manager 2 ≠ TrackerPropertyType.RESOURCE
    ∧ tracker_data_insert_statement_with_uri example_manager 10 described_photo none "ex:a"
        "nie:description" (plain "ex:b")
      = Except.ok { data := described_photo, error := some GError.TYPE, val := () }
    ∧ (∀ r, tracker_data_insert_statement example_manager 10 described_photo none "ex:a"
          "nie:description" (some (plain "ex:b")) = Except.ok r →
        r.error ≠ some GError.TYPE) :=
  have h := type_errors_of_insert_statements example_manager 10 described_photo none "ex:a"
    "nie:description" (plain "ex:b") 2 (by decide!) (by decide) example_collaborator_errors
  ⟨by decide!, by decide, by decide, h.1 (by decide), h.2.2.2.2.1⟩

/-! ## The claim on value sets as sets -/

/-- C14 (counterexample): with times in microseconds, the value set built from
the empty sequence by adding the date-times 0 and 1500 holds both (they differ
by 1.5 ms); removing the date-time 800, which is within 1 ms of both, returns
true and removes the first one, and the remaining date-time 1500 is still
equal to 800 for `value_equal`. -/
theorem removed_time_still_has_an_equal :
    build_value_set microsecond_manager
        [ValueSetOp.add (microseconds 0), ValueSetOp.add (microseconds 1500)] []
      = Except.ok [microseconds 0, microseconds 1500]
    ∧ value_set_remove_value microsecond_manager [microseconds 0, microseconds 1500]
        (some (microseconds 800)) = Except.ok ([microseconds 1500], true)
    ∧ value_equal microsecond_manager (microseconds 1500) (microseconds 800)
      = Except.ok true := by
  decide

/-- C14 (amended): for every value set `S` built from the empty sequence by
`value_set_add_value` and `value_set_remove_value` on strings, integers,
doubles and date-times, and every such value `v`, `value_set_remove_value`
returns; it returns true if and only if some element of `S` is equal to `v`
for `value_equal`, and then removes the first such element and no other; and
when `v` is no date-time, no element of the set is equal to `v` afterwards.
The comparison of doubles is the `==` of C, for which two doubles equal to a
third are equal. -/
theorem remove_value_of_built_set (m : TrackerDataManager) (ops : List ValueSetOp) (v : GValue)
    (hops : ∀ op ∈ ops, has_equality op.value = true) (hv : has_equality v = true)
    (hdouble : ∀ x y z, m.double_eq x z = true → m.double_eq y z = true →
      m.double_eq x y = true) :
    ∃ S S' found, build_value_set m ops [] = Except.ok S
      ∧ value_set_remove_value m S (some v) = Except.ok (S', found)
      ∧ (found = true ↔ ∃ x ∈ S, value_equal m x v = Except.ok true)
      ∧ (found = true → ∃ pre x post, S = pre ++ x :: post ∧ S' = pre ++ post
          ∧ value_equal m x v = Except.ok true
          ∧ ∀ y ∈ pre, value_equal m y v = Except.ok false)
      ∧ (found = false → S' = S)
      ∧ (is_date_time v = false → ∀ y ∈ S', value_equal m y v = Except.ok false) := by
  obtain ⟨S, hb, hS⟩ := build_value_set_distinct m ops []
    ⟨fun x hx => by simp at hx, List.Pairwise.nil⟩ hops
  obtain ⟨S', found, hr, h1, h2⟩ := value_set_remove_first_spec m v hv S hS.1
  refine ⟨S, S', found, hb, by simp [value_set_remove_value, hr], ?_, h1, fun h => (h2 h).1, ?_⟩
  · constructor
    · intro hf
      obtain ⟨pre, x, post, e1, _, e3, _⟩ := h1 hf
      exact ⟨x, by simp [e1], e3⟩
    · rintro ⟨x, hx, hxv⟩
      cases found with
      | true => rfl
      | false =>
        have := (h2 rfl).2 x hx
        rw [this] at hxv
        cases hxv
  · intro hd y hy
    cases found with
    | false =>
      obtain ⟨e1, e2⟩ := h2 rfl
      rw [e1] at hy
      exact e2 y hy
    | true =>
      obtain ⟨pre, x, post, e1, e2, e3, e4⟩ := h1 rfl
      rw [e2] at hy
      rcases List.mem_append.mp hy with hy | hy
      · exact e4 y hy
      · have hp := hS.2
        rw [e1, List.pairwise_append] at hp
        have hxy : value_equal m x y = Except.ok false :=
          (List.pairwise_cons.mp hp.2.1).1 y hy
        have hyS : y ∈ S := by
          rw [e1]
          simp [hy]
        obtain ⟨c, hc⟩ := value_equal_returns m y v (hS.1 y hyS) hv
        cases c with
        | false => exact hc
        | true =>
          have := value_equal_of_equal_to m x y v hdouble hd e3 hc
          rw [this] at hxy
          cases hxy

/-- C14 (witness): the amended statement applied to the example manager, the
set built by adding `a`, adding `b`, adding `a` again and removing `c`, and
the removal of `a`. -/
theorem remove_value_of_built_set_witness :
    build_value_set example_manager
        [ValueSetOp.add (GValue.string "a"), ValueSetOp.add (GValue.string "b"),
         ValueSetOp.add (GValue.string "a"), ValueSetOp.remove (GValue.string "c")] []
      = Except.ok [GValue.string "a", GValue.string "b"]
    ∧ value_set_remove_value example_manager [GValue.string "a", GValue.string "b"]
        (some (GValue.string "a")) = Except.ok ([GValue.string "b"], true)
    ∧ ∃ S S' found, build_value_set example_manager
          [ValueSetOp.add (GValue.string "a"), ValueSetOp.add (GValue.string "b"),
           ValueSetOp.add (GValue.string "a"), ValueSetOp.remove (GValue.string "c")] []
        = Except.ok S
      ∧ value_set_remove_value example_manager S (some (GValue.string "a"))
        = Except.ok (S', found)
      ∧ (found = true ↔ ∃ x ∈ S, value_equal example_manager x (GValue.string "a")
          = Except.ok true)
      ∧ (found = true → ∃ pre x post, S = pre ++ x :: post ∧ S' = pre ++ post
          ∧ value_equal example_manager x (GValue.string "a") = Except.ok true
          ∧ ∀ y ∈ pre, value_equal example_manager y (GValue.string "a") = Except.ok false)
      ∧ (found = false → S' = S)
      ∧ (is_date_time (GValue.string "a") = false →
          ∀ y ∈ S', value_equal example_manager y (GValue.string "a") = Except.ok false) :=
  ⟨by decide, by decide,
    remove_value_of_built_set example_manager
      [ValueSetOp.add (GValue.string "a"), ValueSetOp.add (GValue.string "b"),
       ValueSetOp.add (GValue.string "a"), ValueSetOp.remove (GValue.string "c")]
      (GValue.string "a") (by decide) (by decide)
      (fun x y z h1 h2 => by
        simp only [example_manager, decide_eq_true_eq] at h1 h2 ⊢
        rw [h1, h2])⟩

/-! ## The claim on the stamp `nrl:modified` -/

/-- C20 (counterexample): the flush of the draft of the new resource `ex:a`,
which received the staging operations of `rdf:type nmm:Photo`, emits an INSERT
into `rdfs:Resource` that names the column `nrl:modified` twice (both bound to
the modification sequence 1), and the flush of the draft of the stored `ex:a`
after the delete of its type `rdfs:Resource` emits no assignment of the column
at all; a draft of the stored `ex:a` that received the insert of a codec is
stamped once.  On the level of staging operations: a row insert into
`rdfs:Resource` gives two bindings, a row delete none, the delete of a value
in `rdfs:Resource` binds `NULL`, and the insert of a value into the column
`nrl:modified` itself gives a second binding. -/
theorem flush_stamps_twice_or_never :
    (returned_data (example_run make_photo)).bind (flush_bindings example_manager)
      = some [SqlValue.integer 1, SqlValue.integer 1]
    ∧ (returned_data (example_run (make_photo ++ [Call.flush,
        Call.delete "ex:a" RDF_TYPE_URI (plain RDFS_RESOURCE_URI)]))).bind
        (flush_bindings example_manager) = some []
    ∧ (returned_data (example_run (make_photo ++ [Call.flush,
        Call.insert "ex:a" "nfo:codec" (plain "v")]))).bind
        (flush_bindings example_manager) = some [SqlValue.integer 1]
    ∧ (run_staging example_manager [StagingOp.insert_row 0] new_draft).toOption.bind
        (flush_bindings example_manager) = some [SqlValue.integer 1, SqlValue.integer 1]
    ∧ (run_staging example_manager [StagingOp.delete_row 0] reselected_photo).toOption.bind
        (flush_bindings example_manager) = some []
    ∧ (run_staging example_manager
        [StagingOp.delete_value "rdfs:Resource" "nao:numericRating" (GValue.int64 5) false false
          false] reselected_photo).toOption.bind
        (flush_bindings example_manager) = some [SqlValue.null]
    ∧ (run_staging example_manager
        [StagingOp.insert_value "rdfs:Resource" "nrl:modified" (GValue.int64 7) false false
          false] reselected_photo).toOption.bind
        (flush_bindings example_manager) = some [SqlValue.integer 1, SqlValue.integer 7] := by
  decide!

/-- C20 (amended): for a draft that has received no staging operation yet and
then receives at least one, each on a table other than `rdfs:Resource` or an
insert of a value into a column of `rdfs:Resource` other than `nrl:modified`,
on a store that accepts every statement: the staging returns, the flush of the
draft returns without error, and the statements it emits bind a value to the
column `nrl:modified` of `rdfs:Resource` exactly once; that value is what
`get_transaction_modseq` returns, at the flush as at the first staging
operation, which is 1 in an ontology transaction. -/
theorem flush_stamps_modified_once (m : TrackerDataManager) (data : TrackerData)
    (rb : TrackerDataUpdateBufferResource) (op : StagingOp) (ops : List StagingOp)
    (hrb : data.resource_buffer = some rb) (hfresh : rb.modified = false)
    (htables : rb.tables = [])
    (hspare : ∀ o ∈ op :: ops, o.spares_stamp m = true)
    (hstore : ∀ s, m.db_error s = none) :
    ∃ data' rb' data'' emitted,
      run_staging m (op :: ops) data = Except.ok data'
      ∧ data'.resource_buffer = some rb'
      ∧ tracker_data_resource_buffer_flush m data' rb' = Except.ok (data'', none)
      ∧ data''.db.journal = data'.db.journal ++ emitted
      ∧ emitted.flatMap SqlStmt.modified_bindings
        = [SqlValue.integer (get_transaction_modseq data').2]
      ∧ (get_transaction_modseq data').2 = (get_transaction_modseq data).2
      ∧ (data'.in_ontology_transaction = true → (get_transaction_modseq data').2 = 1) := by
  obtain ⟨d1, rb1, h1, h2, h3, h4, h5, h6⟩ :=
    StagingOp.run_fresh m data rb op hrb hfresh htables (hspare op (by simp))
  obtain ⟨d2, rb2, e1, e2, e3, e4, e5, e6⟩ := run_staging_stamped m ops _ d1 rb1 h2 h3
    (fun o ho => hspare o (by simp [ho]))
  obtain ⟨d3, em, f1, f2, f3⟩ := resource_buffer_flush_stamped m d2 rb2 _ e3 hstore
  have hk := get_transaction_modseq_again data d2 (e4.trans h4) (e5.trans h5) (e6.trans h6)
  refine ⟨d2, rb2, d3, em, by simp [run_staging, h1, e1], e2, f1, f2, by rw [f3, hk], hk, ?_⟩
  intro ho
  simp only [get_transaction_modseq]
  split_ifs <;> simp_all

/-- C20 (witness): the amended statement applied to the draft of the stored
photo `ex:a` and three staging operations: a codec, a rating in
`rdfs:Resource` and the row delete of `nmm:Photo`. -/
theorem flush_stamps_modified_once_witness :
    reselected_photo.resource_buffer = some reselected_rb
    ∧ reselected_rb.modified = false ∧ reselected_rb.tables = []
    ∧ (get_transaction_modseq reselected_photo).2 = 1
    ∧ ∃ data' rb' data'' emitted,
      run_staging example_manager
          [StagingOp.insert_value "nfo:Media" "nfo:codec" (GValue.string "v2") false false false,
           StagingOp.insert_value "rdfs:Resource" "nao:numericRating" (GValue.int64 5) false
             false false,
           StagingOp.delete_row 3] reselected_photo = Except.ok data'
      ∧ data'.resource_buffer = some rb'
      ∧ tracker_data_resource_buffer_flush example_manager data' rb' = Except.ok (data'', none)
      ∧ data''.db.journal = data'.db.journal ++ emitted
      ∧ emitted.flatMap SqlStmt.modified_bindings
        = [SqlValue.integer (get_transaction_modseq data').2]
      ∧ (get_transaction_modseq data').2 = (get_transaction_modseq reselected_photo).2
      ∧ (data'.in_ontology_transaction = true → (get_transaction_modseq data').2 = 1) :=
  ⟨by decide!, by decide!, by decide!, by decide!,
    flush_stamps_modified_once example_manager reselected_photo reselected_rb
      (StagingOp.insert_value "nfo:Media" "nfo:codec" (GValue.string "v2") false false false)
      [StagingOp.insert_value "rdfs:Resource" "nao:numericRating" (GValue.int64 5) false false
         false,
       StagingOp.delete_row 3]
      (by decide!) (by decide!) (by decide!) (by decide) (fun s => rfl)⟩
/-! ## The claims on ids -/

/-- C22 (counterexample): for the new URI `_:b` the row inserted into
`Resource` has `BlankNode` 0, for `urn:bnode:1` it has 1. -/
theorem ensure_resource_id_leaves_label_unmarked :
    added_resources 4 (ensure_resource_id example_manager example_data "_:b")
      = some [(100001, "_:b", 0)]
    ∧ added_resources 4 (ensure_resource_id example_manager example_data "urn:bnode:1")
      = some [(100001, "urn:bnode:1", 1)] := by
  decide!

/-- C22 (amended): when `ensure_resource_id` finds no id for the URI, gets a
positive id from `tracker_data_update_get_new_service_id` and the store accepts
the statement, it returns that id with `create` set and has inserted the row
(id, uri, is_blank) into `Resource`, where is_blank is 1 if the URI starts with
`urn:bnode:` and 0 otherwise. -/
theorem ensure_resource_id_marks_urn_bnodes (m : TrackerDataManager) (data : TrackerData)
    (uri : String) (hstore : ∀ s, m.db_error s = none)
    (hnew : (query_resource_id data uri).2 = 0)
    (hid : 0 < (tracker_data_update_get_new_service_id m (query_resource_id data uri).1).2) :
    ∃ data1 id, ensure_resource_id m data uri = Except.ok (data1, id, true)
      ∧ id = (tracker_data_update_get_new_service_id m (query_resource_id data uri).1).2
      ∧ data1.db.resource = data.db.resource
          ++ [(id, uri, if g_str_starts_with uri "urn:bnode:" = true then 1 else 0)]
      ∧ data1.db.journal = data.db.journal
          ++ [SqlStmt.insert_resource [SqlValue.integer id, SqlValue.text uri,
                SqlValue.integer (if g_str_starts_with uri "urn:bnode:" = true then 1 else 0)]] := by
  have hq : (query_resource_id data uri).1.db = data.db := by
    simp only [query_resource_id]
    split_ifs <;> rfl
  have hn : (tracker_data_update_get_new_service_id m (query_resource_id data uri).1).1.db
      = data.db := by
    rw [← hq]
    simp only [tracker_data_update_get_new_service_id]
    split_ifs <;> rfl
  unfold ensure_resource_id
  simp only
  rw [if_pos hnew, if_pos hid, exec_accepted m _ _ hstore]
  refine ⟨_, _, rfl, rfl, ?_, ?_⟩
  · simp [Database.apply, SqlValue.to_int, hn]
  · simp [Database.apply, hn]

/-- C22 (witness): the URI `urn:bnode:1` on the example store. -/
theorem ensure_resource_id_marks_urn_bnodes_witness :
    ∃ data1 id, ensure_resource_id example_manager example_data "urn:bnode:1"
        = Except.ok (data1, id, true)
      ∧ id = (tracker_data_update_get_new_service_id example_manager
          (query_resource_id example_data "urn:bnode:1").1).2
      ∧ data1.db.resource = example_data.db.resource
          ++ [(id, "urn:bnode:1", if g_str_starts_with "urn:bnode:1" "urn:bnode:" = true then 1 else 0)]
      ∧ data1.db.journal = example_data.db.journal
          ++ [SqlStmt.insert_resource [SqlValue.integer id, SqlValue.text "urn:bnode:1",
                SqlValue.integer (if g_str_starts_with "urn:bnode:1" "urn:bnode:" = true
                  then 1 else 0)]] :=
  ensure_resource_id_marks_urn_bnodes example_manager example_data "urn:bnode:1"
    (fun _ => rfl) (by decide) (by decide)

/-- C24 (code at the failing input): the stored photo `ex:a` has the codec
`v1`; the delete of `v1` and the insert of `v2` in one draft return without
error, stage both cells in table `nfo:Media` and leave `[v2]` as the value set
of the draft.  The flush returns without error and emits one UPDATE of
`nfo:Media` that binds `NULL` to both cells, that of the insert included, so
the stored codec is `NULL` and not `v2`. -/
theorem flush_binds_null_to_staged_insert :
    returned_error (run_calls example_manager 10 none (replace_codec ++ [Call.flush])
      { data := stored_codec, error := none, val := () }) = some none
    ∧ (returned_data (run_calls example_manager 10 none replace_codec
        { data := stored_codec, error := none, val := () })).map
          (fun d => (staged_in d "nfo:Media", draft_values d 5))
      = some ([("nfo:codec", some (GValue.string "v1")), ("nfo:codec", some (GValue.string "v2"))],
              some [GValue.string "v2"])
    ∧ (returned_data (run_calls example_manager 10 none (replace_codec ++ [Call.flush])
        { data := stored_codec, error := none, val := () })).map
          (fun d => (d.db.journal.drop stored_codec.db.journal.length,
                     stored_column d.db "main" "nfo:Media" 100001 "nfo:codec"))
      = some ([SqlStmt.update_row "main" "rdfs:Resource" ["nrl:modified"]
                 [SqlValue.integer 1, SqlValue.integer 100001],
               SqlStmt.update_row "main" "nfo:Media" ["nfo:codec", "nfo:codec"]
                 [SqlValue.null, SqlValue.null, SqlValue.integer 100001]],
              [SqlValue.null]) := by
  decide!

/-- C25 (code at the failing input): the stored photo `ex:a` has the keyword
`b`; the insert of the keyword `a` and the delete of `b` in one draft return
without error and leave `[a]` as the value set of the draft.  The flush returns
without error and emits a DELETE for `a` and a DELETE for `b`: no keyword is
stored for `ex:a`. -/
theorem flush_deletes_staged_insert :
    stored_column stored_keyword.db "main" "nie:InformationElement_nie:keyword" 100001
        "nie:keyword" = [SqlValue.text "b"]
    ∧ returned_error (run_calls example_manager 10 none (swap_keyword ++ [Call.flush])
      { data := stored_keyword, error := none, val := () }) = some none
    ∧ (returned_data (run_calls example_manager 10 none swap_keyword
        { data := stored_keyword, error := none, val := () })).map
          (fun d => draft_values d 3)
      = some (some [GValue.string "a"])
    ∧ (returned_data (run_calls example_manager 10 none (swap_keyword ++ [Call.flush])
        { data := stored_keyword, error := none, val := () })).map
          (fun d => (d.db.journal.drop stored_keyword.db.journal.length,
                     stored_column d.db "main" "nie:InformationElement_nie:keyword" 100001
                       "nie:keyword"))
      = some ([SqlStmt.update_row "main" "rdfs:Resource" ["nrl:modified"]
                 [SqlValue.integer 1, SqlValue.integer 100001],
               SqlStmt.delete_value "main" "nie:InformationElement_nie:keyword" "nie:keyword"
                 [SqlValue.integer 100001, SqlValue.text "a"],
               SqlStmt.delete_value "main" "nie:InformationElement_nie:keyword" "nie:keyword"
                 [SqlValue.integer 100001, SqlValue.text "b"]],
              []) := by
  decide!

/-! ## The claims on updates with a null object -/

/-- C27 (code at the failing input): the committed store holds the photo `ex:a`
with the codec `v1` and the engine's modification sequence is 2.  A
transaction that consists of the update of `nfo:codec` with a null object
commits without error, has written to the store (it stamps `nrl:modified` of
`ex:a` with 2 and removes the codec) and leaves the modification sequence at 2,
whereas the same transaction with a delete statement leaves it at 3; the next
transaction stamps the new resource `ex:b` with 2 again. -/
theorem null_update_commits_without_new_modseq :
    (committed_codec.in_transaction, committed_codec.transaction_modseq) = (false, 2)
    ∧ (run_transaction example_manager 10 [Call.update "ex:a" "nfo:codec" none]
        committed_codec).map
          (fun d => (d.in_transaction, d.transaction_modseq,
                     d.db.journal.drop committed_codec.db.journal.length,
                     stored_column d.db "main" "rdfs:Resource" 100001 "nrl:modified"))
      = some (false, 2,
              [SqlStmt.update_row "main" "rdfs:Resource" ["nrl:modified"]
                 [SqlValue.integer 2, SqlValue.integer 100001],
               SqlStmt.delete_id "main" "nfo:Media" [SqlValue.integer 100001]],
              [SqlValue.integer 2])
    ∧ (run_transaction example_manager 10 [Call.delete "ex:a" "nfo:codec" (plain "v1")]
        committed_codec).map (fun d => (d.in_transaction, d.transaction_modseq))
      = some (false, 3)
    ∧ ((run_transaction example_manager 10 [Call.update "ex:a" "nfo:codec" none]
        committed_codec).bind
          (run_transaction example_manager 10
            [Call.insert "ex:b" RDF_TYPE_URI (plain "nmm:Photo")])).map
          (fun d => stored_column d.db "main" "rdfs:Resource" 100002 "nrl:modified")
      = some [SqlValue.integer 2] := by
  decide!

/-- C30 (code at the failing input): the stored photo `ex:a` has the codec `v1`
and the interlace mode `true` in its row of table `nfo:Media`.  The update of
the single-valued `nfo:codec` with a null object returns without error and
emits `DELETE FROM "nfo:Media" WHERE ID = ?` for `ex:a`: the whole row of the
class table is deleted and the interlace mode is lost with it. -/
theorem null_update_deletes_class_table_row :
    (stored_media.db.rows_of "main" "nfo:Media").map (fun r => (r.id, r.cols))
      = [(100001, [("nfo:codec", SqlValue.text "v1"),
                   ("nfo:interlaceMode", SqlValue.integer 1)])]
    ∧ returned_error (tracker_data_update_statement example_manager 10 stored_media none
        "ex:a" "nfo:codec" none) = some none
    ∧ (returned_data (tracker_data_update_statement example_manager 10 stored_media none
        "ex:a" "nfo:codec" none)).map
          (fun d => (d.db.journal.drop stored_media.db.journal.length,
                     d.db.rows_of "main" "nfo:Media",
                     stored_column d.db "main" "nfo:Media" 100001 "nfo:interlaceMode"))
      = some ([SqlStmt.update_row "main" "rdfs:Resource" ["nrl:modified"]
                 [SqlValue.integer 1, SqlValue.integer 100001],
               SqlStmt.delete_id "main" "nfo:Media" [SqlValue.integer 100001]],
              [], []) := by
  decide!

/-- C29 (code at the failing input): for every object, `bytes_to_gvalue`
decodes it for the type `rdf:langString` to a value of type `G_TYPE_BYTES`; for
every property type and every two values `bytes_to_gvalue` produces for it,
`value_equal` runs into `g_assert_not_reached` if and only if the type is
`rdf:langString`, and returns a boolean if and only if it is another type. -/
theorem value_equal_aborts_on_decoded_language_strings (m : TrackerDataManager)
    (data1 data2 : TrackerData) (bytes1 bytes2 : GBytes) (type : TrackerPropertyType) :
    decoded m data1 bytes1 TrackerPropertyType.LANGSTRING = some (GValue.bytes bytes1)
    ∧ match decoded m data1 bytes1 type, decoded m data2 bytes2 type with
      | some value1, some value2 =>
          (aborted_with (value_equal m value1 value2) = some Fatal.assertion_failed
            ↔ type = TrackerPropertyType.LANGSTRING)
          ∧ (aborted_with (value_equal m value1 value2) = none
            ↔ type ≠ TrackerPropertyType.LANGSTRING)
      | _, _ => True := by
  refine ⟨rfl, ?_⟩
  split
  · rename_i value1 value2 h1 h2
    rcases decoded_shape m data1 bytes1 type value1 h1 with ⟨ht, b1, rfl⟩ | ⟨ht, hs1⟩
    · rcases decoded_shape m data2 bytes2 type value2 h2 with ⟨_, b2, rfl⟩ | ⟨ht2, _⟩
      · simp [value_equal, G_VALUE_TYPE, aborted_with, ht]
      · exact absurd ht ht2
    · rcases decoded_shape m data2 bytes2 type value2 h2 with ⟨ht2, _⟩ | ⟨_, hs2⟩
      · exact absurd ht2 ht
      · rcases hs1 with ⟨s, rfl⟩ | ⟨i, rfl⟩ | ⟨d, rfl⟩ | ⟨t, o, rfl⟩ <;>
          rcases hs2 with ⟨s2, rfl⟩ | ⟨i2, rfl⟩ | ⟨d2, rfl⟩ | ⟨t2, o2, rfl⟩ <;>
          simp [value_equal, G_VALUE_TYPE, aborted_with, ht]
  · trivial

/-! ## The claim on domain indexes -/

end Tracker
